import Mathlib

/-!
# SmartBus: a shallow embedding of the server handlers and client reducers

The Express handlers of `Server/src/controllers` are embedded as pure
functions from the request and the database tables they query to the
response they send (and, where they write, the table afterwards); the two
timers of `Server/index.js` as functions from the rows they fetch to the events
they emit.  The React state updates of `NotificationScreen.jsx`,
`MapViewComponent.jsx` and `RouteTimelineCard.jsx` are embedded as functions on
the component state.

Conventions.
* JavaScript values that reach a truthiness test, a regular expression or a
  template string are `JsVal`s; `truthy` and `toStr` are the language's
  `ToBoolean` and `ToString` on them.
* What the source leaves to an external library whose code is not part of the
  repository (bcrypt, jsonwebtoken, the MySQL driver's connection flags and the
  server's comparison of an integer column with a string parameter) is a
  parameter of the embedded function.
* Definitions come first, theorems afterwards.
-/

set_option autoImplicit false

namespace SmartBus

/-! ## JavaScript values -/

/-- The JSON-representable primitives a request body, query string or result
column can hold, with `undefined` for an absent property.  Numbers are the
integer-valued ones, which below `10 ^ 21` print as their decimal digits. -/
inductive JsVal where
  | undefined
  | null
  | bool (b : Bool)
  | num (n : Int)
  | str (s : String)
  deriving DecidableEq

namespace JsVal

/-- ECMAScript `ToBoolean`: what `!v`, `v ? a : b` and `v || d` test. -/
def truthy : JsVal → Bool
  | undefined => false
  | null => false
  | bool b => b
  | num n => n != 0
  | str s => s != ""

/-- ECMAScript `ToString`, applied by `RegExp.prototype.test` and by template
strings to their argument. -/
def toStr : JsVal → String
  | undefined => "undefined"
  | null => "null"
  | bool true => "true"
  | bool false => "false"
  | num n => toString n
  | str s => s

/-- The JavaScript expression `v || d`. -/
def orElse (v d : JsVal) : JsVal := if v.truthy then v else d

end JsVal

/-! ## JavaScript strings and numbers -/

/-- The white space `parseInt` skips at the start of its input: the code
points of `StrWhiteSpaceChar`. -/
def isWhiteSpace (c : Char) : Bool :=
  [9, 10, 11, 12, 13, 32, 160, 5760, 8232, 8233, 8239, 8287, 12288, 65279].contains c.toNat ||
    (8192 ≤ c.toNat && c.toNat ≤ 8202)

/-- The value of a character as a digit of the radix, if it is one. -/
def digitValue (radix : Nat) (c : Char) : Option Nat :=
  let value : Option Nat :=
    if 48 ≤ c.toNat && c.toNat ≤ 57 then some (c.toNat - 48)
    else if 97 ≤ c.toNat && c.toNat ≤ 122 then some (c.toNat - 87)
    else if 65 ≤ c.toNat && c.toNat ≤ 90 then some (c.toNat - 55)
    else none
  value.filter fun v => v < radix

/-- The number the longest prefix of digits denotes, continuing from the value
`acc` of the digits read so far (`none` before the first digit). -/
def readDigits (radix : Nat) : List Char → Option Nat → Option Nat
  | [], acc => acc
  | c :: rest, acc =>
    match digitValue radix c with
    | some v => readDigits radix rest (some (acc.getD 0 * radix + v))
    | none => acc

/-- The input of `parseInt` after its sign: digits of radix 16 after a prefix
`0x` or `0X`, of radix 10 otherwise. -/
def readUnsigned : List Char → Option Nat
  | '0' :: 'x' :: rest => readDigits 16 rest none
  | '0' :: 'X' :: rest => readDigits 16 rest none
  | cs => readDigits 10 cs none

/-- `parseInt(text)` on the characters of the text, `none` for `NaN`: leading
white space, an optional sign, then the digits.  The value is the exact
integer, which is the result of `parseInt` below `2 ^ 53`. -/
def parseIntChars (cs : List Char) : Option Int :=
  match cs.dropWhile isWhiteSpace with
  | '-' :: rest => (readUnsigned rest).map fun n => -(n : Int)
  | '+' :: rest => (readUnsigned rest).map fun n => (n : Int)
  | rest => (readUnsigned rest).map fun n => (n : Int)

/-- The JavaScript function `parseInt` with one argument, a string. -/
def parseInt (text : String) : Option Int := parseIntChars text.toList

/-- The segments of `String.prototype.split` for a separator of one
character. -/
def splitOn (sep : Char) : List Char → List (List Char)
  | [] => [[]]
  | c :: rest =>
    if c = sep then [] :: splitOn sep rest
    else
      match splitOn sep rest with
      | [] => [[c]]
      | seg :: segs => (c :: seg) :: segs

/-- `String.prototype.slice(start, stop)` for `0 <= start <= stop`. -/
def slice (text : String) (start stop : Nat) : String :=
  String.mk ((text.toList.drop start).take (stop - start))

/-- `String(n).padStart(2, '0')` for a natural number. -/
def pad2 (n : Nat) : String := if n < 10 then "0" ++ toString n else toString n

/-- The first five characters of `toTimeString()`, `HH:MM`, for a time that
falls on minute `minute` of the day. -/
def clockText (minute : Nat) : String :=
  pad2 (minute / 60 % 24) ++ ":" ++ pad2 (minute % 60)

/-! ## The database connection -/

/-- The connection the controllers query through.  `foundRows` is the
client flag `CLIENT_FOUND_ROWS` (set by default by the promise driver the
handlers destructure results of): with it `affectedRows` of an `UPDATE` counts
the rows the `WHERE` clause matched, without it the rows whose values changed.
`numEq` is the server's comparison of an integer column with a string
parameter such as a path segment. -/
structure SqlEnv where
  foundRows : Bool
  numEq : Nat → String → Bool

/-- The server's comparison `column = ?` of an integer column with a bound
JavaScript value: exact for a number, `numEq` for a string, never true for
`NULL`. -/
def SqlEnv.intEq (env : SqlEnv) (column : Nat) : JsVal → Bool
  | .num n => (column : Int) == n
  | .str s => env.numEq column s
  | .bool b => column == (if b then 1 else 0)
  | .null => false
  | .undefined => false

/-! ## The tables -/

/-- A row of `buses`. -/
structure Bus where
  bus_id : Nat
  bus_number : String
  capacity : Nat
  status : String
  current_driver_id : Option Nat
  deriving DecidableEq

/-- A row of `drivers`. -/
structure Driver where
  driver_id : Nat
  name : String
  mobile : String
  deriving DecidableEq

/-- A row of `driver_sessions`; the session is open while `end_time` is
`NULL`. -/
structure DriverSession where
  session_id : Nat
  bus_id : Nat
  driver_id : Nat
  route_id : Option Nat
  end_time : Option Nat
  deriving DecidableEq

/-- A row of `routes`. -/
structure Route where
  route_id : Nat
  source_name : String
  destination_name : String
  total_distance_km : JsVal
  deriving DecidableEq

/-- A row of `stops`. -/
structure Stop where
  stop_id : Nat
  route_id : Nat
  stop_name : String
  sequence_no : Nat
  stop_lat : JsVal
  stop_lon : JsVal
  deriving DecidableEq

/-- A row of `route_progress`. -/
structure RouteProgress where
  session_id : Nat
  stop_id : Nat
  arrival_time : JsVal
  departure_time : JsVal
  deriving DecidableEq

/-- A row of `eta_predictions`. -/
structure EtaPrediction where
  bus_id : Nat
  stop_id : Nat
  predicted_arrival : JsVal
  minutes_remaining : JsVal
  deriving DecidableEq

/-- The tables the bus and route controllers read. -/
structure Database where
  buses : List Bus
  drivers : List Driver
  driver_sessions : List DriverSession
  routes : List Route
  stops : List Stop
  route_progress : List RouteProgress
  eta_predictions : List EtaPrediction

/-- The right-hand rows of a `LEFT JOIN` for one left-hand row: the matches,
or a single `NULL` row when there is none. -/
def nullExtend {β : Type} : List β → List (Option β)
  | [] => [none]
  | b :: bs => (b :: bs).map some

/-- An `ORDER BY key` (ascending); rows with equal keys keep their order. -/
def orderBy {α : Type} (key : α → Nat) (rows : List α) : List α :=
  rows.insertionSort fun a b => key a ≤ key b

/-- An `ORDER BY key DESC`; rows with equal keys keep their order. -/
def orderByDesc {α : Type} (key : α → Nat) (rows : List α) : List α :=
  rows.insertionSort fun a b => key b ≤ key a

/-- The open sessions of a bus: `ON b.bus_id = ds.bus_id AND ds.end_time IS
NULL`. -/
def openSessions (db : Database) (b : Bus) : List DriverSession :=
  db.driver_sessions.filter fun ds => ds.bus_id == b.bus_id && ds.end_time.isNone

/-- The routes joined to a session row: `ON ds.route_id = r.route_id`. -/
def routesOf (db : Database) : Option DriverSession → List Route
  | none => []
  | some ds => db.routes.filter fun r => ds.route_id == some r.route_id

/-! ## `authController.js` -/

namespace Auth

/-- The regular expression of line 20, ten `\d` between `^` and `$` with no
flags: the whole input is ten characters, each one of `0`..`9`. -/
def tenDigits (s : String) : Bool :=
  s.toList.length == 10 && s.toList.all Char.isDigit

/-- The body of `POST /signup`, as destructured on line 8. -/
structure SignupBody where
  name : JsVal
  age : JsVal
  mobile : JsVal
  email : JsVal
  password : JsVal

/-- The parameter list of the `INSERT INTO users` statement (line 39). -/
structure UserInsert where
  name : JsVal
  age : JsVal
  mobile : JsVal
  email : JsVal
  password_hash : String
  deriving DecidableEq

/-- How the database answers the `INSERT`: it succeeds, it rejects a duplicate
key (`ER_DUP_ENTRY`), or it fails otherwise. -/
inductive InsertOutcome where
  | ok
  | dupEntry
  | failed
  deriving DecidableEq

/-- What a handler of this controller sends, and the inserts it executed. -/
structure SignupResult where
  status : Nat
  message : String
  inserts : List UserInsert
  deriving DecidableEq

/-- `exports.signup` (lines 6-55).  `hash` is `bcrypt.hash` with the salt of
`bcrypt.genSalt(10)`, `none` when it throws; `outcome` is the database's answer
to the insert, consulted only when the insert is executed. -/
def signup (hash : JsVal → Option String) (outcome : InsertOutcome)
    (body : SignupBody) : SignupResult :=
  if !body.name.truthy || !body.mobile.truthy || !body.password.truthy then
    ⟨400, "Name, mobile number, and password are required", []⟩
  else if !tenDigits body.mobile.toStr then
    ⟨400, "Mobile number must be 10 digits", []⟩
  else if !body.password.truthy then
    ⟨400, "Password is required", []⟩
  else
    match hash body.password with
    | none => ⟨500, "Server error. Please try again later.", []⟩
    | some hashedPassword =>
      let values : UserInsert :=
        ⟨body.name, body.age.orElse .null, body.mobile, body.email.orElse .null,
          hashedPassword⟩
      match outcome with
      | .ok => ⟨201, "User created successfully!", [values]⟩
      | .dupEntry => ⟨400, "Mobile number or email already exists.", [values]⟩
      | .failed => ⟨500, "Server error. Please try again later.", [values]⟩

/-- A row of the `users` table, with the columns `login` reads. -/
structure UserRow where
  user_id : Nat
  mobile : String
  password_hash : String
  deriving DecidableEq

/-- The body of `POST /login`. -/
structure LoginBody where
  mobile : JsVal
  password : JsVal

/-- The payload handed to `jwt.sign`: an object whose `user.id` is `userId`. -/
structure JwtPayload where
  userId : Nat
  deriving DecidableEq

/-- The options object handed to `jwt.sign`. -/
structure JwtOptions where
  expiresIn : String
  deriving DecidableEq

/-- What `login` sends: a JSON body holding the token, or a status with a
message. -/
inductive LoginResponse where
  | token (t : String)
  | message (status : Nat) (text : String)
  deriving DecidableEq

/-- The libraries `login` calls.  `textEq` is the server's `mobile = ?`
comparison of the column with the bound parameter; `compare` is
`bcrypt.compare`, `none` when it rejects (it does so for a password that is not
a string); `sign` is `jwt.sign` under `process.env.JWT_SECRET`. -/
structure LoginEnv where
  textEq : String → JsVal → Bool
  compare : JsVal → String → Option Bool
  sign : JwtPayload → JwtOptions → String

/-- The query `SELECT * FROM users WHERE mobile = ?` (line 68). -/
def usersByMobile (env : LoginEnv) (users : List UserRow) (mobile : JsVal) :
    List UserRow :=
  users.filter fun u => env.textEq u.mobile mobile

/-- `exports.login` (lines 58-104). -/
def login (env : LoginEnv) (users : List UserRow) (body : LoginBody) :
    LoginResponse :=
  if !body.mobile.truthy || !body.password.truthy then
    .message 400 "Please provide mobile number and password."
  else
    match usersByMobile env users body.mobile with
    | [] => .message 404 "User not found."
    | user :: _ =>
      match env.compare body.password user.password_hash with
      | none => .message 500 "Server error."
      | some isMatch =>
        if !isMatch then .message 400 "Invalid credentials."
        else .token (env.sign ⟨user.user_id⟩ ⟨"7d"⟩)

end Auth

/-! ## `notificationController.js` -/

namespace NotificationController

/-- A row of the `notifications` table. -/
structure NotificationRow where
  notification_id : Nat
  user_id : Nat
  title : String
  message : String
  type : String
  priority : String
  is_read : Bool
  bus_id : Option Nat
  route_id : Option Nat
  created_at : Nat
  deriving DecidableEq

/-- A JSON answer with fields `success` and `message`, and its HTTP status. -/
structure ApiResponse where
  status : Nat
  success : Bool
  message : String
  deriving DecidableEq

/-- The answer of `getUnreadCount`. -/
structure UnreadCountResponse where
  status : Nat
  success : Bool
  unread_count : Nat
  deriving DecidableEq

/-- The `WHERE notification_id = ? AND user_id = ?` clause of `markAsRead` and
`deleteNotification`. -/
def ownedBy (env : SqlEnv) (notificationId : String) (userId : Nat)
    (n : NotificationRow) : Bool :=
  env.numEq n.notification_id notificationId && n.user_id == userId

/-- The statement `UPDATE notifications SET is_read = TRUE WHERE
notification_id = ? AND user_id = ?`: the table afterwards and `affectedRows`. -/
def updateRead (env : SqlEnv) (table : List NotificationRow)
    (notificationId : String) (userId : Nat) : List NotificationRow × Nat :=
  let matched := table.filter (ownedBy env notificationId userId)
  let changed := matched.filter fun n => !n.is_read
  (table.map fun n =>
      if ownedBy env notificationId userId n then { n with is_read := true } else n,
    if env.foundRows then matched.length else changed.length)

/-- `exports.markAsRead` (lines 77-115): the response and the table afterwards.
`userId` is `req.user.id`, `notificationId` is `req.params.notificationId`. -/
def markAsRead (env : SqlEnv) (table : List NotificationRow) (userId : Nat)
    (notificationId : String) : ApiResponse × List NotificationRow :=
  if notificationId = "" then
    (⟨400, false, "Notification ID is required"⟩, table)
  else
    let result := updateRead env table notificationId userId
    if result.2 = 0 then
      (⟨404, false, "Notification not found or does not belong to user"⟩, result.1)
    else
      (⟨200, true, "Notification marked as read"⟩, result.1)

/-- The query `SELECT COUNT(*) as unread_count FROM notifications WHERE
user_id = ? AND is_read = FALSE`. -/
def unreadCount (table : List NotificationRow) (userId : Nat) : Nat :=
  table.countP fun n => n.user_id == userId && !n.is_read

/-- `exports.getUnreadCount` (lines 219-241). -/
def getUnreadCount (table : List NotificationRow) (userId : Nat) :
    UnreadCountResponse :=
  ⟨200, true, unreadCount table userId⟩

/-- The statement `DELETE FROM notifications WHERE notification_id = ? AND
user_id = ?`: the table afterwards and `affectedRows`, the number of rows
deleted. -/
def deleteOwned (env : SqlEnv) (table : List NotificationRow)
    (notificationId : String) (userId : Nat) : List NotificationRow × Nat :=
  (table.filter fun n => !ownedBy env notificationId userId n,
    (table.filter (ownedBy env notificationId userId)).length)

/-- `exports.deleteNotification` (lines 244-281): the response and the table
afterwards. -/
def deleteNotification (env : SqlEnv) (table : List NotificationRow) (userId : Nat)
    (notificationId : String) : ApiResponse × List NotificationRow :=
  if notificationId = "" then
    (⟨400, false, "Notification ID is required"⟩, table)
  else
    let result := deleteOwned env table notificationId userId
    if result.2 = 0 then
      (⟨404, false, "Notification not found or does not belong to user"⟩, result.1)
    else
      (⟨200, true, "Notification deleted successfully"⟩, result.1)

/-- The body of `POST /notifications`, a property being `undefined` when it is
omitted. -/
structure CreateBody where
  user_id : JsVal
  title : JsVal
  message : JsVal
  type : JsVal
  priority : JsVal
  bus_id : JsVal
  route_id : JsVal

/-- A destructuring default (lines 149-152): it replaces `undefined` only. -/
def withDefault (v d : JsVal) : JsVal :=
  match v with
  | .undefined => d
  | w => w

/-- The array `validTypes` (line 164). -/
def validTypes : List String :=
  ["bus_arrival", "bus_delay", "bus_cancelled", "route_change", "service_alert",
    "emergency", "general"]

/-- The array `validPriorities` (line 165). -/
def validPriorities : List String := ["low", "medium", "high", "urgent"]

/-- `Array.prototype.includes` on an array of strings: the value is a string
equal to one of them. -/
def includes (strings : List String) : JsVal → Bool
  | .str s => strings.contains s
  | _ => false

/-- The parameter list of the `INSERT INTO notifications` statement (line
185). -/
structure NotificationValues where
  user_id : JsVal
  title : JsVal
  message : JsVal
  type : JsVal
  priority : JsVal
  bus_id : JsVal
  route_id : JsVal
  deriving DecidableEq

/-- A notification row with the columns joined to it from `buses` and
`routes`, `none` where the `LEFT JOIN` found no match. -/
structure JoinedNotification where
  row : NotificationRow
  bus_number : Option String
  source_name : Option String
  destination_name : Option String
  deriving DecidableEq

/-- The joins `LEFT JOIN buses b ON n.bus_id = b.bus_id LEFT JOIN routes r ON
n.route_id = r.route_id` for the rows of a notification list. -/
def joinNames (db : Database) (rows : List NotificationRow) : List JoinedNotification :=
  rows.flatMap fun n =>
    (nullExtend (db.buses.filter fun b => n.bus_id == some b.bus_id)).flatMap fun b =>
      (nullExtend (db.routes.filter fun r => n.route_id == some r.route_id)).map fun r =>
        ⟨n, b.map fun x => x.bus_number, r.map fun x => x.source_name,
          r.map fun x => x.destination_name⟩

/-- What `createNotification` sends. -/
structure CreateResponse where
  status : Nat
  success : Bool
  message : String
  notification : Option JoinedNotification
  deriving DecidableEq

/-- `exports.createNotification` (lines 143-216): the response and the table
afterwards.  `store` is the database executing the `INSERT`: the row it stores
for the values (with the generated `notification_id`, whose value is
`insertId`), or `none` when it rejects them. -/
def createNotification (store : NotificationValues → Option NotificationRow)
    (db : Database) (table : List NotificationRow) (body : CreateBody) :
    CreateResponse × List NotificationRow :=
  let type := withDefault body.type (.str "general")
  let priority := withDefault body.priority (.str "medium")
  let bus_id := withDefault body.bus_id .null
  let route_id := withDefault body.route_id .null
  if !body.user_id.truthy || !body.title.truthy || !body.message.truthy then
    (⟨400, false, "user_id, title, and message are required", none⟩, table)
  else if !includes validTypes type then
    (⟨400, false, "Invalid type. Must be one of: " ++ ", ".intercalate validTypes, none⟩,
      table)
  else if !includes validPriorities priority then
    (⟨400, false,
        "Invalid priority. Must be one of: " ++ ", ".intercalate validPriorities, none⟩,
      table)
  else
    match store ⟨body.user_id, body.title, body.message, type, priority, bus_id, route_id⟩ with
    | none => (⟨500, false, "Server Error", none⟩, table)
    | some stored =>
      let after := table ++ [stored]
      let newNotification :=
        joinNames db (after.filter fun n => n.notification_id == stored.notification_id)
      (⟨201, true, "Notification created successfully", newNotification.head?⟩, after)

end NotificationController

/-! ## `busController.js` -/

namespace BusController

/-- The text functions of the two runtimes, taken as given: `toLowerCase` is
JavaScript's `String.prototype.toLowerCase`, `sqlLower` is the database
server's `LOWER` on the character set of the column, and `collate c e` says
that the collation of the comparison takes the pattern character `c` and the
subject character `e` for equal (`LIKE` compares character by character). -/
structure TextEnv where
  toLowerCase : String → String
  sqlLower : String → String
  collate : Char → Char → Bool

/-- The matcher behind `subject LIKE pattern`, reading the pattern from the
left: `%` stands for any run of characters, `_` for any one character, and a
backslash makes the next pattern character literal (a backslash that ends the
pattern stands for itself).  `escaped` says that the character before was such
a backslash.  A literal pattern character is compared with the subject's by
`eq`. -/
def likeFrom (eq : Char → Char → Bool) (escaped : Bool) : List Char → List Char → Bool
  | [], s =>
    if escaped then
      match s with
      | [e] => eq '\\' e
      | _ => false
    else s.isEmpty
  | c :: p, s =>
    if escaped then
      match s with
      | [] => false
      | e :: rest => eq c e && likeFrom eq false p rest
    else if c = '%' then s.tails.any fun t => likeFrom eq false p t
    else if c = '_' then
      match s with
      | [] => false
      | _ :: rest => likeFrom eq false p rest
    else if c = '\\' then likeFrom eq true p s
    else
      match s with
      | [] => false
      | e :: rest => eq c e && likeFrom eq false p rest

/-- The SQL predicate `subject LIKE pattern` under the comparison `eq`. -/
def like (eq : Char → Char → Bool) (subject pattern : List Char) : Bool :=
  likeFrom eq false pattern subject

/-- The bound parameter built on lines 76-77: the lower-cased text between two
`%`. -/
def searchPattern (env : TextEnv) (text : String) : List Char :=
  '%' :: ((env.toLowerCase text).toList ++ ['%'])

/-- The text holds none of the characters `LIKE` reads as more than
themselves: `%`, `_` and the backslash. -/
def wildcardFree (text : String) : Bool :=
  text.toList.all fun c => c != '%' && c != '_' && c != '\\'

/-- The `routeQuery` of `searchBuses` (lines 80-91). -/
def matchingRoutes (env : TextEnv) (db : Database) (source destination : String) :
    List Route :=
  db.routes.filter fun r =>
    like env.collate (env.sqlLower r.source_name).toList (searchPattern env source) &&
      like env.collate (env.sqlLower r.destination_name).toList
        (searchPattern env destination)

/-- The characters of `text` stand, one by one under the comparison `eq`, at
the start of `subject`. -/
def startsWith (eq : Char → Char → Bool) : List Char → List Char → Bool
  | [], _ => true
  | _ :: _, [] => false
  | c :: text, e :: subject => eq c e && startsWith eq text subject

/-- The claims' "`name` contains `text` (case-insensitively)": the
lower-cased text stands somewhere in the lower-cased name, character by
character under the collation. -/
def containsText (env : TextEnv) (name text : String) : Bool :=
  (env.sqlLower name).toList.tails.any fun rest =>
    startsWith env.collate (env.toLowerCase text).toList rest

/-- A row of the `busQuery` result: the bus with the joined driver, open
session and route, each `none` where the `LEFT JOIN` found no match. -/
structure BusRow where
  bus : Bus
  driver : Option Driver
  session : Option DriverSession
  route : Option Route
  deriving DecidableEq

/-- The `busQuery` of `searchBuses` (lines 104-125). -/
def busQuery (db : Database) : List BusRow :=
  let joined := db.buses.flatMap fun b =>
    (nullExtend (db.drivers.filter fun d => b.current_driver_id == some d.driver_id)).flatMap
      fun d =>
        (nullExtend (openSessions db b)).flatMap fun ds =>
          (nullExtend (routesOf db ds)).map fun r => BusRow.mk b d ds r
  orderBy (fun row => row.bus.bus_id)
    (joined.filter fun row => row.bus.status == "available" || row.bus.status == "running")

/-- The route object a bus of the result is given (lines 131-133). -/
structure AssignedRoute where
  route_id : Nat
  source_name : String
  destination_name : String
  total_distance_km : JsVal
  deriving DecidableEq

/-- The `route_id` column of a result row is truthy: the row has a joined
route whose id is not `0`. -/
def liveRoute (row : BusRow) : Option Route :=
  match row.route with
  | some r => if r.route_id != 0 then some r else none
  | none => none

/-- An element of `transformedBuses`.  The property `coordinate`, drawn with
`Math.random`, is left out. -/
structure SearchBus where
  id : Nat
  bus_id : Nat
  bus_number : String
  busId : String
  status : String
  type : String
  capacity : Nat
  route_id : Nat
  route_name : String
  route : String
  source_stop : String
  destination_stop : String
  from_ : String
  to_ : String
  distance_km : JsVal
  driver_id : Option Nat
  driver_name : String
  driver_mobile : Option String
  eta : String
  current_location : String
  imageUrl : Nat
  changeInfo : String
  deriving DecidableEq

/-- The callback of `allBuses.map` (lines 129-163), for a non-empty
`matchingRoutes` given as its first element and the rest. -/
def transformBus (first : Route) (others : List Route) (index : Nat) (row : BusRow) :
    SearchBus :=
  let assignedRoute : AssignedRoute :=
    match liveRoute row with
    | some r => ⟨r.route_id, r.source_name, r.destination_name, r.total_distance_km⟩
    | none =>
      let r := (first :: others).get
        ⟨index % (first :: others).length, Nat.mod_lt _ (Nat.succ_pos _)⟩
      ⟨r.route_id, r.source_name, r.destination_name, r.total_distance_km⟩
  let routeName := assignedRoute.source_name ++ " to " ++ assignedRoute.destination_name
  let driverName :=
    match row.driver with
    | some d => if d.name = "" then "Not Assigned" else d.name
    | none => "Not Assigned"
  { id := row.bus.bus_id
    bus_id := row.bus.bus_id
    bus_number := row.bus.bus_number
    busId := row.bus.bus_number
    status := if row.bus.status = "available" then "available" else "active"
    type := row.bus.status
    capacity := row.bus.capacity
    route_id := assignedRoute.route_id
    route_name := routeName
    route := routeName
    source_stop := assignedRoute.source_name
    destination_stop := assignedRoute.destination_name
    from_ := assignedRoute.source_name
    to_ := assignedRoute.destination_name
    distance_km := assignedRoute.total_distance_km.orElse (.num 0)
    driver_id := row.bus.current_driver_id
    driver_name := driverName
    driver_mobile := row.driver.map fun d => d.mobile
    eta := if row.bus.status = "running" then "On Route" else "Ready"
    current_location := "30.7333,76.7794"
    imageUrl := index % 3 + 1
    changeInfo := "Available from " ++ assignedRoute.source_name }

/-- What `searchBuses` sends: a status with a message, or the body with
`success: true`, `buses` and, when no route matched, a `message`. -/
inductive SearchResponse where
  | error (status : Nat) (message : String)
  | ok (buses : List SearchBus) (message : Option String)
  deriving DecidableEq

/-- `exports.searchBuses` (lines 66-175); `source` and `destination` are the
query parameters, `none` when absent. -/
def searchBuses (env : TextEnv) (db : Database) (source destination : Option String) :
    SearchResponse :=
  match source, destination with
  | some src, some dst =>
    if src = "" || dst = "" then .error 400 "Source and destination are required."
    else
      match matchingRoutes env db src dst with
      | [] => .ok [] (some ("No direct routes found from " ++ src ++ " to " ++ dst))
      | first :: others => .ok ((busQuery db).mapIdx (transformBus first others)) none
  | _, _ => .error 400 "Source and destination are required."

/-- The row `busRouteQuery` returns (lines 546-559): the bus whose id the
path names, with the route of its open session, `LIMIT 1`. -/
def busRouteQuery (env : SqlEnv) (db : Database) (busId : String) :
    Option (Bus × Option Route) :=
  ((db.buses.filter fun b => env.numEq b.bus_id busId).flatMap fun b =>
    (nullExtend (openSessions db b)).flatMap fun ds =>
      (nullExtend (routesOf db ds)).map fun r => (b, r)).head?

/-- The query `SELECT route_id FROM routes ORDER BY route_id LIMIT 1`. -/
def fallbackRoutes (db : Database) : Option Route :=
  (orderBy (fun r => r.route_id) db.routes).head?

/-- The value of `routeId` after lines 566-584.  `route` is the route joined
to the bus row, whose `route_id` is `NULL` when there is none;
`requestedRouteId` is the `route_id` query parameter, `undefined` when absent. -/
def resolveRouteId (db : Database) (route : Option Route)
    (requestedRouteId : Option String) : JsVal :=
  let liveId : JsVal :=
    match route with
    | some r => .num r.route_id
    | none => .null
  let requested : JsVal :=
    match requestedRouteId with
    | some q => .str q
    | none => .undefined
  if liveId.truthy then liveId
  else if requested.truthy then requested
  else
    match fallbackRoutes db with
    | some f => .num f.route_id
    | none => .undefined

/-- The `stopsQuery` (lines 591-601): the stops of the route, each joined to
its route row, by `sequence_no`. -/
def stopsQuery (env : SqlEnv) (db : Database) (routeId : JsVal) : List (Stop × Route) :=
  orderBy (fun row => row.1.sequence_no)
    ((db.stops.filter fun s => env.intEq s.route_id routeId).flatMap fun s =>
      (db.routes.filter fun r => s.route_id == r.route_id).map fun r => (s, r))

/-- An element of `timeline.stops`.  The property `arrivalTime`, rendered by
the locale of the process, is left out. -/
structure TimelineStop where
  id : Nat
  name : String
  status : String
  distance : Nat
  eta : String
  latitude : JsVal
  longitude : JsVal
  stop_order : Nat
  deriving DecidableEq

/-- The callback of `stops.map` (lines 619-642), for `stops.length = total`.
`Math.round(index * 2.5)` is the integer `(5 * index + 1) / 2`. -/
def transformStop (total : Nat) (index : Nat) (row : Stop × Route) : TimelineStop :=
  let currentStopMockIndex := total / 3
  let initial := if index < currentStopMockIndex then "completed" else "upcoming"
  let status := if index = currentStopMockIndex then "current" else initial
  { id := row.1.stop_id
    name := row.1.stop_name
    status := status
    distance := (5 * index + 1) / 2
    eta :=
      if status = "completed" then "Passed"
      else if status = "current" then "Now"
      else toString ((index - currentStopMockIndex) * 15) ++ " min"
    latitude := row.1.stop_lat.orElse (.num 0)
    longitude := row.1.stop_lon.orElse (.num 0)
    stop_order := row.1.sequence_no }

/-- The `bus` object of the response. -/
structure BusInfo where
  bus_id : Nat
  bus_number : String
  status : String
  deriving DecidableEq

/-- The `route` object of the response; the three names are absent from the
answer for a route without stops. -/
structure RouteInfo where
  route_id : JsVal
  route_name : Option String
  source_stop : Option String
  destination_stop : Option String
  total_stops : Nat
  deriving DecidableEq

/-- The `timeline` object of the response (without `last_updated`, the time of
the answer). -/
structure Timeline where
  stops : List TimelineStop
  current_stop_index : Nat
  deriving DecidableEq

/-- The `data` object of the response. -/
structure RouteStopsData where
  bus : BusInfo
  route : RouteInfo
  timeline : Timeline
  deriving DecidableEq

/-- What `getBusRouteStops` sends: a status with a message, or the body with
`success: true` and `data`. -/
inductive RouteStopsResponse where
  | error (status : Nat) (message : String)
  | ok (data : RouteStopsData)
  deriving DecidableEq

/-- `exports.getBusRouteStops` (lines 530-679); `busId` is the path parameter
and `requestedRouteId` the `route_id` query parameter, `none` when absent. -/
def getBusRouteStops (env : SqlEnv) (db : Database) (busId : String)
    (requestedRouteId : Option String) : RouteStopsResponse :=
  if busId = "" then .error 400 "Bus ID is required."
  else
    match busRouteQuery env db busId with
    | none => .error 404 "Bus not found."
    | some (bus, route) =>
      let routeId := resolveRouteId db route requestedRouteId
      if !routeId.truthy then .error 404 "No route could be determined for this bus."
      else
        match stopsQuery env db routeId with
        | [] =>
          .ok ⟨⟨bus.bus_id, bus.bus_number, bus.status⟩, ⟨routeId, none, none, none, 0⟩,
            ⟨[], 0⟩⟩
        | first :: rest =>
          let stops := first :: rest
          let transformedStops := stops.mapIdx (transformStop stops.length)
          .ok ⟨⟨bus.bus_id, bus.bus_number,
                if bus.status = "" then "available" else bus.status⟩,
              ⟨routeId, some (first.2.source_name ++ " to " ++ first.2.destination_name),
                some first.2.source_name,
                some (stops.getLast (List.cons_ne_nil first rest)).2.source_name,
                transformedStops.length⟩,
              ⟨transformedStops, transformedStops.length / 3⟩⟩

/-- The bus `b` has an open driver session whose route is the row `r` of the
routes table. -/
def LiveRoute (db : Database) (b : Bus) (r : Route) : Prop :=
  ∃ ds ∈ db.driver_sessions, ds.bus_id = b.bus_id ∧ ds.end_time = none ∧
    r ∈ db.routes ∧ ds.route_id = some r.route_id

/-- The response is a timeline that uses the route id `routeId`: it is a
success whose `route.route_id` is `routeId`, for the bus `b`, and whose stops
are, in order, the stops the `stopsQuery` finds for `routeId`. -/
def UsesRoute (env : SqlEnv) (db : Database) (b : Bus) (routeId : JsVal)
    (response : RouteStopsResponse) : Prop :=
  ∃ data, response = .ok data ∧ data.route.route_id = routeId ∧
    data.bus.bus_id = b.bus_id ∧
    data.timeline.stops.map (fun s => s.id) =
      (stopsQuery env db routeId).map fun row => row.1.stop_id

end BusController

/-- What the schema and the session bookkeeping keep true of the tables: the
keys of `routes` are positive (they are generated), and a bus has at most one
open driver session. -/
structure WellFormed (db : Database) : Prop where
  route_id_pos : ∀ r ∈ db.routes, r.route_id ≠ 0
  one_open_session : ∀ s1 ∈ db.driver_sessions, ∀ s2 ∈ db.driver_sessions,
    s1.bus_id = s2.bus_id → s1.end_time = none → s2.end_time = none → s1 = s2

/-! ## `routeController.js` -/

namespace RouteController

/-- `formatTime` (lines 4-13); `timeStr` is `none` for a missing (`undefined`
or `null`) argument. -/
def formatTime (timeStr : Option String) : String :=
  match timeStr with
  | none => "TBD"
  | some text =>
    if text = "" then "TBD"
    else
      let parts := splitOn ':' text.toList
      let hours : List Char := parts.headD []
      let minutes : JsVal :=
        match parts.tail.head? with
        | some m => .str (String.mk m)
        | none => .undefined
      let hour := parseIntChars hours
      let ampm :=
        match hour with
        | some h => if h ≥ 12 then "PM" else "AM"
        | none => "AM"
      let displayHour : Int :=
        match hour with
        | some h => if h.tmod 12 != 0 then h.tmod 12 else 12
        | none => 12
      toString displayHour ++ ":" ++ minutes.toStr ++ " " ++ ampm

/-- `calculateETA` (lines 22-44).  `diffMins` is the number of minutes line 36
computes from `scheduledTime` and the clock, `none` when `scheduledTime` is
empty. -/
def calculateETA (diffMins : Option Int) (status busStatus : String) : String :=
  if status = "completed" then "Passed"
  else if status = "current" then
    if busStatus = "Running" then "2-5 min" else "At stop"
  else
    match diffMins with
    | none => "TBD"
    | some d =>
      if d ≤ 0 then "Due"
      else if d < 60 then toString d ++ " min"
      else toString (d / 60) ++ "h " ++ toString (d % 60) ++ "m"

/-- The row of the `busQuery` (lines 56-80): the bus with its open session and
that session's route, `LIMIT 1`.  The joined `location_updates` columns, which
only feed `current_location`, are left out. -/
structure BusRow where
  bus : Bus
  session : Option DriverSession
  route : Option Route
  deriving DecidableEq

/-- The `busQuery` of `getBusRouteTimeline`. -/
def busQuery (env : SqlEnv) (db : Database) (busId : String) : Option BusRow :=
  ((db.buses.filter fun b => env.numEq b.bus_id busId).flatMap fun b =>
    (nullExtend (openSessions db b)).flatMap fun ds =>
      (nullExtend (routesOf db ds)).map fun r => BusRow.mk b ds r).head?

/-- A row of `timelineStops`: a stop with the progress and prediction columns
of the real-time query, which are `undefined` in a row of the static query. -/
structure StopRow where
  stop : Stop
  arrival_time : JsVal
  departure_time : JsVal
  predicted_arrival : JsVal
  minutes_remaining : JsVal
  deriving DecidableEq

/-- The `realTimeStopsQuery` (lines 97-115). -/
def realTimeStopsQuery (db : Database) (sessionId busId routeId : Nat) : List StopRow :=
  orderBy (fun row => row.stop.sequence_no)
    ((db.stops.filter fun s => s.route_id == routeId).flatMap fun s =>
      (nullExtend (db.route_progress.filter fun rp =>
          s.stop_id == rp.stop_id && rp.session_id == sessionId)).flatMap fun rp =>
        (nullExtend (db.eta_predictions.filter fun eta =>
            s.stop_id == eta.stop_id && eta.bus_id == busId)).map fun eta =>
          { stop := s
            arrival_time := (rp.map fun x => x.arrival_time).getD .null
            departure_time := (rp.map fun x => x.departure_time).getD .null
            predicted_arrival := (eta.map fun x => x.predicted_arrival).getD .null
            minutes_remaining := (eta.map fun x => x.minutes_remaining).getD .null })

/-- The `availableRoutesQuery` (lines 133-147): the routes grouped by their
selected columns, each with the count of the stops joined to it, the largest
count first, `LIMIT 1`. -/
def availableRoutesQuery (db : Database) : Option (Route × Nat) :=
  (orderByDesc (fun g => g.2)
    (db.routes.eraseDups.map fun g =>
      (g, ((db.routes.filter fun r => r == g).map fun r =>
        (db.stops.filter fun s => r.route_id == s.route_id).length).sum))).head?

/-- The `staticStopsQuery` (lines 153-165). -/
def staticStopsQuery (db : Database) (routeId : Nat) : List StopRow :=
  orderBy (fun row => row.stop.sequence_no)
    ((db.stops.filter fun s => s.route_id == routeId).map fun s =>
      ⟨s, .undefined, .undefined, .undefined, .undefined⟩)

/-- The object `routeData` (lines 118-126 and 168-176). -/
structure RouteData where
  route_id : Nat
  route_name : String
  source_stop : Option String
  destination_stop : Option String
  distance_km : JsVal
  total_stops : Nat
  is_real_time : Bool
  deriving DecidableEq

/-- A column that may be `NULL`, inside a template string. -/
def nullable : Option String → String
  | some s => s
  | none => "null"

/-- The loop of lines 198-207 from index `i` on, `current` being the value of
`currentStopIndex` so far and `total` the length of `timelineStops`. -/
def scanProgress (total : Nat) : List StopRow → Nat → Nat → Nat
  | [], _, current => current
  | s :: rest, i, current =>
    if s.arrival_time.truthy && !s.departure_time.truthy then i
    else if s.departure_time.truthy then
      scanProgress total rest (i + 1) (min (i + 1) (total - 1))
    else scanProgress total rest (i + 1) current

/-- The value of `currentStopIndex` after lines 194-211.  In static mode it is
`Math.floor(length * 0.3)`; for every length below `2 ^ 50` the double nearest
to `length * 0.3` has the integer part of `3 * length / 10`, which is what the
definition computes. -/
def currentStopIndex (isRealTime : Bool) (timelineStops : List StopRow) : Nat :=
  if isRealTime then scanProgress timelineStops.length timelineStops 0 0
  else 3 * timelineStops.length / 10

/-- An element of `transformedStops`.  The properties `distance`, `latitude`
and `longitude`, computed in floating point, are left out. -/
structure TimelineStop where
  id : Nat
  name : String
  arrivalTime : String
  status : String
  eta : String
  stop_order : Nat
  deriving DecidableEq

/-- The minute of the day of the time generated on lines 237-239 for the stop
at `index` when the clock shows minute `now`: twelve minutes per position from
the current stop, before or after. -/
def generatedMinute (now currentStopIndex index : Nat) : Nat :=
  (((now : Int) + ((index : Int) - (currentStopIndex : Int)) * 12) % 1440).toNat

/-- The minute of the day of the time generated on lines 244-246 for a stop:
nine o'clock plus fifteen minutes per position in the sequence. -/
def scheduledMinute (sequence_no : Nat) : Nat :=
  ((540 + ((sequence_no : Int) - 1) * 15) % 1440).toNat

/-- The minutes `calculateETA` finds between the clock and the time generated
on lines 237-240 for a stop `ahead` positions after the current one, when the
clock shows minute `now` of the day: the generated time is read back on the
same day. -/
def generatedDiff (now ahead : Nat) : Int :=
  (((now + ahead * 12) % 1440 : Nat) : Int) - ((now % 1440 : Nat) : Int)

/-- The callback of `timelineStops.map` (lines 214-276); `now` is the minute
of the day the clock shows. -/
def transformStop (isRealTime : Bool) (busStatus : String) (now : Nat)
    (currentStopIndex : Nat) (index : Nat) (stop : StopRow) : TimelineStop :=
  let status :=
    if index < currentStopIndex then "completed"
    else if index = currentStopIndex then "current"
    else "upcoming"
  let arrivalTime :=
    if isRealTime then
      if stop.predicted_arrival.truthy then
        formatTime (some (slice stop.predicted_arrival.toStr 11 16))
      else if stop.arrival_time.truthy then
        formatTime (some (slice stop.arrival_time.toStr 11 16))
      else formatTime (some (clockText (generatedMinute now currentStopIndex index)))
    else formatTime (some (clockText (scheduledMinute stop.stop.sequence_no)))
  let eta :=
    if isRealTime then
      if stop.predicted_arrival.truthy then
        if stop.minutes_remaining.truthy then stop.minutes_remaining.toStr ++ " min"
        else "Due"
      else if stop.arrival_time.truthy then "Arrived"
      else calculateETA (some (generatedDiff now (index - currentStopIndex))) status busStatus
    else
      if status = "completed" then "Passed"
      else if status = "current" then "5 min"
      else
        let minutesFromNow := (index - currentStopIndex) * 15
        if minutesFromNow > 0 then toString minutesFromNow ++ " min" else "Due"
  { id := stop.stop.stop_id
    name := stop.stop.stop_name
    arrivalTime := arrivalTime
    status := status
    eta := eta
    stop_order := stop.stop.sequence_no }

/-- The object `lastSeenInfo` (lines 293-306), without `coordinates`. -/
structure LastSeen where
  stop_name : String
  status : String
  time : String
  eta : String
  message : String
  deriving DecidableEq

/-- Lines 289-306: the last-seen record of the transformed stops. -/
def lastSeenInfo (transformedStops : List TimelineStop) : Option LastSeen :=
  let currentStop := transformedStops.find? fun stop => stop.status == "current"
  let lastCompletedStop :=
    (transformedStops.filter fun stop => stop.status == "completed").getLast?
  let lastSeenStop := (currentStop.orElse fun _ => lastCompletedStop).orElse
    fun _ => transformedStops.head?
  lastSeenStop.map fun stop =>
    { stop_name := stop.name
      status := if currentStop.isSome then "current" else "last_completed"
      time := stop.arrivalTime
      eta := stop.eta
      message :=
        if currentStop.isSome then "Currently at " ++ stop.name
        else "Last seen at " ++ stop.name }

/-- The `bus` object of the response (without `current_location`). -/
structure BusInfo where
  bus_id : Nat
  bus_number : String
  capacity : Nat
  status : String
  driver_id : Option Nat
  is_real_time : Bool
  last_seen : Option LastSeen
  deriving DecidableEq

/-- The `timeline` object of the response (without `last_updated`). -/
structure Timeline where
  current_stop_index : Nat
  stops : List TimelineStop
  mode : String
  message : String
  last_seen_stop : Option LastSeen
  deriving DecidableEq

/-- The `metadata` object of the response. -/
structure Metadata where
  total_stops : Nat
  completed_stops : Nat
  remaining_stops : Nat
  data_source : String
  deriving DecidableEq

/-- The `data` object of the response. -/
structure TimelineData where
  bus : BusInfo
  route : RouteData
  timeline : Timeline
  metadata : Metadata
  deriving DecidableEq

/-- What `getBusRouteTimeline` sends: a status with a message, or the body
with `success: true` and `data`. -/
inductive TimelineResponse where
  | error (status : Nat) (message : String)
  | ok (data : TimelineData)
  deriving DecidableEq

/-- The request `GET /routes/bus/:busId/timeline`: the path parameter and the
`route_id` of the query string, `none` when absent. -/
structure TimelineRequest where
  busId : String
  route_id : Option String

/-- Lines 91-184: whether the bus is tracked live, and the route and the stop
rows chosen for it; `none` when the routes table is empty. -/
def chooseRoute (db : Database) (bus : BusRow) : Option (Bool × RouteData × List StopRow) :=
  let activeRouteId := (bus.session.bind fun ds => ds.route_id).getD 0
  let sessionId := (bus.session.map fun ds => ds.session_id).getD 0
  if activeRouteId != 0 && sessionId != 0 then
    let timelineStops := realTimeStopsQuery db sessionId bus.bus.bus_id activeRouteId
    let activeSource := bus.route.map fun r => r.source_name
    let activeDestination := bus.route.map fun r => r.destination_name
    some (true,
      { route_id := activeRouteId
        route_name := nullable activeSource ++ " to " ++ nullable activeDestination
        source_stop := activeSource
        destination_stop := activeDestination
        distance_km := (bus.route.map fun r => r.total_distance_km).getD .null
        total_stops := timelineStops.length
        is_real_time := true },
      timelineStops)
  else
    match availableRoutesQuery db with
    | some (defaultRoute, _) =>
      let timelineStops := staticStopsQuery db defaultRoute.route_id
      some (false,
        { route_id := defaultRoute.route_id
          route_name := defaultRoute.source_name ++ " to " ++ defaultRoute.destination_name
          source_stop := some defaultRoute.source_name
          destination_stop := some defaultRoute.destination_name
          distance_km := defaultRoute.total_distance_km
          total_stops := timelineStops.length
          is_real_time := false },
        timelineStops)
    | none => none

/-- `exports.getBusRouteTimeline` (lines 47-358); `now` is the minute of the
day the server clock shows. -/
def getBusRouteTimeline (env : SqlEnv) (db : Database) (now : Nat)
    (req : TimelineRequest) : TimelineResponse :=
  if req.busId = "" then .error 400 "Bus ID is required."
  else
    match busQuery env db req.busId with
    | none => .error 404 "Bus not found."
    | some bus =>
      match chooseRoute db bus with
      | none => .error 404 "No route data available for this bus."
      | some (isRealTime, routeData, timelineStops) =>
        if timelineStops.length = 0 then
          .error 404 "No stops found for the assigned route."
        else
          let current := currentStopIndex isRealTime timelineStops
          let transformedStops :=
            timelineStops.mapIdx (transformStop isRealTime bus.bus.status now current)
          let last := lastSeenInfo transformedStops
          .ok
            { bus :=
                { bus_id := bus.bus.bus_id
                  bus_number := bus.bus.bus_number
                  capacity := bus.bus.capacity
                  status := if bus.bus.status = "" then "unknown" else bus.bus.status
                  driver_id := bus.bus.current_driver_id
                  is_real_time := isRealTime
                  last_seen := last }
              route := routeData
              timeline :=
                { current_stop_index := current
                  stops := transformedStops
                  mode := if isRealTime then "real_time" else "static"
                  message :=
                    if isRealTime then "Live tracking active"
                    else "Showing scheduled stops from database"
                  last_seen_stop := last }
              metadata :=
                { total_stops := transformedStops.length
                  completed_stops :=
                    (transformedStops.filter fun s => s.status == "completed").length
                  remaining_stops :=
                    (transformedStops.filter fun s => s.status == "upcoming").length
                  data_source :=
                    if isRealTime then "real_time_session" else "static_route_data" } }

end RouteController

/-! ## `NotificationScreen.jsx` -/

namespace NotificationScreen

/-- A notification object held by the screen.  The state updates read only
its `notification_id` and the truthiness of `is_read` (absent, hence
`undefined`, in the objects the server pushes over the socket). -/
structure Notification where
  notification_id : Nat
  is_read : JsVal
  deriving DecidableEq

/-- The component state the handlers update: `notifications` and
`unreadCount`, a JavaScript number. -/
structure State where
  notifications : List Notification
  unreadCount : Int
  deriving DecidableEq

/-- The body of the answer to `GET /notifications`, as `getNotifications`
builds it (lines 59-64 of the controller): `unread_count` is the `COUNT(*)` of
the user's unread rows, a natural number; `notifications` is `none` when the
property is absent. -/
structure FetchData where
  success : Bool
  notifications : Option (List Notification)
  unread_count : Nat

/-- What happens to the screen.  For the four requests the argument says how
the request went: `none` or `false` when there is no token or the request
throws, in which case the state setters are not reached.  The socket handler
receives `data`, `none` when it is not an array. -/
inductive Event where
  | fetchNotifications (response : Option FetchData)
  | markAsRead (notificationId : Nat) (ok : Bool)
  | markAllAsRead (ok : Bool)
  | deleteNotification (notificationId : Nat) (ok : Bool)
  | new_notification (data : Option (List Notification))

/-- The state after `fetchNotifications` (lines 32-72). -/
def fetchNotifications (s : State) : Option FetchData → State
  | none => s
  | some d =>
    if d.success then
      ⟨d.notifications.getD [], if d.unread_count = 0 then 0 else d.unread_count⟩
    else s

/-- The state after `markAsRead` (lines 75-99). -/
def markAsRead (s : State) (notificationId : Nat) (ok : Bool) : State :=
  if ok then
    ⟨s.notifications.map fun n =>
        if n.notification_id = notificationId then { n with is_read := .bool true }
        else n,
      max 0 (s.unreadCount - 1)⟩
  else s

/-- The state after `markAllAsRead` (lines 102-126). -/
def markAllAsRead (s : State) (ok : Bool) : State :=
  if ok then
    ⟨s.notifications.map fun n => { n with is_read := .bool true }, 0⟩
  else s

/-- The state after `deleteNotification` (lines 129-155). -/
def deleteNotification (s : State) (notificationId : Nat) (ok : Bool) : State :=
  if ok then
    let kept := s.notifications.filter fun n => n.notification_id != notificationId
    match s.notifications.find? fun n => n.notification_id == notificationId with
    | some deletedNotification =>
      if !deletedNotification.is_read.truthy then
        ⟨kept, max 0 (s.unreadCount - 1)⟩
      else ⟨kept, s.unreadCount⟩
    | none => ⟨kept, s.unreadCount⟩
  else s

/-- The state after the `new_notification` socket handler (lines 185-204). -/
def new_notification (s : State) : Option (List Notification) → State
  | none => s
  | some data =>
    if data.length > 0 then
      let newNotifications := data.filter fun newNotif =>
        !s.notifications.any fun existingNotif =>
          existingNotif.notification_id == newNotif.notification_id
      let unreadNewNotifications := data.filter fun n => !n.is_read.truthy
      ⟨newNotifications ++ s.notifications,
        if unreadNewNotifications.length > 0 then
          s.unreadCount + unreadNewNotifications.length
        else s.unreadCount⟩
    else s

/-- One event applied to the state. -/
def step (s : State) : Event → State
  | .fetchNotifications r => fetchNotifications s r
  | .markAsRead i ok => markAsRead s i ok
  | .markAllAsRead ok => markAllAsRead s ok
  | .deleteNotification i ok => deleteNotification s i ok
  | .new_notification d => new_notification s d

/-- A sequence of events applied in order. -/
def run (s : State) (events : List Event) : State :=
  events.foldl step s

end NotificationScreen

/-! ## `index.js` -/

namespace Server

/-- The query of `sendNotifications` (lines 85-106): the unread notifications
of the last minute with the joined names, the newest first.  `now` and
`created_at` are in seconds. -/
def recentUnread (db : Database) (table : List NotificationController.NotificationRow)
    (now : Nat) : List NotificationController.JoinedNotification :=
  orderByDesc (fun n => n.row.created_at)
    (NotificationController.joinNames db
      (table.filter fun n => !n.is_read && now < n.created_at + 60))

/-- The object pushed to a user's list on lines 114-127. -/
structure NotificationItem where
  notification_id : Nat
  title : String
  message : String
  type : String
  priority : String
  bus_id : Option Nat
  route_id : Option Nat
  bus_number : Option String
  source_name : Option String
  destination_name : Option String
  created_at : Nat
  timestamp : Nat
  deriving DecidableEq

/-- The object built for a fetched row on lines 114-127. -/
def toItem (n : NotificationController.JoinedNotification) : NotificationItem :=
  { notification_id := n.row.notification_id
    title := n.row.title
    message := n.row.message
    type := n.row.type
    priority := n.row.priority
    bus_id := n.row.bus_id
    route_id := n.row.route_id
    bus_number := n.bus_number
    source_name := n.source_name
    destination_name := n.destination_name
    created_at := n.row.created_at
    timestamp := n.row.created_at }

/-- The body of the `forEach` callback (lines 111-127) on the object
`notificationsByUser`, held as its entries in insertion order: the item is
appended to the list under the key `userId`, which is created when absent. -/
def pushItem (groups : List (Nat × List NotificationItem)) (userId : Nat)
    (item : NotificationItem) : List (Nat × List NotificationItem) :=
  if groups.any fun g => g.1 == userId then
    groups.map fun g => if g.1 == userId then (g.1, g.2 ++ [item]) else g
  else groups ++ [(userId, [item])]

/-- The object `notificationsByUser` after the `forEach` (lines 109-128). -/
def notificationsByUser (notifications : List NotificationController.JoinedNotification) :
    List (Nat × List NotificationItem) :=
  notifications.foldl (fun groups n => pushItem groups n.row.user_id (toItem n)) []

/-- The order in which `for ... in` visits the keys of an object: the keys that
are array indices (integers below `2 ^ 32 - 1`) in ascending order, then the
other keys in insertion order. -/
def forInOrder {α : Type} (entries : List (Nat × α)) : List (Nat × α) :=
  orderBy (fun e => e.1) (entries.filter fun e => e.1 < 4294967295) ++
    entries.filter fun e => !(e.1 < 4294967295)

/-- A socket room: the private room of a user, joined on line 63 under the
name `user-` followed by the user id. -/
inductive Room where
  | user (userId : Nat)
  deriving DecidableEq

/-- The name of a room. -/
def Room.name : Room → String
  | .user userId => "user-" ++ toString userId

/-- A call `io.to(room).emit('new_notification', payload)` (line 132). -/
structure RoomEmit where
  room : Room
  payload : List NotificationItem
  deriving DecidableEq

/-- An element of the payload of `urgent_notifications` (lines 139-146). -/
structure UrgentItem where
  notification_id : Nat
  title : String
  message : String
  type : String
  priority : String
  created_at : Nat
  deriving DecidableEq

/-- What `sendNotifications` emits: the `new_notification` events, in order,
and the payload of the `urgent_notifications` broadcast when there is one. -/
structure Emits where
  new_notification : List RoomEmit
  urgent_notifications : Option (List UrgentItem)
  deriving DecidableEq

/-- `sendNotifications` (lines 82-153) after its query, for the fetched
`notifications`. -/
def sendNotifications (notifications : List NotificationController.JoinedNotification) :
    Emits :=
  let urgentNotifications := notifications.filter fun n => n.row.priority == "urgent"
  { new_notification :=
      (forInOrder (notificationsByUser notifications)).map fun g => ⟨.user g.1, g.2⟩
    urgent_notifications :=
      if urgentNotifications.length > 0 then
        some (urgentNotifications.map fun n =>
          ⟨n.row.notification_id, n.row.title, n.row.message, n.row.type, n.row.priority,
            n.row.created_at⟩)
      else none }

/-- A row of `location_updates`. -/
structure LocationUpdate where
  bus_id : Nat
  latitude : JsVal
  longitude : JsVal
  timestamp : Nat
  deriving DecidableEq

/-- A row of the query of `trackBuses` (lines 72-74); the three location
columns are `NULL` for a bus without a location update. -/
structure BusLocation where
  bus_id : Nat
  bus_number : String
  status : String
  latitude : JsVal
  longitude : JsVal
  timestamp : Option Nat
  deriving DecidableEq

/-- The payload `trackBuses` broadcasts as `bus-location-update` (lines
70-79): the buses that are available or running, each with its location
updates, the latest first, at most fifty rows. -/
def trackBuses (buses : List Bus) (location_updates : List LocationUpdate) :
    List BusLocation :=
  ((orderByDesc (fun row => match row.timestamp with
        | some t => t + 1
        | none => 0)
      ((buses.filter fun b => b.status == "available" || b.status == "running").flatMap
        fun b =>
          (nullExtend (location_updates.filter fun l => b.bus_id == l.bus_id)).map fun l =>
            { bus_id := b.bus_id
              bus_number := b.bus_number
              status := b.status
              latitude := (l.map fun x => x.latitude).getD .null
              longitude := (l.map fun x => x.longitude).getD .null
              timestamp := l.map fun x => x.timestamp })).take 50)

end Server

/-! ## `MapViewComponent.jsx` -/

namespace MapViewComponent

/-- A JSON object as the socket delivers it: its properties in order. -/
abbrev JsObject := List (String × JsVal)

/-- The property access `object.key`: `undefined` when the object has no such
property. -/
def JsObject.get (object : JsObject) (key : String) : JsVal :=
  match object.find? fun entry => entry.1 == key with
  | some entry => entry.2
  | none => .undefined

/-- The object a row of the broadcast arrives as. -/
def received (row : Server.BusLocation) : JsObject :=
  [("bus_id", .num row.bus_id), ("bus_number", .str row.bus_number),
    ("status", .str row.status), ("latitude", row.latitude), ("longitude", row.longitude),
    ("timestamp", match row.timestamp with
      | some t => .num t
      | none => .null)]

/-- A value of `busPositions`. -/
structure Position (ν : Type) where
  latitude : ν
  longitude : ν

/-- The state `busPositions`: an object from bus-id text to position. -/
abbrev Positions (ν : Type) := String → Option (Position ν)

/-- The callback of `updatedBuses.reduce` (lines 336-351).  `number` is the
function `Number` on a string, `none` for `NaN`.  A `current_location` that is
truthy and not a string has no `split` method: the call throws and the `catch`
leaves `acc` as it is. -/
def reducePosition {ν : Type} (number : String → Option ν) (acc : Positions ν)
    (bus : JsObject) : Positions ν :=
  match bus.get "current_location" with
  | .str location =>
    if location != "" then
      let coords := (splitOn ',' location.toList).map fun part => number (String.mk part)
      match coords with
      | some latitude :: some longitude :: _ =>
        fun key =>
          if key = (bus.get "bus_id").toStr then some ⟨latitude, longitude⟩ else acc key
      | _ => acc
    else acc
  | _ => acc

/-- The handler of `bus-location-update` (lines 332-357): the state
`busPositions` after the update. -/
def onBusLocationUpdate {ν : Type} (number : String → Option ν)
    (prevPositions : Positions ν) (updatedBuses : List JsObject) : Positions ν :=
  let newPositions := updatedBuses.foldl (reducePosition number) fun _ => none
  fun key =>
    match newPositions key with
    | some position => some position
    | none => prevPositions key

end MapViewComponent

/-! ## `RouteTimelineCard.jsx` -/

namespace RouteTimelineCard

/-- The `distance` of a stop the card holds: the value copied from the API
answer, or, for a generated stop, a multiple of 12.5 kilometres held as twice
its value. -/
inductive Distance where
  | copied (v : JsVal)
  | halves (twice : Nat)
  deriving DecidableEq

/-- An element of the state `routeStops`. -/
structure RouteStop where
  id : JsVal
  name : JsVal
  status : JsVal
  eta : JsVal
  time : JsVal
  distance : Distance
  stop_order : JsVal
  deriving DecidableEq

/-- An element of `timeline.stops` in the API answer, with the properties the
card reads. -/
structure ApiStop where
  id : JsVal
  name : JsVal
  status : JsVal
  eta : JsVal
  arrivalTime : JsVal
  distance : JsVal
  stop_order : JsVal
  deriving DecidableEq

/-- The `route` object of the API answer, with the properties the card
reads. -/
structure RouteInfo where
  source_stop : JsVal
  destination_stop : JsVal
  deriving DecidableEq

/-- The `timeline` object of the API answer; `stops` is `none` when the
property is absent. -/
structure TimelineBody where
  stops : Option (List ApiStop)
  deriving DecidableEq

/-- The object `response.data.data`; a property is `none` when absent. -/
structure Payload where
  timeline : Option TimelineBody
  route : Option RouteInfo
  deriving DecidableEq

/-- The object `response.data`. -/
structure Body where
  success : JsVal
  data : Option Payload
  deriving DecidableEq

/-- How the request `apiClient.get` ends: it rejects (no answer, or a status
outside 2xx), or it resolves with `response.data`, `none` when that is empty. -/
inductive Outcome where
  | throws
  | responds (data : Option Body)
  deriving DecidableEq

/-- The prop `selectedBus`, with the properties the card reads. -/
structure SelectedBus where
  bus_id : JsVal
  source_stop : JsVal
  from_ : JsVal
  destination_stop : JsVal
  to_ : JsVal
  deriving DecidableEq

/-- The props of the card that `fetchRouteData` reads. -/
structure Props where
  source : JsVal
  destination : JsVal
  selectedBus : Option SelectedBus
  deriving DecidableEq

/-- The state `fetchRouteData` updates. -/
structure State where
  routeStops : List RouteStop
  loading : Bool
  realEstimatedTime : Option String
  deriving DecidableEq

/-- The own entries of `routeStopsMap` (lines 150-169). -/
def routeStopsMap (start stop : String) : Option (List String) :=
  match start, stop with
  | "Amritsar", "Jalandhar" => some ["Tarn Taran", "Goindwal Sahib"]
  | "Amritsar", "Ludhiana" => some ["Tarn Taran", "Kapurthala", "Jalandhar"]
  | "Amritsar", "Chandigarh" => some ["Kapurthala", "Jalandhar", "Ludhiana"]
  | "Chandigarh", "Ludhiana" => some ["Rajpura", "Patiala"]
  | "Chandigarh", "Jalandhar" => some ["Rajpura", "Patiala", "Sangrur"]
  | "Chandigarh", "Amritsar" => some ["Patiala", "Sangrur", "Jalandhar"]
  | "Ludhiana", "Jalandhar" => some ["Phagwara"]
  | "Ludhiana", "Amritsar" => some ["Jalandhar", "Kapurthala"]
  | "Ludhiana", "Chandigarh" => some ["Sirhind", "Rajpura"]
  | "Barnala", "Hoshiarpur" => some ["Sangrur", "Ludhiana", "Jalandhar"]
  | _, _ => none

/-- `getIntermediateStops` (lines 149-181): the names of the stops between the
two locations.  The lookup `routeStopsMap[start]?.[end]` also reaches the
properties every object inherits; `inherited start end` says that it finds a
truthy one (as for `constructor` and `name`), which is returned although it is
no array.  The result is then `none`: the caller's `.map` on it throws. -/
def getIntermediateStops (inherited : String → String → Bool) (start stop : JsVal) :
    Option (List String) :=
  match routeStopsMap start.toStr stop.toStr with
  | some route => some route
  | none =>
    if inherited start.toStr stop.toStr then none else some ["City Center", "Bus Stand"]

/-- The start and end location of `generateFallbackStops` (lines 112-116). -/
def fallbackLocations (props : Props) (routeInfo : Option RouteInfo) : JsVal × JsVal :=
  let busSource :=
    match props.selectedBus with
    | some bus => bus.source_stop.orElse bus.from_
    | none => .undefined
  let busDestination :=
    match props.selectedBus with
    | some bus => bus.destination_stop.orElse bus.to_
    | none => .undefined
  let routeSource :=
    match routeInfo with
    | some r => r.source_stop
    | none => .undefined
  let routeDestination :=
    match routeInfo with
    | some r => r.destination_stop
    | none => .undefined
  (((routeSource.orElse busSource).orElse props.source).orElse (.str "Start Stop"),
    ((routeDestination.orElse busDestination).orElse props.destination).orElse
      (.str "End Stop"))

/-- The array `fallbackStops` (lines 123-141) for the given intermediate stop
names. -/
def fallbackStops (startLocation endLocation : JsVal) (intermediateStops : List String) :
    List RouteStop :=
  [⟨.num 1, startLocation, .str "completed", .str "Departed", .str "09:00 AM", .halves 0,
      .undefined⟩] ++
    intermediateStops.mapIdx (fun index name =>
      ⟨.num (index + 2), .str name, .str (if index = 0 then "current" else "upcoming"),
        .str (if index = 0 then "2 min" else toString (15 + index * 12) ++ " min"),
        .str (toString (9 + (index + 1) / 4) ++ ":" ++ pad2 ((index + 1) * 15 % 60) ++ " AM"),
        .halves ((index + 1) * 25), .undefined⟩) ++
    [⟨.num (intermediateStops.length + 2), endLocation, .str "upcoming",
      .str (toString (30 + intermediateStops.length * 12) ++ " min"),
      .str (toString (10 + intermediateStops.length / 4) ++ ":00 AM"),
      .halves ((intermediateStops.length + 2) * 25), .undefined⟩]

/-- `generateFallbackStops` (lines 110-146): the state after it, or `none` when
it throws before setting any state. -/
def generateFallbackStops (inherited : String → String → Bool) (props : Props) (s : State)
    (routeInfo : Option RouteInfo) : Option State :=
  let locations := fallbackLocations props routeInfo
  match getIntermediateStops inherited locations.1 locations.2 with
  | none => none
  | some intermediateStops =>
    some { s with
      routeStops := fallbackStops locations.1 locations.2 intermediateStops
      realEstimatedTime := some (toString (30 + intermediateStops.length * 12) ++ " min") }

/-- The stops set when no bus is selected (lines 35-43). -/
def placeholderStops (props : Props) : List RouteStop :=
  [⟨.num 1, props.source.orElse (.str "Start Stop"), .str "completed", .str "Departed",
      .str "09:00 AM", .copied .undefined, .undefined⟩,
    ⟨.num 2, .str "City Center", .str "completed", .str "Passed", .str "09:15 AM",
      .copied .undefined, .undefined⟩,
    ⟨.num 3, .str "Mall Junction", .str "current", .str "2 min", .str "09:30 AM",
      .copied .undefined, .undefined⟩,
    ⟨.num 4, .str "University Gate", .str "upcoming", .str "17 min", .str "09:45 AM",
      .copied .undefined, .undefined⟩,
    ⟨.num 5, .str "Hospital Cross", .str "upcoming", .str "32 min", .str "10:00 AM",
      .copied .undefined, .undefined⟩,
    ⟨.num 6, .str "Industrial Area", .str "upcoming", .str "47 min", .str "10:15 AM",
      .copied .undefined, .undefined⟩,
    ⟨.num 7, props.destination.orElse (.str "End Stop"), .str "upcoming", .str "62 min",
      .str "10:30 AM", .copied .undefined, .undefined⟩]

/-- The callback of `timeline.stops.map` (lines 58-66). -/
def toRouteStop (stop : ApiStop) : RouteStop :=
  { id := stop.id
    name := stop.name
    status := stop.status
    eta := stop.eta
    time := stop.arrivalTime
    distance := .copied stop.distance
    stop_order := stop.stop_order }

/-- The sum `totalEta` of lines 72-81: the minutes `parseInt` reads from the
ETAs of the stops from the current one on (from the first stop when none is
current). -/
def totalEta (stops : List RouteStop) : Int :=
  let currentIndex := stops.findIdx? fun stop => stop.status == .str "current"
  let upcomingStops := stops.drop (currentIndex.getD 0)
  upcomingStops.foldl (fun total stop =>
    match parseInt stop.eta.toStr with
    | some eta => total + eta
    | none => total) 0

/-- The text set as `realEstimatedTime` on lines 83-87 for a positive total. -/
def etaText (total : Int) : String :=
  if total / 60 > 0 then toString (total / 60) ++ "h " ++ toString (total % 60) ++ "m"
  else toString (total % 60) ++ " min"

/-- The `catch` block (lines 96-103) followed by `finally`: the fallback is
generated without route information; when that throws, only `loading` is
reset. -/
def recover (inherited : String → String → Bool) (props : Props) (s : State) : State :=
  match generateFallbackStops inherited props s none with
  | some s' => { s' with loading := false }
  | none => { s with loading := false }

/-- `fetchRouteData` (lines 31-107): the state once the function has
finished. -/
def fetchRouteData (inherited : String → String → Bool) (props : Props) (s : State)
    (outcome : Outcome) : State :=
  let selected :=
    match props.selectedBus with
    | some bus => bus.bus_id.truthy
    | none => false
  if !selected then { s with routeStops := placeholderStops props }
  else
    let loadingState := { s with loading := true }
    match outcome with
    | .throws => recover inherited props loadingState
    | .responds (some ⟨success, some ⟨some timeline, route⟩⟩) =>
      if success.truthy then
        match timeline.stops with
        | some (first :: rest) =>
          let stops := (first :: rest).map toRouteStop
          { routeStops := stops
            loading := false
            realEstimatedTime :=
              if totalEta stops > 0 then some (etaText (totalEta stops))
              else s.realEstimatedTime }
        | _ =>
          match generateFallbackStops inherited props loadingState route with
          | some s' => { s' with loading := false }
          | none => recover inherited props loadingState
      else
        match generateFallbackStops inherited props loadingState none with
        | some s' => { s' with loading := false }
        | none => recover inherited props loadingState
    | .responds _ =>
      match generateFallbackStops inherited props loadingState none with
      | some s' => { s' with loading := false }
      | none => recover inherited props loadingState

/-- The answer of `getBusRouteTimeline` as `response.data` holds it after the
JSON transport.  `distance` gives, for the stop at each index, the number the
server computed as its `distance`, which the embedding of the handler leaves
out. -/
def received (distance : Nat → JsVal) (data : RouteController.TimelineData) : Body :=
  { success := .bool true
    data := some
      { timeline := some
          { stops := some (data.timeline.stops.mapIdx fun index stop =>
              { id := .num stop.id
                name := .str stop.name
                status := .str stop.status
                eta := .str stop.eta
                arrivalTime := .str stop.arrivalTime
                distance := distance index
                stop_order := .num stop.stop_order }) }
        route := some
          { source_stop :=
              match data.route.source_stop with
              | some name => .str name
              | none => .null
            destination_stop :=
              match data.route.destination_stop with
              | some name => .str name
              | none => .null } } }

end RouteTimelineCard

/-! ## Example inputs -/

namespace Examples

/-- A signup body whose `mobile` is the JSON number 1234567890. -/
def numericMobileBody : Auth.SignupBody :=
  ⟨.str "Asha", .undefined, .num 1234567890, .undefined, .str "secret1"⟩

/-- A signup body whose `mobile` is a string of nine digits. -/
def nineDigitBody : Auth.SignupBody :=
  ⟨.str "Asha", .num 30, .str "123456789", .str "asha@example.com", .str "secret1"⟩

/-- A hashing function that always succeeds. -/
def constHash : JsVal → Option String := fun _ => some "$2a$10$hash"

/-- A connection with the driver's default flags that compares an integer
column with the decimal text of a parameter. -/
def decimalEnv : SqlEnv := ⟨true, fun n s => toString n == s⟩

/-- A notifications table with one unread row of user 7 and one of user 8. -/
def twoNotifications : List NotificationController.NotificationRow :=
  [⟨1, 7, "Delay", "Bus 12 is late", "bus_delay", "high", false, some 12, none, 100⟩,
   ⟨2, 8, "Arrival", "Bus 3 is here", "bus_arrival", "low", false, some 3, none, 101⟩]

/-- A screen state with one unread notification. -/
def oneUnread : NotificationScreen.State := ⟨[⟨1, .num 0⟩], 1⟩

/-- Events that push the counter down more often than up. -/
def drainingEvents : List NotificationScreen.Event :=
  [.markAsRead 1 true, .markAsRead 1 true, .deleteNotification 1 true,
   .new_notification (some [⟨5, .undefined⟩]), .markAllAsRead true,
   .fetchNotifications (some ⟨true, none, 0⟩), .markAsRead 9 true]

/-- The text functions on texts of ASCII characters, where lower-casing maps
the letters `A` to `Z` and leaves the rest, under a collation that tells all
characters apart. -/
def asciiText : BusController.TextEnv :=
  { toLowerCase := fun text => String.mk (text.toList.map Char.toLower)
    sqlLower := fun text => String.mk (text.toList.map Char.toLower)
    collate := fun c e => c == e }

/-- One route, one available bus, no driver and no session. -/
def oneRouteDb : Database :=
  { buses := [⟨1, "PB-01", 40, "available", none⟩]
    drivers := []
    driver_sessions := []
    routes := [⟨1, "Chandigarh", "Ludhiana", .num 95⟩]
    stops := []
    route_progress := []
    eta_predictions := [] }

/-- The bus of `oneRouteDb` as a search returns it. -/
def oneRouteBus : BusController.SearchBus :=
  ⟨1, 1, "PB-01", "PB-01", "available", "available", 40, 1, "Chandigarh to Ludhiana",
    "Chandigarh to Ludhiana", "Chandigarh", "Ludhiana", "Chandigarh", "Ludhiana", .num 95, none,
    "Not Assigned", none, "Ready", "30.7333,76.7794", 1, "Available from Chandigarh"⟩

/-- Two routes; bus 1 is running an open session on route 2, bus 2 is
available without a session. -/
def liveBusDb : Database :=
  { buses := [⟨1, "PB-01", 40, "running", some 1⟩, ⟨2, "PB-02", 40, "available", none⟩]
    drivers := [⟨1, "Gurpreet", "9876543210"⟩]
    driver_sessions := [⟨1, 1, 1, some 2, none⟩]
    routes := [⟨1, "Chandigarh", "Ludhiana", .num 95⟩, ⟨2, "Patiala", "Amritsar", .num 230⟩]
    stops := []
    route_progress := []
    eta_predictions := [] }

/-- The comparison of an integer column with the decimal text of a number. -/
def decimalEq : Nat → String → Bool := fun n s => toString n == s

/-- Two routes with their stops; bus 1 has no session, bus 2 has an open
session on route 2. -/
def timelineDb : Database :=
  { buses := [⟨1, "PB-01", 40, "available", none⟩, ⟨2, "PB-02", 40, "running", some 1⟩]
    drivers := [⟨1, "Gurpreet", "9876543210"⟩]
    driver_sessions := [⟨1, 2, 1, some 2, none⟩]
    routes := [⟨1, "Chandigarh", "Ludhiana", .num 95⟩, ⟨2, "Patiala", "Amritsar", .num 230⟩]
    stops :=
      [⟨11, 1, "ISBT Chandigarh", 1, .str "30.7333", .str "76.7794"⟩,
       ⟨12, 1, "Zirakpur", 2, .str "30.6489", .str "76.8182"⟩,
       ⟨13, 1, "Rajpura", 3, .str "30.4847", .str "76.5941"⟩,
       ⟨14, 1, "Ludhiana Bus Stand", 4, .str "30.9010", .str "75.8573"⟩,
       ⟨21, 2, "Patiala Bus Stand", 1, .str "30.3398", .str "76.3869"⟩,
       ⟨22, 2, "Amritsar Bus Stand", 2, .str "31.6340", .str "74.8723"⟩]
    route_progress := []
    eta_predictions := [] }

/-- The answer of `getBusRouteStops` for bus 1 of `timelineDb` when route 1
is requested. -/
def route1Stops : BusController.RouteStopsData :=
  { bus := ⟨1, "PB-01", "available"⟩
    route := ⟨.str "1", some "Chandigarh to Ludhiana", some "Chandigarh", some "Chandigarh", 4⟩
    timeline :=
      { stops :=
          [⟨11, "ISBT Chandigarh", "completed", 0, "Passed", .str "30.7333", .str "76.7794", 1⟩,
           ⟨12, "Zirakpur", "current", 3, "Now", .str "30.6489", .str "76.8182", 2⟩,
           ⟨13, "Rajpura", "upcoming", 5, "15 min", .str "30.4847", .str "76.5941", 3⟩,
           ⟨14, "Ludhiana Bus Stand", "upcoming", 8, "30 min", .str "30.9010", .str "75.8573",
             4⟩]
        current_stop_index := 1 } }

/-- The answer of `getBusRouteTimeline` for bus 1 of `timelineDb`, which has
no open session. -/
def route1Timeline : RouteController.TimelineData :=
  { bus :=
      { bus_id := 1
        bus_number := "PB-01"
        capacity := 40
        status := "available"
        driver_id := none
        is_real_time := false
        last_seen := some ⟨"Zirakpur", "current", "9:15 AM", "5 min", "Currently at Zirakpur"⟩ }
    route :=
      { route_id := 1
        route_name := "Chandigarh to Ludhiana"
        source_stop := some "Chandigarh"
        destination_stop := some "Ludhiana"
        distance_km := .num 95
        total_stops := 4
        is_real_time := false }
    timeline :=
      { current_stop_index := 1
        stops :=
          [⟨11, "ISBT Chandigarh", "9:00 AM", "completed", "Passed", 1⟩,
           ⟨12, "Zirakpur", "9:15 AM", "current", "5 min", 2⟩,
           ⟨13, "Rajpura", "9:30 AM", "upcoming", "15 min", 3⟩,
           ⟨14, "Ludhiana Bus Stand", "9:45 AM", "upcoming", "30 min", 4⟩]
        mode := "static"
        message := "Showing scheduled stops from database"
        last_seen_stop := some ⟨"Zirakpur", "current", "9:15 AM", "5 min", "Currently at Zirakpur"⟩ }
    metadata := ⟨4, 1, 2, "static_route_data"⟩ }

/-- A body that leaves out `type`, `priority`, `bus_id` and `route_id`. -/
def plainBody : NotificationController.CreateBody :=
  ⟨.num 7, .str "Delay", .str "Bus 12 is late", .undefined, .undefined, .undefined, .undefined⟩

/-- A body with a type outside the seven valid ones. -/
def badTypeBody : NotificationController.CreateBody :=
  ⟨.num 7, .str "Delay", .str "Bus 12 is late", .str "promo", .str "low", .undefined,
    .undefined⟩

/-- A database that stores every notification as row 3 of user 7. -/
def storeAsThird : NotificationController.NotificationValues →
    Option NotificationController.NotificationRow := fun v =>
  some ⟨3, 7, v.title.toStr, v.message.toStr, v.type.toStr, v.priority.toStr, false, none,
    none, 102⟩

/-- Three stops of a tracked route: the bus has left the first, is at the
second and has not reached the third. -/
def progressStops : List RouteController.StopRow :=
  [⟨⟨21, 2, "Patiala Bus Stand", 1, .null, .null⟩, .str "2026-11-04 09:00:00",
      .str "2026-11-04 09:02:00", .null, .null⟩,
    ⟨⟨22, 2, "Rajpura", 2, .null, .null⟩, .str "2026-11-04 09:40:00", .null, .null, .null⟩,
    ⟨⟨23, 2, "Amritsar Bus Stand", 3, .null, .null⟩, .null, .null, .null, .null⟩]

/-- Two fetched rows of user 7 around one of user 8. -/
def fetchedRows : List NotificationController.JoinedNotification :=
  [⟨⟨1, 7, "Delay", "Bus 12 is late", "bus_delay", "high", false, some 12, none, 100⟩,
      some "PB-12", none, none⟩,
    ⟨⟨2, 8, "Arrival", "Bus 3 is here", "bus_arrival", "low", false, some 3, none, 101⟩,
      some "PB-03", none, none⟩,
    ⟨⟨4, 7, "Alert", "Road closed", "service_alert", "urgent", false, none, none, 102⟩,
      none, none, none⟩]

/-- A running bus with one location update. -/
def trackedBuses : List Bus := [⟨1, "PB-01", 40, "running", some 1⟩]

/-- The location update of the tracked bus. -/
def trackedLocations : List Server.LocationUpdate :=
  [⟨1, .str "30.7333", .str "76.7794", 1000⟩]

/-- The function `Number` on the two coordinate texts of the example, each
standing for itself. -/
def coordinate : String → Option String := fun text =>
  if text = "30.7333" || text = "76.7794" then some text else none

/-- The property lookups that find an inherited truthy value, for the names of
the example: `constructor` has a `name`. -/
def inheritedName : String → String → Bool := fun start stop =>
  start == "constructor" && stop == "name"

/-- A card for bus 1 on a route from a place called `constructor` to a place
called `name`. -/
def constructorCard : RouteTimelineCard.Props :=
  { source := .str "constructor"
    destination := .str "name"
    selectedBus := some ⟨.num 1, .str "constructor", .undefined, .str "name", .undefined⟩ }

/-- A card for bus 1 from Chandigarh to Ludhiana. -/
def cardProps : RouteTimelineCard.Props :=
  { source := .str "Chandigarh"
    destination := .str "Ludhiana"
    selectedBus := some ⟨.num 1, .str "Chandigarh", .undefined, .str "Ludhiana", .undefined⟩ }

/-- The state of a card that has not fetched yet. -/
def emptyCard : RouteTimelineCard.State := ⟨[], false, none⟩

/-- One route of three stops; the running bus 2 has an open session on it and
has left the first stop. -/
def tripDb : Database :=
  { buses := [⟨2, "PB-02", 40, "running", some 1⟩]
    drivers := [⟨1, "Gurpreet", "9876543210"⟩]
    driver_sessions := [⟨1, 2, 1, some 2, none⟩]
    routes := [⟨2, "Patiala", "Amritsar", .num 230⟩]
    stops :=
      [⟨21, 2, "Patiala Bus Stand", 1, .str "30.3398", .str "76.3869"⟩,
       ⟨22, 2, "Jalandhar", 2, .str "31.3260", .str "75.5762"⟩,
       ⟨23, 2, "Amritsar Bus Stand", 3, .str "31.6340", .str "74.8723"⟩]
    route_progress := [⟨1, 21, .str "2026-11-04 09:00:00", .str "2026-11-04 09:02:00"⟩]
    eta_predictions := [] }

end Examples

/-! ## Theorems -/

/-! ### Signup and login -/

/-- C1, as stated, fails: the body whose `mobile` is the JSON number
1234567890 does not hold a string as `mobile`, yet signup answers 201 and
executes the insert. -/
theorem signup_accepts_numeric_mobile :
    (¬ ∃ s, Examples.numericMobileBody.mobile = .str s ∧ Auth.tenDigits s = true) ∧
      (Auth.signup Examples.constHash .ok Examples.numericMobileBody).status = 201 ∧
      (Auth.signup Examples.constHash .ok Examples.numericMobileBody).inserts ≠ [] := by
  refine ⟨?_, by decide, by decide⟩
  rintro ⟨s, hs, -⟩
  simp [Examples.numericMobileBody] at hs

/-- C1, amended: whenever the text the regular expression tests, the string
conversion of `mobile`, is not exactly ten decimal digits, signup answers 400
and executes no insert, whatever the other fields, the hashing and the
database do. -/
theorem signup_rejects_bad_mobile (hash : JsVal → Option String)
    (outcome : Auth.InsertOutcome) (body : Auth.SignupBody)
    (h : Auth.tenDigits body.mobile.toStr = false) :
    (Auth.signup hash outcome body).status = 400 ∧
      (Auth.signup hash outcome body).inserts = [] := by
  unfold Auth.signup
  by_cases h1 : (!body.name.truthy || !body.mobile.truthy || !body.password.truthy) = true
  · simp [h1]
  · simp [h1, h]

/-- Witness of `signup_rejects_bad_mobile`: a nine-digit mobile string. -/
theorem signup_rejects_bad_mobile_witness :
    Auth.tenDigits Examples.nineDigitBody.mobile.toStr = false ∧
      (Auth.signup Examples.constHash .ok Examples.nineDigitBody).status = 400 ∧
      (Auth.signup Examples.constHash .ok Examples.nineDigitBody).inserts = [] :=
  ⟨by decide, signup_rejects_bad_mobile Examples.constHash .ok Examples.nineDigitBody (by decide)⟩

/-- The first row of a filtered list is the first row satisfying the filter. -/
theorem head?_filter_eq_find? {α : Type} (p : α → Bool) (l : List α) :
    (l.filter p).head? = l.find? p := by
  induction l with
  | nil => rfl
  | cons a l ih =>
    by_cases h : p a = true
    · simp [List.filter_cons, List.find?_cons, h]
    · simp [List.filter_cons, List.find?_cons, h, ih]

/-- C2: login answers with a token exactly when `mobile` and `password` are
supplied, the first user row with that mobile exists and `bcrypt.compare`
accepts the password against its hash; the token is then the signature of the
payload with that row's `user_id` and `expiresIn` of seven days.  A missing
field gives 400, no user row 404, a password that does not match 400. -/
theorem login_token_iff (env : Auth.LoginEnv) (users : List Auth.UserRow)
    (body : Auth.LoginBody) :
    (∀ t, Auth.login env users body = .token t ↔
        body.mobile.truthy = true ∧ body.password.truthy = true ∧
          ∃ user, users.find? (fun u => env.textEq u.mobile body.mobile) = some user ∧
            env.compare body.password user.password_hash = some true ∧
            t = env.sign ⟨user.user_id⟩ ⟨"7d"⟩) ∧
      ((body.mobile.truthy = false ∨ body.password.truthy = false) →
        Auth.login env users body =
          .message 400 "Please provide mobile number and password.") ∧
      (body.mobile.truthy = true → body.password.truthy = true →
        users.find? (fun u => env.textEq u.mobile body.mobile) = none →
        Auth.login env users body = .message 404 "User not found.") ∧
      (body.mobile.truthy = true → body.password.truthy = true →
        ∀ user, users.find? (fun u => env.textEq u.mobile body.mobile) = some user →
          env.compare body.password user.password_hash = some false →
          Auth.login env users body = .message 400 "Invalid credentials.") := by
  rw [← head?_filter_eq_find? (fun u => env.textEq u.mobile body.mobile) users]
  unfold Auth.login Auth.usersByMobile
  cases hm : body.mobile.truthy
  · simp
  cases hp : body.password.truthy
  · simp
  cases hrows : users.filter (fun u => env.textEq u.mobile body.mobile) with
  | nil => simp
  | cons user rest =>
    cases hc : env.compare body.password user.password_hash with
    | none => simp [hc]
    | some b =>
      cases b
      · simp [hc]
      · simp only [List.head?_cons, Option.some.injEq, hc]
        refine ⟨?_, by simp, by simp, ?_⟩
        · intro t
          constructor
          · intro ht
            simp at ht
            exact ⟨trivial, trivial, user, rfl, hc, ht.symm⟩
          · rintro ⟨-, -, u, hu, -, ht⟩
            subst hu
            simp [ht]
        · intro _ _ u hu hcu
          subst hu
          rw [hc] at hcu
          cases hcu

/-! ### Notifications -/

/-- Marking a row read does not change whether the `WHERE` clause selects it. -/
theorem ownedBy_setRead (env : SqlEnv) (notificationId : String) (userId : Nat)
    (n : NotificationController.NotificationRow) :
    NotificationController.ownedBy env notificationId userId
        (if NotificationController.ownedBy env notificationId userId n = true then
          { n with is_read := true } else n) =
      NotificationController.ownedBy env notificationId userId n := by
  by_cases h : NotificationController.ownedBy env notificationId userId n = true
  · rw [if_pos h]; rfl
  · rw [if_neg h]

/-- The table after the `UPDATE` of `markAsRead`. -/
theorem updateRead_table (env : SqlEnv) (table : List NotificationController.NotificationRow)
    (notificationId : String) (userId : Nat) :
    (NotificationController.updateRead env table notificationId userId).1 =
      table.map fun n =>
        if NotificationController.ownedBy env notificationId userId n = true then
          { n with is_read := true } else n := rfl

/-- Running the `UPDATE` of `markAsRead` on its own result changes nothing. -/
theorem updateRead_table_idem (env : SqlEnv)
    (table : List NotificationController.NotificationRow) (notificationId : String)
    (userId : Nat) :
    (NotificationController.updateRead env
        (NotificationController.updateRead env table notificationId userId).1
        notificationId userId).1 =
      (NotificationController.updateRead env table notificationId userId).1 := by
  rw [updateRead_table, updateRead_table, List.map_map]
  apply List.map_congr_left
  intro n _
  simp only [Function.comp_apply, ownedBy_setRead]
  by_cases h : NotificationController.ownedBy env notificationId userId n = true
  · simp [h]
  · simp [h]

/-- Under `CLIENT_FOUND_ROWS` the `UPDATE` reports a positive `affectedRows`
as soon as the table holds a row the `WHERE` clause selects. -/
theorem updateRead_affected_pos (env : SqlEnv)
    (table : List NotificationController.NotificationRow) (notificationId : String)
    (userId : Nat) (hflag : env.foundRows = true)
    (hown : ∃ n ∈ table, NotificationController.ownedBy env notificationId userId n = true) :
    (NotificationController.updateRead env table notificationId userId).2 ≠ 0 := by
  obtain ⟨n, hn, hsel⟩ := hown
  simp only [NotificationController.updateRead, hflag, if_true]
  intro h
  have hmem : n ∈ table.filter (NotificationController.ownedBy env notificationId userId) :=
    List.mem_filter.mpr ⟨hn, hsel⟩
  rw [List.length_eq_zero.mp h] at hmem
  cases hmem

/-- C3: for a notification that belongs to the requesting user, on a connection
with the driver's default `CLIENT_FOUND_ROWS` flag, a second `markAsRead`
right after the first also answers `success: true`, leaves the table as the
first call left it, and `getUnreadCount` reports the same count, which is not
negative. -/
theorem markAsRead_twice_idempotent (env : SqlEnv)
    (table : List NotificationController.NotificationRow) (userId : Nat)
    (notificationId : String) (hflag : env.foundRows = true)
    (hid : notificationId ≠ "")
    (hown : ∃ n ∈ table, env.numEq n.notification_id notificationId = true ∧
      n.user_id = userId) :
    (NotificationController.markAsRead env table userId notificationId).1 =
        ⟨200, true, "Notification marked as read"⟩ ∧
      (NotificationController.markAsRead env
          (NotificationController.markAsRead env table userId notificationId).2
          userId notificationId).1 = ⟨200, true, "Notification marked as read"⟩ ∧
      (NotificationController.markAsRead env
          (NotificationController.markAsRead env table userId notificationId).2
          userId notificationId).2 =
        (NotificationController.markAsRead env table userId notificationId).2 ∧
      (NotificationController.getUnreadCount
          (NotificationController.markAsRead env
            (NotificationController.markAsRead env table userId notificationId).2
            userId notificationId).2 userId).unread_count =
        (NotificationController.getUnreadCount
          (NotificationController.markAsRead env table userId notificationId).2
          userId).unread_count ∧
      (0 : Int) ≤ (NotificationController.getUnreadCount
          (NotificationController.markAsRead env
            (NotificationController.markAsRead env table userId notificationId).2
            userId notificationId).2 userId).unread_count := by
  have hsel : ∃ n ∈ table, NotificationController.ownedBy env notificationId userId n = true := by
    obtain ⟨n, hn, h1, h2⟩ := hown
    exact ⟨n, hn, by simp [NotificationController.ownedBy, h1, h2]⟩
  have hfirst := updateRead_affected_pos env table notificationId userId hflag hsel
  have hsel2 : ∃ n ∈ (NotificationController.updateRead env table notificationId userId).1,
      NotificationController.ownedBy env notificationId userId n = true := by
    obtain ⟨n, hn, h⟩ := hsel
    rw [updateRead_table]
    exact ⟨_, List.mem_map_of_mem _ hn, by rw [ownedBy_setRead]; exact h⟩
  have hsecond := updateRead_affected_pos env _ notificationId userId hflag hsel2
  have h1 : NotificationController.markAsRead env table userId notificationId =
      (⟨200, true, "Notification marked as read"⟩,
        (NotificationController.updateRead env table notificationId userId).1) := by
    simp [NotificationController.markAsRead, hid, hfirst]
  have h2 : NotificationController.markAsRead env
      (NotificationController.updateRead env table notificationId userId).1 userId
        notificationId =
      (⟨200, true, "Notification marked as read"⟩,
        (NotificationController.updateRead env table notificationId userId).1) := by
    simp [NotificationController.markAsRead, hid, hsecond, updateRead_table_idem]
  rw [h1]
  dsimp only
  rw [h2]
  exact ⟨rfl, rfl, rfl, rfl, Int.natCast_nonneg _⟩

/-- Witness of `markAsRead_twice_idempotent`: user 7 marks notification 1. -/
theorem markAsRead_twice_idempotent_witness :
    (NotificationController.markAsRead Examples.decimalEnv
        (NotificationController.markAsRead Examples.decimalEnv
          Examples.twoNotifications 7 "1").2 7 "1").1 =
      ⟨200, true, "Notification marked as read"⟩ :=
  (markAsRead_twice_idempotent Examples.decimalEnv Examples.twoNotifications 7 "1" rfl
    (by decide) ⟨_, List.mem_cons_self _ _, by decide, rfl⟩).2.1

/-- Every event keeps `unreadCount` at or above zero. -/
theorem step_unreadCount_nonneg (s : NotificationScreen.State)
    (e : NotificationScreen.Event) (h : 0 ≤ s.unreadCount) :
    0 ≤ (NotificationScreen.step s e).unreadCount := by
  cases e with
  | fetchNotifications r =>
    cases r with
    | none => exact h
    | some d =>
      simp only [NotificationScreen.step, NotificationScreen.fetchNotifications]
      split
      · split
        · exact le_refl _
        · exact Int.natCast_nonneg _
      · exact h
  | markAsRead i ok =>
    simp only [NotificationScreen.step, NotificationScreen.markAsRead]
    split
    · exact le_max_left _ _
    · exact h
  | markAllAsRead ok =>
    simp only [NotificationScreen.step, NotificationScreen.markAllAsRead]
    split
    · exact le_refl _
    · exact h
  | deleteNotification i ok =>
    simp only [NotificationScreen.step, NotificationScreen.deleteNotification]
    split
    · split
      · split
        · exact le_max_left _ _
        · exact h
      · exact h
    · exact h
  | new_notification d =>
    cases d with
    | none => exact h
    | some data =>
      simp only [NotificationScreen.step, NotificationScreen.new_notification]
      split
      · split
        · exact Int.add_nonneg h (Int.natCast_nonneg _)
        · exact h
      · exact h

/-- C4: starting from a state with `unreadCount >= 0`, any sequence of
`fetchNotifications`, `markAsRead`, `markAllAsRead`, `deleteNotification` and
`new_notification` events, in any order, ends in a state with
`unreadCount >= 0`. -/
theorem unreadCount_never_negative (s : NotificationScreen.State)
    (events : List NotificationScreen.Event) (h : 0 ≤ s.unreadCount) :
    0 ≤ (NotificationScreen.run s events).unreadCount := by
  induction events generalizing s with
  | nil => exact h
  | cons e rest ih =>
    exact ih (NotificationScreen.step s e) (step_unreadCount_nonneg s e h)

/-- Witness of `unreadCount_never_negative`: more decrements than the counter
holds. -/
theorem unreadCount_never_negative_witness :
    0 ≤ Examples.oneUnread.unreadCount ∧
      0 ≤ (NotificationScreen.run Examples.oneUnread Examples.drainingEvents).unreadCount :=
  ⟨by decide, unreadCount_never_negative Examples.oneUnread Examples.drainingEvents (by decide)⟩

/-! ### Bus search -/

/-- Lower-casing produces a `LIKE` metacharacter only from itself. -/
theorem toLower_metachar (c : Char)
    (h : c.toLower = '%' ∨ c.toLower = '_' ∨ c.toLower = '\\') :
    c = '%' ∨ c = '_' ∨ c = '\\' := by
  unfold Char.toLower at h
  simp only at h
  split at h
  · rename_i hr
    exfalso
    generalize c.toNat = n at hr h
    obtain ⟨h1, h2⟩ := hr
    interval_cases n <;> revert h <;> decide
  · exact h

/-- The ASCII lower-casing keeps a text free of metacharacters free of them. -/
theorem asciiText_wildcardFree (text : String) (h : BusController.wildcardFree text = true) :
    BusController.wildcardFree (Examples.asciiText.toLowerCase text) = true := by
  simp only [BusController.wildcardFree, List.all_eq_true, Bool.and_eq_true, bne_iff_ne,
    ne_eq] at h
  show ((text.toList.map Char.toLower).all fun c => c != '%' && c != '_' && c != '\\') = true
  simp only [List.all_eq_true, List.mem_map, Bool.and_eq_true, bne_iff_ne, ne_eq]
  rintro c ⟨d, hd, rfl⟩
  have hd3 := h d hd
  refine ⟨⟨fun e => ?_, fun e => ?_⟩, fun e => ?_⟩
  · rcases toLower_metachar d (Or.inl e) with h1 | h1 | h1
    · exact hd3.1.1 h1
    · exact hd3.1.2 h1
    · exact hd3.2 h1
  · rcases toLower_metachar d (Or.inr (Or.inl e)) with h1 | h1 | h1
    · exact hd3.1.1 h1
    · exact hd3.1.2 h1
    · exact hd3.2 h1
  · rcases toLower_metachar d (Or.inr (Or.inr e)) with h1 | h1 | h1
    · exact hd3.1.1 h1
    · exact hd3.1.2 h1
    · exact hd3.2 h1

/-- The characters of a text free of metacharacters are literal. -/
theorem wildcardFree_literal (text : String) (h : BusController.wildcardFree text = true) :
    ∀ c ∈ text.toList, c ≠ '%' ∧ c ≠ '_' ∧ c ≠ '\\' := by
  intro c hc
  simp only [BusController.wildcardFree, List.all_eq_true, Bool.and_eq_true, bne_iff_ne,
    ne_eq] at h
  exact ⟨(h c hc).1.1, (h c hc).1.2, (h c hc).2⟩

/-- A pattern of literal characters followed by `%` matches exactly the
subjects that start with those characters. -/
theorem likeFrom_literal_prefix (eq : Char → Char → Bool) (p : List Char)
    (hp : ∀ c ∈ p, c ≠ '%' ∧ c ≠ '_' ∧ c ≠ '\\') (s : List Char) :
    BusController.likeFrom eq false (p ++ ['%']) s = BusController.startsWith eq p s := by
  induction p generalizing s with
  | nil =>
    simp only [List.nil_append, BusController.likeFrom, Bool.false_eq_true, if_false, if_true,
      BusController.startsWith, List.any_eq_true]
    exact ⟨[], (List.mem_tails _ _).mpr List.nil_suffix, rfl⟩
  | cons c p ih =>
    have hc := hp c (List.mem_cons_self _ _)
    have ih2 := ih fun d hd => hp d (List.mem_cons_of_mem _ hd)
    cases s with
    | nil =>
      simp [BusController.likeFrom, BusController.startsWith, hc.1, hc.2.1, hc.2.2]
    | cons e rest =>
      simp only [List.cons_append, BusController.likeFrom, BusController.startsWith,
        Bool.false_eq_true, if_false, hc.1, hc.2.1, hc.2.2]
      exact congrArg (fun b => eq c e && b) (ih2 rest)

/-- For a text of literal characters, `subject LIKE %text%` says that the
text stands somewhere in the subject. -/
theorem like_contains (eq : Char → Char → Bool) (p : List Char)
    (hp : ∀ c ∈ p, c ≠ '%' ∧ c ≠ '_' ∧ c ≠ '\\') (s : List Char) :
    BusController.like eq s ('%' :: (p ++ ['%'])) =
      s.tails.any fun rest => BusController.startsWith eq p rest := by
  simp only [BusController.like, BusController.likeFrom, Bool.false_eq_true, if_false, if_true,
    likeFrom_literal_prefix eq p hp]

/-- Under a comparison that is equality, the characters stand at the start of
the subject exactly when they are a prefix of it. -/
theorem startsWith_iff_prefix (eq : Char → Char → Bool)
    (heq : ∀ c e, eq c e = true ↔ c = e) (p s : List Char) :
    BusController.startsWith eq p s = true ↔ p <+: s := by
  induction p generalizing s with
  | nil => simp [BusController.startsWith]
  | cons c p ih =>
    cases s with
    | nil => simp [BusController.startsWith]
    | cons e rest =>
      simp only [BusController.startsWith, Bool.and_eq_true, heq, List.cons_prefix_cons]
      exact and_congr_right fun _ => ih rest

/-- Under a collation that tells all characters apart, a name contains a text
exactly when the lower-cased text is a segment of the lower-cased name. -/
theorem containsText_iff_infix (env : BusController.TextEnv)
    (heq : ∀ c e, env.collate c e = true ↔ c = e) (name text : String) :
    BusController.containsText env name text = true ↔
      (env.toLowerCase text).toList <:+: (env.sqlLower name).toList := by
  simp only [BusController.containsText, List.any_eq_true, List.mem_tails,
    startsWith_iff_prefix env.collate heq]
  rw [List.infix_iff_prefix_suffix]
  constructor
  · rintro ⟨t, h1, h2⟩
    exact ⟨t, h2, h1⟩
  · rintro ⟨t, h1, h2⟩
    exact ⟨t, h2, h1⟩

/-- For a source and destination whose lower-cased texts are free of
metacharacters the `routeQuery` selects the routes whose names contain them,
case-insensitively. -/
theorem mem_matchingRoutes (env : BusController.TextEnv) (db : Database)
    (source destination : String)
    (hws : BusController.wildcardFree (env.toLowerCase source) = true)
    (hwd : BusController.wildcardFree (env.toLowerCase destination) = true) (r : Route) :
    r ∈ BusController.matchingRoutes env db source destination ↔
      r ∈ db.routes ∧ BusController.containsText env r.source_name source = true ∧
        BusController.containsText env r.destination_name destination = true := by
  simp only [BusController.matchingRoutes, List.mem_filter, Bool.and_eq_true,
    BusController.searchPattern, BusController.containsText,
    like_contains _ _ (wildcardFree_literal _ hws),
    like_contains _ _ (wildcardFree_literal _ hwd)]

/-- C5, as stated, fails: no route name contains the character `%`, yet the
search for source `%` and destination `%` returns a bus. -/
theorem searchBuses_wildcard_returns_bus :
    (∀ r ∈ Examples.oneRouteDb.routes,
        ¬ (BusController.containsText Examples.asciiText r.source_name "%" = true ∧
          BusController.containsText Examples.asciiText r.destination_name "%" = true)) ∧
      BusController.searchBuses Examples.asciiText Examples.oneRouteDb (some "%") (some "%") =
        .ok [⟨1, 1, "PB-01", "PB-01", "available", "available", 40, 1,
          "Chandigarh to Ludhiana", "Chandigarh to Ludhiana", "Chandigarh", "Ludhiana",
          "Chandigarh", "Ludhiana", .num 95, none, "Not Assigned", none, "Ready",
          "30.7333,76.7794", 1, "Available from Chandigarh"⟩] none := by
  refine ⟨by decide, by decide⟩

/-- C5, amended: whatever the case mappings and the collation of the two
runtimes, for every non-empty source and destination whose lower-cased texts
hold none of the `LIKE` metacharacters `%`, `_` and backslash, when no route
has a source name containing the source and a destination name containing the
destination (case-insensitively), searchBuses answers `success: true` with an
empty `buses` list and the message that no direct route was found. -/
theorem searchBuses_no_route_empty (env : BusController.TextEnv) (db : Database)
    (source destination : String) (hs : source ≠ "") (hd : destination ≠ "")
    (hws : BusController.wildcardFree (env.toLowerCase source) = true)
    (hwd : BusController.wildcardFree (env.toLowerCase destination) = true)
    (hnone : ∀ r ∈ db.routes,
      ¬ (BusController.containsText env r.source_name source = true ∧
        BusController.containsText env r.destination_name destination = true)) :
    BusController.searchBuses env db (some source) (some destination) =
      .ok [] (some ("No direct routes found from " ++ source ++ " to " ++ destination)) := by
  have hempty : BusController.matchingRoutes env db source destination = [] := by
    apply List.eq_nil_iff_forall_not_mem.mpr
    intro r hr
    rw [mem_matchingRoutes env db source destination hws hwd] at hr
    exact hnone r hr.1 hr.2
  simp [BusController.searchBuses, hs, hd, hempty]

/-- Witness of `searchBuses_no_route_empty`: no route leaves from Delhi. -/
theorem searchBuses_no_route_empty_witness :
    BusController.searchBuses Examples.asciiText Examples.oneRouteDb (some "Delhi")
        (some "Agra") =
      .ok [] (some "No direct routes found from Delhi to Agra") :=
  searchBuses_no_route_empty Examples.asciiText Examples.oneRouteDb "Delhi" "Agra" (by decide)
    (by decide) (by decide) (by decide) (by decide)

/-- The rows a `LEFT JOIN` pairs with a left-hand row: a match, or `NULL` when
nothing matches. -/
theorem mem_nullExtend {β : Type} (l : List β) (x : Option β) :
    x ∈ nullExtend l ↔ (x = none ∧ l = []) ∨ ∃ b ∈ l, x = some b := by
  cases l with
  | nil => simp [nullExtend]
  | cons a l =>
    simp only [nullExtend, List.mem_map, reduceCtorEq, and_false, false_or]
    constructor
    · rintro ⟨b, hb, rfl⟩
      exact ⟨b, hb, rfl⟩
    · rintro ⟨b, hb, rfl⟩
      exact ⟨b, hb, rfl⟩

/-- A route joined to a row of the `busQuery` is the route of an open session
of the row's bus. -/
theorem busQuery_route (db : Database) (row : BusController.BusRow)
    (hrow : row ∈ BusController.busQuery db) (r : Route) (hr : row.route = some r) :
    ∃ ds ∈ db.driver_sessions, ds.bus_id = row.bus.bus_id ∧ ds.end_time = none ∧
      r ∈ db.routes ∧ ds.route_id = some r.route_id := by
  simp only [BusController.busQuery, orderBy, List.mem_insertionSort, List.mem_filter,
    List.mem_flatMap, List.mem_map] at hrow
  obtain ⟨⟨b, -, d, -, ds, hds, r', hr', rfl⟩, -⟩ := hrow
  simp only at hr
  subst hr
  rw [mem_nullExtend] at hr'
  rcases hr' with ⟨h, -⟩ | ⟨r0, hr0, h⟩
  · cases h
  · cases h
    cases ds with
    | none => simp [routesOf] at hr0
    | some s =>
      rw [mem_nullExtend] at hds
      rcases hds with ⟨h, -⟩ | ⟨s0, hs0, h⟩
      · cases h
      · cases h
        simp only [openSessions, List.mem_filter, Bool.and_eq_true, beq_iff_eq,
          Option.isNone_iff_eq_none] at hs0
        simp only [routesOf, List.mem_filter, beq_iff_eq] at hr0
        exact ⟨s, hs0.1, hs0.2.1, hs0.2.2, hr0.1, hr0.2⟩

/-- C6, as stated, fails: bus 1 runs an open session on the route from Patiala
to Amritsar, and the search from Chandigarh to Ludhiana returns it with that
route, which does not match the search. -/
theorem searchBuses_live_bus_keeps_route :
    BusController.searchBuses Examples.asciiText Examples.liveBusDb (some "Chandigarh") (some "Ludhiana") =
        .ok [⟨1, 1, "PB-01", "PB-01", "active", "running", 40, 2, "Patiala to Amritsar",
              "Patiala to Amritsar", "Patiala", "Amritsar", "Patiala", "Amritsar", .num 230,
              some 1, "Gurpreet", some "9876543210", "On Route", "30.7333,76.7794", 1,
              "Available from Patiala"⟩,
            ⟨2, 2, "PB-02", "PB-02", "available", "available", 40, 1,
              "Chandigarh to Ludhiana", "Chandigarh to Ludhiana", "Chandigarh", "Ludhiana",
              "Chandigarh", "Ludhiana", .num 95, none, "Not Assigned", none, "Ready",
              "30.7333,76.7794", 2, "Available from Chandigarh"⟩] none ∧
      ¬ ∃ r ∈ Examples.liveBusDb.routes, r.route_id = 2 ∧ r.source_name = "Patiala" ∧
        r.destination_name = "Amritsar" ∧
        BusController.containsText Examples.asciiText r.source_name "Chandigarh" = true ∧
        BusController.containsText Examples.asciiText r.destination_name "Ludhiana" = true := by
  refine ⟨by decide, by decide⟩

/-- C6, amended: whatever the case mappings and the collation of the two
runtimes, for every database state and every non-empty source and destination
whose lower-cased texts hold none of the `LIKE` metacharacters, every bus of a
searchBuses result either is assigned a route that matches the search (its
`route_id`, `from` and `to` are those of a route whose source name contains the
source and whose destination name contains the destination,
case-insensitively) or carries the route of an open driver session of that
bus. -/
theorem searchBuses_route_matches_or_live (env : BusController.TextEnv) (db : Database)
    (source destination : String) (hs : source ≠ "") (hd : destination ≠ "")
    (hws : BusController.wildcardFree (env.toLowerCase source) = true)
    (hwd : BusController.wildcardFree (env.toLowerCase destination) = true)
    (buses : List BusController.SearchBus) (message : Option String)
    (hres : BusController.searchBuses env db (some source) (some destination) =
      .ok buses message) :
    ∀ b ∈ buses,
      (∃ r ∈ db.routes, b.route_id = r.route_id ∧ b.from_ = r.source_name ∧
        b.to_ = r.destination_name ∧
        BusController.containsText env r.source_name source = true ∧
        BusController.containsText env r.destination_name destination = true) ∨
      (∃ ds ∈ db.driver_sessions, ds.bus_id = b.bus_id ∧ ds.end_time = none ∧
        ∃ r ∈ db.routes, ds.route_id = some r.route_id ∧ b.route_id = r.route_id ∧
          b.from_ = r.source_name ∧ b.to_ = r.destination_name) := by
  intro b hb
  simp only [BusController.searchBuses, hs, hd, Bool.or_self, decide_False, Bool.false_eq_true,
    if_false] at hres
  cases hm : BusController.matchingRoutes env db source destination with
  | nil =>
    rw [hm] at hres
    simp only [BusController.SearchResponse.ok.injEq] at hres
    rw [← hres.1] at hb
    cases hb
  | cons first others =>
    rw [hm] at hres
    simp only [BusController.SearchResponse.ok.injEq] at hres
    rw [← hres.1, List.mem_mapIdx] at hb
    obtain ⟨i, hi, rfl⟩ := hb
    have hrow : (BusController.busQuery db)[i] ∈ BusController.busQuery db :=
      List.getElem_mem _
    cases hlive : BusController.liveRoute (BusController.busQuery db)[i] with
    | some r =>
      right
      have hr : (BusController.busQuery db)[i].route = some r := by
        unfold BusController.liveRoute at hlive
        split at hlive
        · rename_i r0 h0
          split at hlive
          · cases hlive; exact h0
          · cases hlive
        · cases hlive
      obtain ⟨ds, hds, h1, h2, h3, h4⟩ := busQuery_route db _ hrow r hr
      refine ⟨ds, hds, h1, h2, r, h3, h4, ?_, ?_, ?_⟩ <;>
        simp [BusController.transformBus, hlive]
    | none =>
      left
      have hmem : (first :: others).get
          ⟨i % (first :: others).length, Nat.mod_lt _ (Nat.succ_pos _)⟩ ∈
            BusController.matchingRoutes env db source destination := by
        rw [hm]
        exact List.get_mem _ _ _
      rw [mem_matchingRoutes env db source destination hws hwd] at hmem
      refine ⟨_, hmem.1, ?_, ?_, ?_, hmem.2.1, hmem.2.2⟩ <;>
        simp [BusController.transformBus, hlive]

/-- Witness of `searchBuses_route_matches_or_live`: the bus of the one-route
example, found by a search in mixed case, is given the matching route. -/
theorem searchBuses_route_matches_or_live_witness :
    (∃ r ∈ Examples.oneRouteDb.routes, Examples.oneRouteBus.route_id = r.route_id ∧
        Examples.oneRouteBus.from_ = r.source_name ∧
        Examples.oneRouteBus.to_ = r.destination_name ∧
        BusController.containsText Examples.asciiText r.source_name "chandi" = true ∧
        BusController.containsText Examples.asciiText r.destination_name "LUDH" = true) ∨
      (∃ ds ∈ Examples.oneRouteDb.driver_sessions, ds.bus_id = Examples.oneRouteBus.bus_id ∧
        ds.end_time = none ∧
        ∃ r ∈ Examples.oneRouteDb.routes, ds.route_id = some r.route_id ∧
          Examples.oneRouteBus.route_id = r.route_id ∧
          Examples.oneRouteBus.from_ = r.source_name ∧
          Examples.oneRouteBus.to_ = r.destination_name) :=
  searchBuses_route_matches_or_live Examples.asciiText Examples.oneRouteDb "chandi" "LUDH"
    (by decide) (by decide) (by decide) (by decide) [Examples.oneRouteBus] none (by decide)
    Examples.oneRouteBus (List.mem_cons_self _ _)

/-! ### Route resolution of `getBusRouteStops` -/

/-- The first row of a join whose first left-hand row has a joined row. -/
theorem head?_flatMap_cons {α β : Type} (g : α → List β) (a : α) (l : List α)
    (h : g a ≠ []) : ((a :: l).flatMap g).head? = (g a).head? := by
  cases hg : g a with
  | nil => exact absurd hg h
  | cons x xs => simp [List.flatMap_cons, hg]

/-- The route the `busRouteQuery` joins to a bus: the first route of its first
open session. -/
theorem busRouteQuery_eq (env : SqlEnv) (db : Database) (busId : String) :
    BusController.busRouteQuery env db busId =
      (db.buses.find? fun b => env.numEq b.bus_id busId).map fun b =>
        (b, match openSessions db b with
            | [] => none
            | ds :: _ => (routesOf db (some ds)).head?) := by
  unfold BusController.busRouteQuery
  rw [← head?_filter_eq_find?]
  cases hf : db.buses.filter (fun b => env.numEq b.bus_id busId) with
  | nil => rfl
  | cons b rest =>
    cases hs : openSessions db b with
    | nil =>
      rw [head?_flatMap_cons] <;> simp [hs, nullExtend, routesOf]
    | cons ds others =>
      cases hr : routesOf db (some ds) with
      | nil => rw [head?_flatMap_cons] <;> simp [hs, nullExtend, hr]
      | cons r rs => rw [head?_flatMap_cons] <;> simp [hs, nullExtend, hr]

/-- A route joined to the bus row is the route of an open session of the
bus. -/
theorem liveRoute_of_joined (db : Database) (b : Bus) (r : Route)
    (h : (match openSessions db b with
          | [] => none
          | ds :: _ => (routesOf db (some ds)).head?) = some r) :
    BusController.LiveRoute db b r := by
  cases hs : openSessions db b with
  | nil => rw [hs] at h; cases h
  | cons ds others =>
    rw [hs] at h
    have hds : ds ∈ openSessions db b := by rw [hs]; exact List.mem_cons_self _ _
    have hr : r ∈ routesOf db (some ds) := List.mem_of_mem_head? h
    simp only [openSessions, List.mem_filter, Bool.and_eq_true, beq_iff_eq,
      Option.isNone_iff_eq_none] at hds
    simp only [routesOf, List.mem_filter, beq_iff_eq] at hr
    exact ⟨ds, hds.1, hds.2.1, hds.2.2, hr.1, hr.2⟩

/-- When a bus with at most one open session has a live route, the bus row
carries a route with the same id. -/
theorem joined_of_liveRoute (db : Database) (hwf : WellFormed db) (b : Bus) (r : Route)
    (h : BusController.LiveRoute db b r) :
    ∃ r0, (match openSessions db b with
          | [] => none
          | ds :: _ => (routesOf db (some ds)).head?) = some r0 ∧
      r0.route_id = r.route_id := by
  obtain ⟨ds, hds, hbus, hopen, hr, hroute⟩ := h
  have hmem : ds ∈ openSessions db b := by
    simp [openSessions, List.mem_filter, hds, hbus, hopen]
  cases hs : openSessions db b with
  | nil => rw [hs] at hmem; cases hmem
  | cons ds0 others =>
    have hds0 : ds0 ∈ openSessions db b := by rw [hs]; exact List.mem_cons_self _ _
    simp only [openSessions, List.mem_filter, Bool.and_eq_true, beq_iff_eq,
      Option.isNone_iff_eq_none] at hds0
    have heq : ds0 = ds :=
      hwf.one_open_session ds0 hds0.1 ds hds (hds0.2.1.trans hbus.symm) hds0.2.2 hopen
    subst heq
    have hrmem : r ∈ routesOf db (some ds0) := by
      simp [routesOf, List.mem_filter, hr, hroute]
    cases hrs : routesOf db (some ds0) with
    | nil => rw [hrs] at hrmem; cases hrmem
    | cons r0 rs =>
      refine ⟨r0, by simp only [hrs, List.head?_cons], ?_⟩
      have hr0 : r0 ∈ routesOf db (some ds0) := by rw [hrs]; exact List.mem_cons_self _ _
      simp only [routesOf, List.mem_filter, beq_iff_eq] at hr0
      have := hr0.2.symm.trans hroute
      exact Option.some.inj this

/-- The first row of an `ORDER BY` has the smallest key. -/
theorem orderBy_head?_min {α : Type} (key : α → Nat) (l : List α) (f : α)
    (h : (orderBy key l).head? = some f) : f ∈ l ∧ ∀ x ∈ l, key f ≤ key x := by
  haveI : IsTotal α (fun a b => key a ≤ key b) := ⟨fun a b => Nat.le_total _ _⟩
  haveI : IsTrans α (fun a b => key a ≤ key b) := ⟨fun _ _ _ h1 h2 => Nat.le_trans h1 h2⟩
  have hsorted := List.sorted_insertionSort (fun a b => key a ≤ key b) l
  have hmem : ∀ x, x ∈ orderBy key l ↔ x ∈ l := fun x =>
    List.mem_insertionSort (fun a b => key a ≤ key b)
  unfold orderBy at h
  cases hl : l.insertionSort (fun a b => key a ≤ key b) with
  | nil => rw [hl] at h; cases h
  | cons y ys =>
    rw [hl] at h hsorted
    cases h
    refine ⟨(hmem f).mp (by unfold orderBy; rw [hl]; exact List.mem_cons_self _ _), ?_⟩
    intro x hx
    have hx2 : x ∈ f :: ys := by
      have := (hmem x).mpr hx
      unfold orderBy at this
      rwa [hl] at this
    rcases List.mem_cons.mp hx2 with rfl | hx3
    · exact le_refl _
    · exact List.rel_of_sorted_cons hsorted x hx3

/-- An `ORDER BY` of a non-empty table has a first row. -/
theorem orderBy_head?_none {α : Type} (key : α → Nat) (l : List α)
    (h : (orderBy key l).head? = none) : l = [] := by
  unfold orderBy at h
  have hlen := List.length_insertionSort (fun a b => key a ≤ key b) l
  rw [List.head?_eq_none_iff] at h
  rw [h] at hlen
  exact List.length_eq_zero.mp hlen.symm

/-- The ids of the transformed stops are the ids of the stop rows. -/
theorem map_id_mapIdx_transformStop (total : Nat)
    (rows : List (Stop × Route)) :
    (rows.mapIdx (BusController.transformStop total)).map (fun s => s.id) =
      rows.map fun row => row.1.stop_id := by
  apply List.ext_getElem
  · simp
  · intro i h1 h2
    simp [BusController.transformStop]

/-- Once the route id is determined and truthy, `getBusRouteStops` answers
with the timeline of that route id. -/
theorem getBusRouteStops_uses (env : SqlEnv) (db : Database) (busId : String)
    (requested : Option String) (hid : busId ≠ "") (b : Bus) (route : Option Route)
    (hrow : BusController.busRouteQuery env db busId = some (b, route))
    (htruthy : (BusController.resolveRouteId db route requested).truthy = true) :
    BusController.UsesRoute env db b (BusController.resolveRouteId db route requested)
      (BusController.getBusRouteStops env db busId requested) := by
  unfold BusController.UsesRoute BusController.getBusRouteStops
  simp only [hid, if_false, hrow, htruthy, Bool.not_true, Bool.false_eq_true]
  cases hstops : BusController.stopsQuery env db
      (BusController.resolveRouteId db route requested) with
  | nil => exact ⟨_, rfl, rfl, rfl, rfl⟩
  | cons first rest =>
    exact ⟨_, rfl, rfl, rfl, map_id_mapIdx_transformStop _ _⟩

/-- When the route id is not truthy, `getBusRouteStops` answers 404. -/
theorem getBusRouteStops_undetermined (env : SqlEnv) (db : Database) (busId : String)
    (requested : Option String) (hid : busId ≠ "") (b : Bus) (route : Option Route)
    (hrow : BusController.busRouteQuery env db busId = some (b, route))
    (hfalsy : (BusController.resolveRouteId db route requested).truthy = false) :
    BusController.getBusRouteStops env db busId requested =
      .error 404 "No route could be determined for this bus." := by
  unfold BusController.getBusRouteStops
  simp only [hid, if_false, hrow, hfalsy, Bool.not_false, if_true]

/-- C7: for tables with positive route keys and at most one open session per
bus, and for the bus the path names: if the bus has an open driver session with
a route, getBusRouteStops answers with the timeline of that route id whatever
was requested; otherwise, if a non-empty `route_id` was supplied, with the
timeline of the supplied one; otherwise with the timeline of the smallest
`route_id` of the routes table.  The answer is a 404 exactly when no bus has
the id, or the bus has no such session, nothing was supplied and the routes
table is empty. -/
theorem getBusRouteStops_route_priority (env : SqlEnv) (db : Database) (busId : String)
    (requested : Option String) (hid : busId ≠ "") (hwf : WellFormed db) :
    (∀ b, db.buses.find? (fun b => env.numEq b.bus_id busId) = some b →
      (∀ r, BusController.LiveRoute db b r →
        BusController.UsesRoute env db b (.num r.route_id)
          (BusController.getBusRouteStops env db busId requested)) ∧
      ((¬ ∃ r, BusController.LiveRoute db b r) → ∀ q, requested = some q → q ≠ "" →
        BusController.UsesRoute env db b (.str q)
          (BusController.getBusRouteStops env db busId requested)) ∧
      ((¬ ∃ r, BusController.LiveRoute db b r) → (requested = none ∨ requested = some "") →
        ∀ r ∈ db.routes, (∀ x ∈ db.routes, r.route_id ≤ x.route_id) →
          BusController.UsesRoute env db b (.num r.route_id)
            (BusController.getBusRouteStops env db busId requested))) ∧
    ((∃ message, BusController.getBusRouteStops env db busId requested =
        .error 404 message) ↔
      db.buses.find? (fun b => env.numEq b.bus_id busId) = none ∨
        ∃ b, db.buses.find? (fun b => env.numEq b.bus_id busId) = some b ∧
          (¬ ∃ r, BusController.LiveRoute db b r) ∧
          (requested = none ∨ requested = some "") ∧ db.routes = []) := by
  have hquery := busRouteQuery_eq env db busId
  -- the joined route is `none` when the bus has no live route
  have hnone : ∀ b, (¬ ∃ r, BusController.LiveRoute db b r) →
      (match openSessions db b with
        | [] => none
        | ds :: _ => (routesOf db (some ds)).head?) = none := by
    intro b hno
    cases hj : (match openSessions db b with
        | [] => none
        | ds :: _ => (routesOf db (some ds)).head?) with
    | none => rfl
    | some r0 => exact absurd ⟨r0, liveRoute_of_joined db b r0 hj⟩ hno
  -- the three branches, for a bus row
  have hlive : ∀ b r0, db.buses.find? (fun b => env.numEq b.bus_id busId) = some b →
      (match openSessions db b with
        | [] => none
        | ds :: _ => (routesOf db (some ds)).head?) = some r0 →
      BusController.UsesRoute env db b (.num r0.route_id)
        (BusController.getBusRouteStops env db busId requested) := by
    intro b r0 hb hj
    have hrow : BusController.busRouteQuery env db busId = some (b, some r0) := by
      rw [hquery, hb, Option.map_some', hj]
    have hpos : r0.route_id ≠ 0 :=
      hwf.route_id_pos r0 (liveRoute_of_joined db b r0 hj).choose_spec.2.2.2.1
    have hres : BusController.resolveRouteId db (some r0) requested = .num r0.route_id := by
      simp [BusController.resolveRouteId, JsVal.truthy, hpos]
    have := getBusRouteStops_uses env db busId requested hid b (some r0) hrow
      (by rw [hres]; simp [JsVal.truthy, hpos])
    rwa [hres] at this
  have hfallback : ∀ f, BusController.fallbackRoutes db = some f →
      f ∈ db.routes ∧ ∀ x ∈ db.routes, f.route_id ≤ x.route_id := fun f hf =>
    orderBy_head?_min (fun r : Route => r.route_id) db.routes f hf
  refine ⟨fun b hb => ⟨?_, ?_, ?_⟩, ?_⟩
  · intro r hr
    obtain ⟨r0, hj, hid0⟩ := joined_of_liveRoute db hwf b r hr
    rw [← hid0]
    exact hlive b r0 hb hj
  · intro hno q hq hq0
    have hrow : BusController.busRouteQuery env db busId = some (b, none) := by
      rw [hquery, hb, Option.map_some', hnone b hno]
    have hres : BusController.resolveRouteId db none requested = .str q := by
      simp [BusController.resolveRouteId, JsVal.truthy, hq, hq0]
    have := getBusRouteStops_uses env db busId requested hid b none hrow
      (by rw [hres]; simp [JsVal.truthy, hq0])
    rwa [hres] at this
  · intro hno hreq r hr hmin
    have hrow : BusController.busRouteQuery env db busId = some (b, none) := by
      rw [hquery, hb, Option.map_some', hnone b hno]
    cases hf : BusController.fallbackRoutes db with
    | none =>
      have := orderBy_head?_none (fun r : Route => r.route_id) db.routes hf
      rw [this] at hr
      cases hr
    | some f =>
      obtain ⟨hfmem, hfmin⟩ := hfallback f hf
      have heq : f.route_id = r.route_id :=
        Nat.le_antisymm (hfmin r hr) (hmin f hfmem)
      have hpos : f.route_id ≠ 0 := hwf.route_id_pos f hfmem
      have hres : BusController.resolveRouteId db none requested = .num f.route_id := by
        rcases hreq with h | h <;> simp [BusController.resolveRouteId, JsVal.truthy, h, hf]
      have := getBusRouteStops_uses env db busId requested hid b none hrow
        (by rw [hres]; simp [JsVal.truthy, hpos])
      rw [hres, heq] at this
      exact this
  · constructor
    · rintro ⟨message, hmsg⟩
      cases hb : db.buses.find? (fun b => env.numEq b.bus_id busId) with
      | none => exact Or.inl rfl
      | some b =>
        right
        refine ⟨b, rfl, ?_⟩
        cases hj : (match openSessions db b with
            | [] => none
            | ds :: _ => (routesOf db (some ds)).head?) with
        | some r0 =>
          obtain ⟨data, hdata, -⟩ := hlive b r0 hb hj
          rw [hdata] at hmsg
          cases hmsg
        | none =>
          have hrow : BusController.busRouteQuery env db busId = some (b, none) := by
            rw [hquery, hb, Option.map_some', hj]
          cases ht : (BusController.resolveRouteId db none requested).truthy with
          | true =>
            obtain ⟨data, hdata, -⟩ :=
              getBusRouteStops_uses env db busId requested hid b none hrow ht
            rw [hdata] at hmsg
            cases hmsg
          | false =>
            have hno : ¬ ∃ r, BusController.LiveRoute db b r := by
              rintro ⟨r, hr⟩
              obtain ⟨r0, hj0, -⟩ := joined_of_liveRoute db hwf b r hr
              rw [hj] at hj0
              cases hj0
            refine ⟨hno, ?_, ?_⟩
            · cases requested with
              | none => exact Or.inl rfl
              | some q =>
                right
                by_cases hq : q = ""
                · rw [hq]
                · simp [BusController.resolveRouteId, JsVal.truthy, hq] at ht
            · cases hf : BusController.fallbackRoutes db with
              | none => exact orderBy_head?_none (fun r : Route => r.route_id) db.routes hf
              | some f =>
                have hpos : f.route_id ≠ 0 := hwf.route_id_pos f (hfallback f hf).1
                exfalso
                cases requested with
                | none => simp [BusController.resolveRouteId, JsVal.truthy, hf, hpos] at ht
                | some q =>
                  by_cases hq : q = ""
                  · simp [BusController.resolveRouteId, JsVal.truthy, hf, hpos, hq] at ht
                  · simp [BusController.resolveRouteId, JsVal.truthy, hq] at ht
    · rintro (hb | ⟨b, hb, hno, hreq, hroutes⟩)
      · refine ⟨"Bus not found.", ?_⟩
        unfold BusController.getBusRouteStops
        simp only [hid, if_false, hquery, hb, Option.map_none']
      · refine ⟨_, getBusRouteStops_undetermined env db busId requested hid b none ?_ ?_⟩
        · rw [hquery, hb, Option.map_some', hnone b hno]
        · have hf : BusController.fallbackRoutes db = none := by
            simp [BusController.fallbackRoutes, orderBy, hroutes]
          rcases hreq with h | h <;>
            simp [BusController.resolveRouteId, JsVal.truthy, h, hf]

/-- Witness of `getBusRouteStops_route_priority`: bus 2 is on an open session
of route 2, and its timeline is that of route 2 although route 1 is requested. -/
theorem getBusRouteStops_route_priority_witness :
    BusController.UsesRoute Examples.decimalEnv Examples.timelineDb
      ⟨2, "PB-02", 40, "running", some 1⟩ (.num 2)
      (BusController.getBusRouteStops Examples.decimalEnv Examples.timelineDb "2" (some "1")) :=
  ((getBusRouteStops_route_priority Examples.decimalEnv Examples.timelineDb "2" (some "1")
      (by decide) ⟨by decide, by decide⟩).1 ⟨2, "PB-02", 40, "running", some 1⟩
      (by decide)).1 ⟨2, "Patiala", "Amritsar", .num 230⟩
    ⟨⟨1, 2, 1, some 2, none⟩, by decide, rfl, rfl, by decide, rfl⟩

/-! ### The timeline endpoint -/

/-- C8 at its failing input: bus 1 has no open driver session and the request
carries `route_id=2`, yet getBusRouteTimeline answers with route 1 (the route
with the most stops) and the four stops of route 1. -/
theorem getBusRouteTimeline_ignores_requested_route :
    openSessions Examples.timelineDb ⟨1, "PB-01", 40, "available", none⟩ = [] ∧
      (match RouteController.getBusRouteTimeline Examples.decimalEnv Examples.timelineDb 600
          ⟨"1", some "2"⟩ with
        | .ok data => some (data.route.route_id, data.timeline.stops.map fun s => s.id)
        | .error _ _ => none) = some (1, [11, 12, 13, 14]) := by
  refine ⟨by decide, by decide⟩

/-! ### Statuses and ETAs of the generated timelines -/

/-- A list built by `mapIdx` in which the test holds at the index `c` and
nowhere else holds exactly one element that passes the test. -/
theorem countP_mapIdx_unique {α β : Type} (p : β → Bool) (l : List α) (f : Nat → α → β)
    (c : Nat) (hc : c < l.length) (h : ∀ i x, p (f i x) = true ↔ i = c) :
    (l.mapIdx f).countP p = 1 := by
  induction l generalizing f c with
  | nil => cases hc
  | cons a l ih =>
    rw [List.mapIdx_cons]
    cases c with
    | zero =>
      have h0 : p (f 0 a) = true := (h 0 a).mpr rfl
      rw [List.countP_cons_of_pos _ _ h0]
      have hrest : (l.mapIdx fun i => f (i + 1)).countP p = 0 := by
        rw [List.countP_eq_zero]
        intro b hb
        rw [List.mem_mapIdx] at hb
        obtain ⟨i, hi, rfl⟩ := hb
        intro hp
        exact Nat.succ_ne_zero i ((h (i + 1) _).mp hp)
      rw [hrest]
    | succ c =>
      have h0 : ¬ p (f 0 a) = true := fun hp => Nat.succ_ne_zero c ((h 0 a).mp hp).symm
      rw [List.countP_cons_of_neg _ _ h0]
      apply ih (fun i => f (i + 1)) c (Nat.lt_of_succ_lt_succ hc)
      intro i x
      rw [h (i + 1) x]
      exact Nat.succ_inj'

/-- The status and ETA `getBusRouteStops` gives the stop at `index` of `total`
stops. -/
theorem transformStop_labels (total index : Nat) (row : Stop × Route) :
    (((BusController.transformStop total index row).status = "completed" ∧
        (BusController.transformStop total index row).eta = "Passed") ↔
        index < total / 3) ∧
      (((BusController.transformStop total index row).status = "current" ∧
        (BusController.transformStop total index row).eta = "Now") ↔
        index = total / 3) ∧
      (((BusController.transformStop total index row).status = "upcoming" ∧
        (BusController.transformStop total index row).eta =
          toString (15 * (index - total / 3)) ++ " min") ↔
        total / 3 < index) := by
  rcases Nat.lt_trichotomy index (total / 3) with h | h | h
  · have h1 : index ≠ total / 3 := Nat.ne_of_lt h
    have h2 : ¬ total / 3 < index := Nat.lt_asymm h
    simp [BusController.transformStop, h, h1, h2]
  · have h1 : ¬ index < total / 3 := by omega
    have h2 : ¬ total / 3 < index := by omega
    simp [BusController.transformStop, h, h1, h2]
  · have h1 : index ≠ total / 3 := Nat.ne_of_gt h
    have h2 : ¬ index < total / 3 := Nat.lt_asymm h
    simp [BusController.transformStop, h, h1, h2, Nat.mul_comm]

/-- The stop `getBusRouteStops` labels `current` is the one at a third of the
length. -/
theorem transformStop_current (total index : Nat) (row : Stop × Route) :
    (BusController.transformStop total index row).status = "current" ↔
      index = total / 3 := by
  by_cases h : index = total / 3
  · simp [BusController.transformStop, h]
  · simp only [BusController.transformStop, h, if_false, iff_false]
    split <;> decide

/-- C9: in a getBusRouteStops answer with a non-empty timeline of `n` stops and
`c = floor(n / 3)`, the stop at index `i` is `completed` with ETA `Passed` iff
`i < c`, `current` with ETA `Now` iff `i = c`, and `upcoming` with ETA
`15 * (i - c)` followed by ` min` iff `i > c`; exactly one stop is `current`,
and `current_stop_index` is `c`, the index of that stop. -/
theorem getBusRouteStops_mock_statuses (env : SqlEnv) (db : Database) (busId : String)
    (requested : Option String) (data : BusController.RouteStopsData)
    (hres : BusController.getBusRouteStops env db busId requested = .ok data)
    (hne : data.timeline.stops ≠ []) :
    data.timeline.current_stop_index = data.timeline.stops.length / 3 ∧
      data.timeline.current_stop_index < data.timeline.stops.length ∧
      (∀ (i : Nat) (h : i < data.timeline.stops.length),
        ((data.timeline.stops[i].status = "completed" ∧
            data.timeline.stops[i].eta = "Passed") ↔
            i < data.timeline.stops.length / 3) ∧
          ((data.timeline.stops[i].status = "current" ∧
            data.timeline.stops[i].eta = "Now") ↔
            i = data.timeline.stops.length / 3) ∧
          ((data.timeline.stops[i].status = "upcoming" ∧
            data.timeline.stops[i].eta =
              toString (15 * (i - data.timeline.stops.length / 3)) ++ " min") ↔
            data.timeline.stops.length / 3 < i)) ∧
      data.timeline.stops.countP (fun s => s.status == "current") = 1 := by
  unfold BusController.getBusRouteStops at hres
  split at hres
  · cases hres
  split at hres
  · cases hres
  rename_i bus route hrow
  dsimp only at hres
  split at hres
  · cases hres
  split at hres
  · cases hres
    exact absurd rfl hne
  rename_i first rest hstops
  cases hres
  simp only [List.length_mapIdx]
  have hpos : 0 < (first :: rest).length := Nat.succ_pos _
  have hlt : (first :: rest).length / 3 < (first :: rest).length :=
    Nat.div_lt_self hpos (by decide)
  refine ⟨trivial, hlt, ?_, ?_⟩
  · intro i h
    rw [List.getElem_mapIdx]
    exact transformStop_labels _ i _
  · apply countP_mapIdx_unique _ _ _ ((first :: rest).length / 3) hlt
    intro i x
    rw [beq_iff_eq]
    exact transformStop_current _ i x

/-- Witness of `getBusRouteStops_mock_statuses`: the four stops of route 1. -/
theorem getBusRouteStops_mock_statuses_witness :
    Examples.route1Stops.timeline.current_stop_index = 4 / 3 ∧
      Examples.route1Stops.timeline.stops.countP (fun s => s.status == "current") = 1 :=
  have h := getBusRouteStops_mock_statuses Examples.decimalEnv Examples.timelineDb "1"
    (some "1") Examples.route1Stops (by decide) (by decide)
  ⟨h.1, h.2.2.2⟩

/-- An ETA in minutes is neither of the placeholders `Due` and `TBD`. -/
theorem minutes_ne_placeholder (m : Nat) :
    toString m ++ " min" ≠ "Due" ∧ toString m ++ " min" ≠ "TBD" := by
  have hlen : (toString m ++ " min").length = (toString m).length + 4 := by
    rw [String.length_append]; rfl
  constructor
  · intro h
    have := congrArg String.length h
    rw [hlen] at this
    have h3 : ("Due" : String).length = 3 := rfl
    omega
  · intro h
    have := congrArg String.length h
    rw [hlen] at this
    have h3 : ("TBD" : String).length = 3 := rfl
    omega

/-- The status and ETA the static mode of `getBusRouteTimeline` gives the stop
at `index` when the current stop index is `c`. -/
theorem static_transformStop_labels (busStatus : String) (now c index : Nat)
    (stop : RouteController.StopRow) :
    (((RouteController.transformStop false busStatus now c index stop).status = "completed" ∧
        (RouteController.transformStop false busStatus now c index stop).eta = "Passed") ↔
        index < c) ∧
      (((RouteController.transformStop false busStatus now c index stop).status = "current" ∧
        (RouteController.transformStop false busStatus now c index stop).eta = "5 min") ↔
        index = c) ∧
      (((RouteController.transformStop false busStatus now c index stop).status = "upcoming" ∧
        (RouteController.transformStop false busStatus now c index stop).eta =
          toString (15 * (index - c)) ++ " min") ↔
        c < index) ∧
      (RouteController.transformStop false busStatus now c index stop).eta ≠ "Due" ∧
      (RouteController.transformStop false busStatus now c index stop).eta ≠ "TBD" := by
  rcases Nat.lt_trichotomy index c with h | h | h
  · have h1 : index ≠ c := Nat.ne_of_lt h
    have h2 : ¬ c < index := Nat.lt_asymm h
    simp [RouteController.transformStop, h, h1, h2]
  · have h1 : ¬ index < c := by omega
    have h2 : ¬ c < index := by omega
    simp [RouteController.transformStop, h, h1, h2]
  · have h1 : index ≠ c := Nat.ne_of_gt h
    have h2 : ¬ index < c := Nat.lt_asymm h
    have h3 : 0 < (index - c) * 15 := by omega
    have h4 := minutes_ne_placeholder ((index - c) * 15)
    simp [RouteController.transformStop, h, h1, h2, h3, h4, Nat.mul_comm]

/-- C10: in a getBusRouteTimeline answer in static mode, with `n` stops, the
current stop index is `c = floor(3 * n / 10)` and `0 <= c < n`; the stop at
index `i` is `completed` with ETA `Passed` iff `i < c`, `current` with ETA
`5 min` iff `i = c`, and `upcoming` with ETA `15 * (i - c)` followed by ` min`
iff `i > c`; no ETA is `Due` or `TBD`. -/
theorem getBusRouteTimeline_static_statuses (env : SqlEnv) (db : Database) (now : Nat)
    (req : RouteController.TimelineRequest) (data : RouteController.TimelineData)
    (hres : RouteController.getBusRouteTimeline env db now req = .ok data)
    (hstatic : data.bus.is_real_time = false) :
    data.timeline.stops ≠ [] ∧
      data.timeline.current_stop_index = 3 * data.timeline.stops.length / 10 ∧
      data.timeline.current_stop_index < data.timeline.stops.length ∧
      (∀ (i : Nat) (h : i < data.timeline.stops.length),
        ((data.timeline.stops[i].status = "completed" ∧
            data.timeline.stops[i].eta = "Passed") ↔
            i < 3 * data.timeline.stops.length / 10) ∧
          ((data.timeline.stops[i].status = "current" ∧
            data.timeline.stops[i].eta = "5 min") ↔
            i = 3 * data.timeline.stops.length / 10) ∧
          ((data.timeline.stops[i].status = "upcoming" ∧
            data.timeline.stops[i].eta =
              toString (15 * (i - 3 * data.timeline.stops.length / 10)) ++ " min") ↔
            3 * data.timeline.stops.length / 10 < i) ∧
          data.timeline.stops[i].eta ≠ "Due" ∧ data.timeline.stops[i].eta ≠ "TBD") := by
  unfold RouteController.getBusRouteTimeline at hres
  split at hres
  · cases hres
  split at hres
  · cases hres
  rename_i bus hbus
  split at hres
  · cases hres
  rename_i isRealTime routeData timelineStops hroute
  split at hres
  · cases hres
  rename_i hlen
  dsimp only at hres
  cases hres
  simp only at hstatic
  subst hstatic
  simp only [List.length_mapIdx, RouteController.currentStopIndex, Bool.false_eq_true, if_false]
  have hpos : 0 < timelineStops.length := Nat.pos_of_ne_zero hlen
  refine ⟨?_, trivial, by omega, ?_⟩
  · intro h
    have := congrArg List.length h
    rw [List.length_mapIdx] at this
    exact hlen this
  · intro i h
    rw [List.getElem_mapIdx]
    exact static_transformStop_labels _ _ _ i _

/-- Witness of `getBusRouteTimeline_static_statuses`: the four stops of route
1, shown for a bus without a session. -/
theorem getBusRouteTimeline_static_statuses_witness :
    Examples.route1Timeline.timeline.stops ≠ [] ∧
      Examples.route1Timeline.timeline.current_stop_index =
        3 * Examples.route1Timeline.timeline.stops.length / 10 ∧
      Examples.route1Timeline.timeline.current_stop_index <
        Examples.route1Timeline.timeline.stops.length :=
  have h := getBusRouteTimeline_static_statuses Examples.decimalEnv Examples.timelineDb 600
    ⟨"1", none⟩ Examples.route1Timeline (by decide) rfl
  ⟨h.1, h.2.1, h.2.2.1⟩

/-! ### Ownership and validation of notifications -/

/-- When no row is selected by the `WHERE` clause, the `UPDATE` of `markAsRead`
leaves the table as it is and reports no affected row. -/
theorem updateRead_none (env : SqlEnv) (table : List NotificationController.NotificationRow)
    (notificationId : String) (userId : Nat)
    (h : ∀ n ∈ table, NotificationController.ownedBy env notificationId userId n = false) :
    NotificationController.updateRead env table notificationId userId = (table, 0) := by
  have hfilter : table.filter (NotificationController.ownedBy env notificationId userId) = [] := by
    rw [List.filter_eq_nil_iff]
    intro n hn
    simp [h n hn]
  have hmap : (table.map fun n =>
      if NotificationController.ownedBy env notificationId userId n = true then
        { n with is_read := true } else n) = table := by
    conv_rhs => rw [← List.map_id table]
    apply List.map_congr_left
    intro n hn
    simp [h n hn]
  simp only [NotificationController.updateRead, hfilter, hmap, List.filter_nil, List.length_nil,
    ite_self]

/-- When no row is selected by the `WHERE` clause, the `DELETE` of
`deleteNotification` leaves the table as it is and reports no affected row. -/
theorem deleteOwned_none (env : SqlEnv) (table : List NotificationController.NotificationRow)
    (notificationId : String) (userId : Nat)
    (h : ∀ n ∈ table, NotificationController.ownedBy env notificationId userId n = false) :
    NotificationController.deleteOwned env table notificationId userId = (table, 0) := by
  have hfilter : table.filter (NotificationController.ownedBy env notificationId userId) = [] := by
    rw [List.filter_eq_nil_iff]
    intro n hn
    simp [h n hn]
  have hkeep : (table.filter fun n =>
      !NotificationController.ownedBy env notificationId userId n) = table := by
    rw [List.filter_eq_self]
    intro n hn
    simp [h n hn]
  simp only [NotificationController.deleteOwned, hfilter, hkeep, List.length_nil]

/-- C12: when every notification the id names belongs to another user (or none
has the id), `markAsRead` and `deleteNotification` of user `userId` answer 404
with `success: false` and leave the notifications table unchanged. -/
theorem notification_mutations_owner_scoped (env : SqlEnv)
    (table : List NotificationController.NotificationRow) (userId : Nat)
    (notificationId : String) (hid : notificationId ≠ "")
    (hother : ∀ n ∈ table, env.numEq n.notification_id notificationId = true →
      n.user_id ≠ userId) :
    NotificationController.markAsRead env table userId notificationId =
        (⟨404, false, "Notification not found or does not belong to user"⟩, table) ∧
      NotificationController.deleteNotification env table userId notificationId =
        (⟨404, false, "Notification not found or does not belong to user"⟩, table) := by
  have hnone : ∀ n ∈ table,
      NotificationController.ownedBy env notificationId userId n = false := by
    intro n hn
    cases hq : env.numEq n.notification_id notificationId with
    | false => simp [NotificationController.ownedBy, hq]
    | true => simp [NotificationController.ownedBy, hq, hother n hn hq]
  constructor
  · simp [NotificationController.markAsRead, hid, updateRead_none env table _ _ hnone]
  · simp [NotificationController.deleteNotification, hid, deleteOwned_none env table _ _ hnone]

/-- Witness of `notification_mutations_owner_scoped`: user 7 addresses
notification 2, which belongs to user 8. -/
theorem notification_mutations_owner_scoped_witness :
    NotificationController.markAsRead Examples.decimalEnv Examples.twoNotifications 7 "2" =
        (⟨404, false, "Notification not found or does not belong to user"⟩,
          Examples.twoNotifications) ∧
      NotificationController.deleteNotification Examples.decimalEnv Examples.twoNotifications
          7 "2" =
        (⟨404, false, "Notification not found or does not belong to user"⟩,
          Examples.twoNotifications) :=
  notification_mutations_owner_scoped Examples.decimalEnv Examples.twoNotifications 7 "2"
    (by decide) (by decide)

/-- C13: createNotification answers 400, and then inserts nothing, exactly
when `user_id`, `title` or `message` is missing or empty (falsy), or the type
after the default `general` is not one of the seven valid types, or the
priority after the default `medium` is not one of the four valid priorities;
a body that omits `type` and `priority` and carries the three required fields
passes validation and the values inserted hold `general` and `medium`. -/
theorem createNotification_validation
    (store : NotificationController.NotificationValues →
      Option NotificationController.NotificationRow)
    (db : Database) (table : List NotificationController.NotificationRow)
    (body : NotificationController.CreateBody) :
    ((NotificationController.createNotification store db table body).1.status = 400 ↔
        (body.user_id.truthy = false ∨ body.title.truthy = false ∨
          body.message.truthy = false ∨
          NotificationController.includes NotificationController.validTypes
            (NotificationController.withDefault body.type (.str "general")) = false ∨
          NotificationController.includes NotificationController.validPriorities
            (NotificationController.withDefault body.priority (.str "medium")) = false)) ∧
      ((NotificationController.createNotification store db table body).1.status = 400 →
        (NotificationController.createNotification store db table body).2 = table) ∧
      (body.type = .undefined → body.priority = .undefined →
        body.user_id.truthy = true → body.title.truthy = true →
        body.message.truthy = true →
        (NotificationController.createNotification store db table body).1.status ≠ 400 ∧
          ∀ stored, store ⟨body.user_id, body.title, body.message, .str "general",
              .str "medium", NotificationController.withDefault body.bus_id .null,
              NotificationController.withDefault body.route_id .null⟩ = some stored →
            (NotificationController.createNotification store db table body).1.status = 201 ∧
            (NotificationController.createNotification store db table body).2 =
              table ++ [stored]) := by
  have hg : NotificationController.includes NotificationController.validTypes
      (.str "general") = true := by decide
  have hm : NotificationController.includes NotificationController.validPriorities
      (.str "medium") = true := by decide
  unfold NotificationController.createNotification
  cases hu : body.user_id.truthy <;> cases ht : body.title.truthy <;>
    cases hmsg : body.message.truthy <;> simp
  cases hty : NotificationController.includes NotificationController.validTypes
      (NotificationController.withDefault body.type (.str "general")) <;> simp
  · intro h1
    rw [h1] at hty
    simp [NotificationController.withDefault, hg] at hty
  cases hpr : NotificationController.includes NotificationController.validPriorities
      (NotificationController.withDefault body.priority (.str "medium")) <;> simp
  · intro _ h2
    rw [h2] at hpr
    simp [NotificationController.withDefault, hm] at hpr
  refine ⟨?_, ?_, ?_⟩
  · split <;> simp
  · split <;> simp
  · intro h1 h2
    refine ⟨by split <;> simp, ?_⟩
    intro stored hst
    simp only [h1, h2, NotificationController.withDefault] at hst ⊢
    rw [hst]
    exact ⟨rfl, rfl⟩

/-! ### The current stop of a tracked bus -/

/-- The loop stops at the first stop the bus has reached and not left. -/
theorem scanProgress_first (total : Nat) (l : List RouteController.StopRow) (i current k : Nat)
    (s : RouteController.StopRow) (hk : l[k]? = some s)
    (hat : s.arrival_time.truthy = true ∧ s.departure_time.truthy = false)
    (hbefore : ∀ j t, j < k → l[j]? = some t →
      ¬ (t.arrival_time.truthy = true ∧ t.departure_time.truthy = false)) :
    RouteController.scanProgress total l i current = i + k := by
  induction l generalizing i current k with
  | nil => simp at hk
  | cons a rest ih =>
    cases k with
    | zero =>
      simp only [List.getElem?_cons_zero, Option.some.injEq] at hk
      subst hk
      simp [RouteController.scanProgress, hat.1, hat.2]
    | succ k =>
      have ha := hbefore 0 a (Nat.succ_pos k) (by simp)
      have hrest : ∀ j t, j < k → rest[j]? = some t →
          ¬ (t.arrival_time.truthy = true ∧ t.departure_time.truthy = false) :=
        fun j t hj ht => hbefore (j + 1) t (Nat.succ_lt_succ hj) (by simpa using ht)
      have hk2 : rest[k]? = some s := by simpa using hk
      have hcond : (a.arrival_time.truthy && !a.departure_time.truthy) = false := by
        cases h1 : a.arrival_time.truthy <;> cases h2 : a.departure_time.truthy <;> simp
        exact ha ⟨h1, h2⟩
      unfold RouteController.scanProgress
      simp only [hcond, Bool.false_eq_true, if_false]
      split
      · rw [ih (i + 1) _ k hk2 hrest]; omega
      · rw [ih (i + 1) _ k hk2 hrest]; omega

/-- Over stops without any recorded arrival or departure the loop keeps the
index it had. -/
theorem scanProgress_none (total : Nat) (l : List RouteController.StopRow) (i current : Nat)
    (hno : ∀ t ∈ l, t.arrival_time.truthy = false ∧ t.departure_time.truthy = false) :
    RouteController.scanProgress total l i current = current := by
  induction l generalizing i with
  | nil => rfl
  | cons a rest ih =>
    have ha := hno a (List.mem_cons_self _ _)
    unfold RouteController.scanProgress
    simp only [ha.1, ha.2, Bool.false_and, Bool.false_eq_true, if_false]
    exact ih (i + 1) fun t ht => hno t (List.mem_cons_of_mem _ ht)

/-- When the bus is at no stop, the loop ends one past the last stop it has
left, capped at the last index. -/
theorem scanProgress_last (total : Nat) (l : List RouteController.StopRow) (i current j : Nat)
    (s : RouteController.StopRow) (hj : l[j]? = some s)
    (hno : ∀ t ∈ l, ¬ (t.arrival_time.truthy = true ∧ t.departure_time.truthy = false))
    (hdep : s.departure_time.truthy = true)
    (hafter : ∀ k t, j < k → l[k]? = some t → t.departure_time.truthy = false) :
    RouteController.scanProgress total l i current = min (i + j + 1) (total - 1) := by
  induction l generalizing i current j with
  | nil => simp at hj
  | cons a rest ih =>
    have ha := hno a (List.mem_cons_self _ _)
    have hcond : (a.arrival_time.truthy && !a.departure_time.truthy) = false := by
      cases h1 : a.arrival_time.truthy <;> cases h2 : a.departure_time.truthy <;> simp
      exact ha ⟨h1, h2⟩
    have hnorest : ∀ t ∈ rest,
        ¬ (t.arrival_time.truthy = true ∧ t.departure_time.truthy = false) :=
      fun t ht => hno t (List.mem_cons_of_mem _ ht)
    unfold RouteController.scanProgress
    simp only [hcond, Bool.false_eq_true, if_false]
    cases j with
    | zero =>
      simp only [List.getElem?_cons_zero, Option.some.injEq] at hj
      subst hj
      simp only [hdep, if_true]
      have hquiet : ∀ t ∈ rest,
          t.arrival_time.truthy = false ∧ t.departure_time.truthy = false := by
        intro t ht
        obtain ⟨k, hk, hkt⟩ := List.getElem_of_mem ht
        have hd : t.departure_time.truthy = false :=
          hafter (k + 1) t (Nat.succ_pos k) (by simp [List.getElem?_eq_getElem hk, hkt])
        refine ⟨?_, hd⟩
        cases h1 : t.arrival_time.truthy
        · rfl
        · exact absurd ⟨h1, hd⟩ (hnorest t ht)
      rw [scanProgress_none total rest (i + 1) _ hquiet]
    | succ j =>
      have hj2 : rest[j]? = some s := by simpa using hj
      have hafter2 : ∀ k t, j < k → rest[k]? = some t → t.departure_time.truthy = false :=
        fun k t hk ht => hafter (k + 1) t (Nat.succ_lt_succ hk) (by simpa using ht)
      split
      · rw [ih (i + 1) _ j hj2 hnorest hafter2]; congr 1; omega
      · rw [ih (i + 1) _ j hj2 hnorest hafter2]; congr 1; omega

/-- The loop never leaves the indices of the list. -/
theorem scanProgress_lt (total : Nat) (l : List RouteController.StopRow) (i current : Nat)
    (hlen : i + l.length = total) (hcur : current < total) :
    RouteController.scanProgress total l i current < total := by
  induction l generalizing i current with
  | nil => exact hcur
  | cons a rest ih =>
    simp only [List.length_cons] at hlen
    unfold RouteController.scanProgress
    split
    · omega
    · split
      · exact ih (i + 1) _ (by omega) (by omega)
      · exact ih (i + 1) _ (by omega) hcur

/-- C17: in real-time mode, for every non-empty stop list of length `n`, the
current stop index lies in `0 .. n - 1`; it is the index of the first stop with
an arrival time and no departure time if there is one; otherwise it is
`min (j + 1) (n - 1)` for the last stop `j` with a departure time; and it is
`0` when no stop has an arrival or a departure recorded. -/
theorem currentStopIndex_realTime (stops : List RouteController.StopRow)
    (hne : stops ≠ []) :
    RouteController.currentStopIndex true stops < stops.length ∧
      (∀ k s, stops[k]? = some s →
        (s.arrival_time.truthy = true ∧ s.departure_time.truthy = false) →
        (∀ j t, j < k → stops[j]? = some t →
          ¬ (t.arrival_time.truthy = true ∧ t.departure_time.truthy = false)) →
        RouteController.currentStopIndex true stops = k) ∧
      ((∀ t ∈ stops, ¬ (t.arrival_time.truthy = true ∧ t.departure_time.truthy = false)) →
        ∀ j s, stops[j]? = some s → s.departure_time.truthy = true →
          (∀ k t, j < k → stops[k]? = some t → t.departure_time.truthy = false) →
          RouteController.currentStopIndex true stops = min (j + 1) (stops.length - 1)) ∧
      ((∀ t ∈ stops, t.arrival_time.truthy = false ∧ t.departure_time.truthy = false) →
        RouteController.currentStopIndex true stops = 0) := by
  have hpos : 0 < stops.length := List.length_pos.mpr hne
  simp only [RouteController.currentStopIndex, if_true]
  refine ⟨scanProgress_lt _ stops 0 0 (by omega) hpos, ?_, ?_, ?_⟩
  · intro k s hk hat hbefore
    rw [scanProgress_first _ stops 0 0 k s hk hat hbefore]; omega
  · intro hno j s hj hdep hafter
    rw [scanProgress_last _ stops 0 0 j s hj hno hdep hafter]; congr 1; omega
  · intro hno
    exact scanProgress_none _ stops 0 0 hno

/-! ### `formatTime` -/

/-- A text without the separator is its own single segment. -/
theorem splitOn_no_sep (sep : Char) (l : List Char) (h : sep ∉ l) : splitOn sep l = [l] := by
  induction l with
  | nil => rfl
  | cons c rest ih =>
    have hc : c ≠ sep := fun e => h (e ▸ List.mem_cons_self _ _)
    have hrest : sep ∉ rest := fun e => h (List.mem_cons_of_mem _ e)
    simp [splitOn, hc, ih hrest]

/-- Two texts without the separator, joined by it, are split back into the
two. -/
theorem splitOn_two (sep : Char) (a b : List Char) (ha : sep ∉ a) (hb : sep ∉ b) :
    splitOn sep (a ++ sep :: b) = [a, b] := by
  induction a with
  | nil => simp [splitOn, splitOn_no_sep sep b hb]
  | cons c rest ih =>
    have hc : c ≠ sep := fun e => ha (e ▸ List.mem_cons_self _ _)
    have hrest : sep ∉ rest := fun e => ha (List.mem_cons_of_mem _ e)
    simp [splitOn, hc, ih hrest]

/-- `formatTime` on an hour text and a minute text joined by a colon. -/
theorem formatTime_parts (hours minutes : String) (hour : Int)
    (h1 : ':' ∉ hours.data) (h2 : ':' ∉ minutes.data)
    (hp : parseIntChars hours.data = some hour) :
    RouteController.formatTime (some (hours ++ ":" ++ minutes)) =
      toString (if hour.tmod 12 != 0 then hour.tmod 12 else 12) ++ ":" ++ minutes ++ " " ++
        (if hour ≥ 12 then "PM" else "AM") := by
  have hdata : (hours ++ ":" ++ minutes).toList = hours.data ++ ':' :: minutes.data := by
    simp [String.toList, String.data_append]
  have hne : hours ++ ":" ++ minutes ≠ "" := by
    intro e
    have := congrArg String.toList e
    rw [hdata] at this
    simp [String.toList] at this
  simp only [RouteController.formatTime, hne, if_false, hdata, splitOn_two ':' _ _ h1 h2,
    List.headD_cons, List.tail_cons, List.head?_cons, hp, JsVal.toStr]

/-- The hour texts of a day: neither rendering holds a colon, both are read
back by `parseInt`, and the displayed hour is `h mod 12` with `0` replaced by
`12`. -/
theorem hour_texts : ∀ h : Nat, h < 24 →
    ':' ∉ (toString h).data ∧ parseIntChars (toString h).data = some (h : Int) ∧
      ':' ∉ (pad2 h).data ∧ parseIntChars (pad2 h).data = some (h : Int) ∧
      toString (if (h : Int).tmod 12 != 0 then (h : Int).tmod 12 else 12) =
        toString (if h % 12 = 0 then 12 else h % 12) ∧
      (if (h : Int) ≥ 12 then "PM" else "AM") = (if h < 12 then "AM" else "PM") := by
  decide

/-- The minute texts of an hour have two characters, all digits, and differ
for different minutes. -/
theorem minute_texts : ∀ m : Nat, m < 60 →
    (pad2 m).data.length = 2 ∧ (pad2 m).data.all Char.isDigit = true ∧
      ∀ n : Nat, n < 60 → (pad2 m).data = (pad2 n).data → m = n := by
  decide

/-- The displayed hour and the half of the day determine the hour. -/
theorem displayed_hours : ∀ h : Nat, h < 24 → ∀ k : Nat, k < 24 →
    ':' ∉ (toString (if h % 12 = 0 then 12 else h % 12)).data ∧
      ((toString (if h % 12 = 0 then 12 else h % 12)).data =
          (toString (if k % 12 = 0 then 12 else k % 12)).data →
        (if h < 12 then "AM" else "PM") = (if k < 12 then "AM" else "PM") → h = k) := by
  decide

/-- A text of digits holds no colon. -/
theorem no_colon_of_digits (l : List Char) (h : l.all Char.isDigit = true) : ':' ∉ l := by
  intro hmem
  have := List.all_eq_true.mp h ':' hmem
  revert this
  decide

/-- C16: for every hour `h` in `0 .. 23` and two-digit minute text `mm`,
`formatTime` of `h:mm` (the hour written with or without a leading zero) is
`d:mm AM` when `h < 12` and `d:mm PM` otherwise, with `d = h mod 12` and `0`
replaced by `12`, so `1 <= d <= 12` and the minutes are unchanged; on the 1440
times `HH:MM` of a day different inputs give different outputs; an empty or
missing input gives `TBD`. -/
theorem formatTime_twelve_hour :
    (∀ (h : Nat) (mm : String), h < 24 → mm.length = 2 → mm.toList.all Char.isDigit = true →
      1 ≤ (if h % 12 = 0 then 12 else h % 12) ∧ (if h % 12 = 0 then 12 else h % 12) ≤ 12 ∧
        RouteController.formatTime (some (toString h ++ ":" ++ mm)) =
          toString (if h % 12 = 0 then 12 else h % 12) ++ ":" ++ mm ++ " " ++
            (if h < 12 then "AM" else "PM") ∧
        RouteController.formatTime (some (pad2 h ++ ":" ++ mm)) =
          toString (if h % 12 = 0 then 12 else h % 12) ++ ":" ++ mm ++ " " ++
            (if h < 12 then "AM" else "PM")) ∧
      (∀ t u : Nat, t < 1440 → u < 1440 →
        RouteController.formatTime (some (clockText t)) =
          RouteController.formatTime (some (clockText u)) → t = u) ∧
      RouteController.formatTime none = "TBD" ∧
      RouteController.formatTime (some "") = "TBD" := by
  have hformat : ∀ (h : Nat) (mm : String), h < 24 → ':' ∉ mm.data →
      RouteController.formatTime (some (toString h ++ ":" ++ mm)) =
          toString (if h % 12 = 0 then 12 else h % 12) ++ ":" ++ mm ++ " " ++
            (if h < 12 then "AM" else "PM") ∧
        RouteController.formatTime (some (pad2 h ++ ":" ++ mm)) =
          toString (if h % 12 = 0 then 12 else h % 12) ++ ":" ++ mm ++ " " ++
            (if h < 12 then "AM" else "PM") := by
    intro h mm hh hmm
    obtain ⟨a1, a2, a3, a4, a5, a6⟩ := hour_texts h hh
    constructor
    · rw [formatTime_parts _ mm _ a1 hmm a2, a5, a6]
    · rw [formatTime_parts _ mm _ a3 hmm a4, a5, a6]
  refine ⟨?_, ?_, rfl, rfl⟩
  · intro h mm hh _ hdig
    refine ⟨?_, ?_, hformat h mm hh (no_colon_of_digits _ hdig)⟩
    · split <;> omega
    · split <;> omega
  · intro t u ht hu heq
    have ht1 : t / 60 % 24 < 24 := Nat.mod_lt _ (by decide)
    have hu1 : u / 60 % 24 < 24 := Nat.mod_lt _ (by decide)
    have ht2 : t % 60 < 60 := Nat.mod_lt _ (by decide)
    have hu2 : u % 60 < 60 := Nat.mod_lt _ (by decide)
    obtain ⟨mt1, mt2, mt3⟩ := minute_texts (t % 60) ht2
    obtain ⟨mu1, mu2, -⟩ := minute_texts (u % 60) hu2
    obtain ⟨dt, dinj⟩ := displayed_hours (t / 60 % 24) ht1 (u / 60 % 24) hu1
    obtain ⟨du, -⟩ := displayed_hours (u / 60 % 24) hu1 (t / 60 % 24) ht1
    simp only [clockText] at heq
    rw [(hformat _ _ ht1 (no_colon_of_digits _ mt2)).2,
      (hformat _ _ hu1 (no_colon_of_digits _ mu2)).2] at heq
    have hshape : ∀ a b c : String,
        (a ++ ":" ++ b ++ " " ++ c).data = a.data ++ ':' :: (b.data ++ ' ' :: c.data) := by
      intro a b c
      simp [String.data_append]
    have hd := congrArg String.data heq
    rw [hshape, hshape] at hd
    have hsplit := congrArg (splitOn ':') hd
    have htail : ∀ (m : Nat) (sfx : String), m < 60 → (sfx = "AM" ∨ sfx = "PM") →
        ':' ∉ (pad2 m).data ++ ' ' :: sfx.data := by
      intro m sfx hm hs
      obtain ⟨-, md, -⟩ := minute_texts m hm
      intro hmem
      rcases List.mem_append.mp hmem with h1 | h1
      · exact no_colon_of_digits _ md h1
      · rcases hs with rfl | rfl <;> revert h1 <;> decide
    have hsfx : ∀ k : Nat, (if k < 12 then "AM" else "PM") = "AM" ∨
        (if k < 12 then "AM" else "PM") = "PM" := by
      intro k; split <;> simp
    rw [splitOn_two ':' _ _ dt (htail _ _ ht2 (hsfx (t / 60 % 24))),
      splitOn_two ':' _ _ du (htail _ _ hu2 (hsfx (u / 60 % 24)))] at hsplit
    simp only [List.cons.injEq, and_true] at hsplit
    obtain ⟨hdisp, hrest⟩ := hsplit
    have hrest2 : (pad2 (t % 60)).data ++ ' ' :: (if t / 60 % 24 < 12 then "AM" else "PM").data =
        (pad2 (u % 60)).data ++ ' ' :: (if u / 60 % 24 < 12 then "AM" else "PM").data := hrest
    obtain ⟨hmin, hhalf⟩ := List.append_inj hrest2 (mt1.trans mu1.symm)
    have hmineq : t % 60 = u % 60 := mt3 _ hu2 hmin
    have hhalf2 : (if t / 60 % 24 < 12 then "AM" else "PM") =
        (if u / 60 % 24 < 12 then "AM" else "PM") := by
      apply String.ext
      exact (List.cons.inj hhalf).2
    have hhour : t / 60 % 24 = u / 60 % 24 := dinj hdisp hhalf2
    omega

/-! ### Counts and last-seen record of a timeline answer -/

/-- In a list built by `mapIdx`, the elements that pass a test holding exactly
below the index `c` are `c` many. -/
theorem countP_mapIdx_below {α β : Type} (p : β → Bool) (l : List α) (f : Nat → α → β)
    (c : Nat) (hc : c ≤ l.length) (h : ∀ i x, p (f i x) = true ↔ i < c) :
    (l.mapIdx f).countP p = c := by
  induction l generalizing f c with
  | nil =>
    have : c = 0 := Nat.le_zero.mp hc
    subst this
    rfl
  | cons a l ih =>
    rw [List.mapIdx_cons]
    cases c with
    | zero =>
      rw [List.countP_eq_zero]
      intro b hb hp
      rcases List.mem_cons.mp hb with rfl | hb
      · exact Nat.not_lt_zero _ ((h 0 a).mp hp)
      · rw [List.mem_mapIdx] at hb
        obtain ⟨i, hi, rfl⟩ := hb
        exact Nat.not_lt_zero _ ((h (i + 1) _).mp hp)
    | succ c =>
      have h0 : p (f 0 a) = true := (h 0 a).mpr (Nat.succ_pos c)
      rw [List.countP_cons_of_pos _ _ h0]
      congr 1
      apply ih (fun i => f (i + 1)) c (Nat.le_of_succ_le_succ hc)
      intro i x
      rw [h (i + 1) x]
      exact Nat.succ_lt_succ_iff

/-- In a list built by `mapIdx`, the elements that pass a test holding exactly
above the index `c` are those after `c`. -/
theorem countP_mapIdx_above {α β : Type} (p : β → Bool) (l : List α) (f : Nat → α → β)
    (c : Nat) (hc : c < l.length) (h : ∀ i x, p (f i x) = true ↔ c < i) :
    (l.mapIdx f).countP p = l.length - c - 1 := by
  induction l generalizing f c with
  | nil => cases hc
  | cons a l ih =>
    rw [List.mapIdx_cons]
    have h0 : ¬ p (f 0 a) = true := fun hp => Nat.not_lt_zero _ ((h 0 a).mp hp)
    rw [List.countP_cons_of_neg _ _ h0]
    cases c with
    | zero =>
      have hall : (l.mapIdx fun i => f (i + 1)).countP p =
          (l.mapIdx fun i => f (i + 1)).length := by
        rw [List.countP_eq_length]
        intro b hb
        rw [List.mem_mapIdx] at hb
        obtain ⟨i, hi, rfl⟩ := hb
        exact (h (i + 1) _).mpr (Nat.succ_pos i)
      rw [hall, List.length_mapIdx, List.length_cons]
      omega
    | succ c =>
      rw [ih (fun i => f (i + 1)) c (Nat.lt_of_succ_lt_succ hc), List.length_cons]
      · omega
      · intro i x
        rw [h (i + 1) x]
        exact Nat.succ_lt_succ_iff

/-- In a list built by `mapIdx`, the first element passing a test that holds
exactly at the index `c` is the element at `c`. -/
theorem find?_mapIdx_unique {α β : Type} (p : β → Bool) (l : List α) (f : Nat → α → β)
    (c : Nat) (h : ∀ i x, p (f i x) = true ↔ i = c) :
    (l.mapIdx f).find? p = (l.mapIdx f)[c]? := by
  induction l generalizing f c with
  | nil => simp
  | cons a l ih =>
    rw [List.mapIdx_cons]
    cases c with
    | zero =>
      have h0 : p (f 0 a) = true := (h 0 a).mpr rfl
      simp [List.find?_cons, h0]
    | succ c =>
      have h0 : p (f 0 a) = false := by
        cases hp : p (f 0 a)
        · rfl
        · exact absurd ((h 0 a).mp hp) (Nat.succ_ne_zero c).symm
      simp only [List.find?_cons, h0, List.getElem?_cons_succ]
      apply ih (fun i => f (i + 1)) c
      intro i x
      rw [h (i + 1) x]
      exact Nat.succ_inj'

/-- The status `getBusRouteTimeline` gives a stop tells its position relative
to the current stop index. -/
theorem timeline_status (isRealTime : Bool) (busStatus : String) (now c index : Nat)
    (stop : RouteController.StopRow) :
    ((RouteController.transformStop isRealTime busStatus now c index stop).status =
        "completed" ↔ index < c) ∧
      ((RouteController.transformStop isRealTime busStatus now c index stop).status =
        "current" ↔ index = c) ∧
      ((RouteController.transformStop isRealTime busStatus now c index stop).status =
        "upcoming" ↔ c < index) := by
  rcases Nat.lt_trichotomy index c with h | h | h
  · have h1 : index ≠ c := Nat.ne_of_lt h
    have h2 : ¬ c < index := Nat.lt_asymm h
    simp [RouteController.transformStop, h, h1, h2]
  · have h1 : ¬ index < c := by omega
    have h2 : ¬ c < index := by omega
    simp [RouteController.transformStop, h, h1, h2]
  · have h1 : index ≠ c := Nat.ne_of_gt h
    have h2 : ¬ index < c := Nat.lt_asymm h
    simp [RouteController.transformStop, h, h1, h2]

/-- The current stop index is an index of the stop list, in both modes. -/
theorem currentStopIndex_lt (isRealTime : Bool) (stops : List RouteController.StopRow)
    (hlen : stops.length ≠ 0) :
    RouteController.currentStopIndex isRealTime stops < stops.length := by
  have hpos : 0 < stops.length := Nat.pos_of_ne_zero hlen
  cases isRealTime with
  | true =>
    simp only [RouteController.currentStopIndex, if_true]
    exact scanProgress_lt _ stops 0 0 (by omega) hpos
  | false =>
    simp only [RouteController.currentStopIndex, Bool.false_eq_true, if_false]
    omega

/-- The route object of `chooseRoute` counts the stops it is returned with. -/
theorem chooseRoute_total_stops (db : Database) (bus : RouteController.BusRow)
    (isRealTime : Bool) (routeData : RouteController.RouteData)
    (stops : List RouteController.StopRow)
    (h : RouteController.chooseRoute db bus = some (isRealTime, routeData, stops)) :
    routeData.total_stops = stops.length ∧ routeData.is_real_time = isRealTime := by
  unfold RouteController.chooseRoute at h
  dsimp only at h
  split at h
  · simp only [Option.some.injEq, Prod.mk.injEq] at h
    obtain ⟨h1, h2, h3⟩ := h
    subst h1 h2 h3
    exact ⟨rfl, rfl⟩
  · split at h
    · simp only [Option.some.injEq, Prod.mk.injEq] at h
      obtain ⟨h1, h2, h3⟩ := h
      subst h1 h2 h3
      exact ⟨rfl, rfl⟩
    · cases h

/-- The parts of a successful answer of `getBusRouteTimeline`. -/
theorem getBusRouteTimeline_ok (env : SqlEnv) (db : Database) (now : Nat)
    (req : RouteController.TimelineRequest) (data : RouteController.TimelineData)
    (hres : RouteController.getBusRouteTimeline env db now req = .ok data) :
    ∃ bus isRealTime routeData timelineStops,
      RouteController.chooseRoute db bus = some (isRealTime, routeData, timelineStops) ∧
        timelineStops.length ≠ 0 ∧
        data.timeline.stops =
          timelineStops.mapIdx (RouteController.transformStop isRealTime bus.bus.status now
            (RouteController.currentStopIndex isRealTime timelineStops)) ∧
        data.timeline.current_stop_index =
          RouteController.currentStopIndex isRealTime timelineStops ∧
        data.bus.last_seen = RouteController.lastSeenInfo data.timeline.stops ∧
        data.timeline.last_seen_stop = RouteController.lastSeenInfo data.timeline.stops ∧
        data.metadata.total_stops = data.timeline.stops.length ∧
        data.metadata.completed_stops =
          (data.timeline.stops.filter fun s => s.status == "completed").length ∧
        data.metadata.remaining_stops =
          (data.timeline.stops.filter fun s => s.status == "upcoming").length ∧
        data.route = routeData := by
  unfold RouteController.getBusRouteTimeline at hres
  split at hres
  · cases hres
  split at hres
  · cases hres
  rename_i bus hbus
  split at hres
  · cases hres
  rename_i isRealTime routeData timelineStops hroute
  split at hres
  · cases hres
  rename_i hlen
  dsimp only at hres
  cases hres
  exact ⟨bus, isRealTime, routeData, timelineStops, hroute, hlen, rfl, rfl, rfl, rfl, rfl, rfl,
    rfl, rfl⟩

/-- C18: in every successful getBusRouteTimeline answer, in both modes, exactly
one stop has status `current`, `metadata.completed_stops` equals
`timeline.current_stop_index`, and `completed_stops + 1 + remaining_stops =
metadata.total_stops = route.total_stops`, the number of stops of the
timeline. -/
theorem getBusRouteTimeline_counts (env : SqlEnv) (db : Database) (now : Nat)
    (req : RouteController.TimelineRequest) (data : RouteController.TimelineData)
    (hres : RouteController.getBusRouteTimeline env db now req = .ok data) :
    data.timeline.stops.countP (fun s => s.status == "current") = 1 ∧
      data.metadata.completed_stops = data.timeline.current_stop_index ∧
      data.metadata.completed_stops + 1 + data.metadata.remaining_stops =
        data.metadata.total_stops ∧
      data.metadata.total_stops = data.route.total_stops ∧
      data.metadata.total_stops = data.timeline.stops.length := by
  obtain ⟨bus, isRealTime, routeData, timelineStops, hroute, hlen, hstops, hcur, -, -, htotal,
    hdone, hleft, hrd⟩ := getBusRouteTimeline_ok env db now req data hres
  have hlt := currentStopIndex_lt isRealTime timelineStops hlen
  have hstatus := timeline_status isRealTime bus.bus.status now
    (RouteController.currentStopIndex isRealTime timelineStops)
  have hone : data.timeline.stops.countP (fun s => s.status == "current") = 1 := by
    rw [hstops]
    apply countP_mapIdx_unique _ _ _ _ hlt
    intro i x
    rw [beq_iff_eq]
    exact (hstatus i x).2.1
  have hbelow : (data.timeline.stops.filter fun s => s.status == "completed").length =
      RouteController.currentStopIndex isRealTime timelineStops := by
    rw [← List.countP_eq_length_filter, hstops]
    apply countP_mapIdx_below _ _ _ _ (Nat.le_of_lt hlt)
    intro i x
    rw [beq_iff_eq]
    exact (hstatus i x).1
  have habove : (data.timeline.stops.filter fun s => s.status == "upcoming").length =
      timelineStops.length - RouteController.currentStopIndex isRealTime timelineStops - 1 := by
    rw [← List.countP_eq_length_filter, hstops]
    apply countP_mapIdx_above _ _ _ _ hlt
    intro i x
    rw [beq_iff_eq]
    exact (hstatus i x).2.2
  have hn : data.timeline.stops.length = timelineStops.length := by
    rw [hstops, List.length_mapIdx]
  have hrt := (chooseRoute_total_stops db bus isRealTime routeData timelineStops hroute).1
  refine ⟨hone, ?_, ?_, ?_, htotal⟩
  · rw [hdone, hbelow, hcur]
  · rw [hdone, hleft, hbelow, habove, htotal, hn]
    omega
  · rw [htotal, hn, hrd, hrt]

/-- C19: in every successful getBusRouteTimeline answer the last-seen record
is present and describes the current stop: its status is `current`, its
`stop_name`, `time` and `eta` are the name, arrival time and ETA of
`timeline.stops[timeline.current_stop_index]`, its message is `Currently at`
followed by that name, and `timeline.last_seen_stop` is the same record; the
`last_completed` alternative does not occur. -/
theorem getBusRouteTimeline_last_seen (env : SqlEnv) (db : Database) (now : Nat)
    (req : RouteController.TimelineRequest) (data : RouteController.TimelineData)
    (hres : RouteController.getBusRouteTimeline env db now req = .ok data) :
    ∃ stop, data.timeline.stops[data.timeline.current_stop_index]? = some stop ∧
      stop.status = "current" ∧
      data.bus.last_seen =
        some ⟨stop.name, "current", stop.arrivalTime, stop.eta, "Currently at " ++ stop.name⟩ ∧
      data.timeline.last_seen_stop = data.bus.last_seen := by
  obtain ⟨bus, isRealTime, routeData, timelineStops, hroute, hlen, hstops, hcur, hseen, hseen2,
    -, -, -, -⟩ := getBusRouteTimeline_ok env db now req data hres
  have hlt := currentStopIndex_lt isRealTime timelineStops hlen
  have hstatus := timeline_status isRealTime bus.bus.status now
    (RouteController.currentStopIndex isRealTime timelineStops)
  have hfind : data.timeline.stops.find? (fun stop => stop.status == "current") =
      data.timeline.stops[data.timeline.current_stop_index]? := by
    rw [hcur, hstops]
    apply find?_mapIdx_unique
    intro i x
    rw [beq_iff_eq]
    exact (hstatus i x).2.1
  have hidx : data.timeline.current_stop_index < data.timeline.stops.length := by
    rw [hcur, hstops, List.length_mapIdx]
    exact hlt
  refine ⟨data.timeline.stops[data.timeline.current_stop_index], ?_, ?_, ?_, ?_⟩
  · exact List.getElem?_eq_getElem hidx
  · have hmem := List.find?_some (hfind.trans (List.getElem?_eq_getElem hidx))
    exact beq_iff_eq.mp hmem
  · rw [hseen]
    simp only [RouteController.lastSeenInfo, hfind, List.getElem?_eq_getElem hidx,
      Option.orElse, Option.isSome_some, if_true, Option.map_some']
  · rw [hseen2, hseen]

/-! ### Grouping of pushed notifications -/

/-- The object `notificationsByUser` after one more row. -/
theorem notificationsByUser_snoc (rows : List NotificationController.JoinedNotification)
    (n : NotificationController.JoinedNotification) :
    Server.notificationsByUser (rows ++ [n]) =
      Server.pushItem (Server.notificationsByUser rows) n.row.user_id (Server.toItem n) := by
  simp [Server.notificationsByUser, List.foldl_append]

/-- Appending to the list of a key that is not there changes nothing. -/
theorem map_push_absent (groups : List (Nat × List Server.NotificationItem)) (userId : Nat)
    (item : Server.NotificationItem) (h : userId ∉ groups.map fun g => g.1) :
    (groups.map fun g => if g.1 == userId then (g.1, g.2 ++ [item]) else g) = groups := by
  conv_rhs => rw [← List.map_id groups]
  apply List.map_congr_left
  intro g hg
  have : g.1 ≠ userId := fun e => h (e ▸ List.mem_map_of_mem (fun g => g.1) hg)
  simp [this]

/-- Appending an item to the list of a key keeps the keys. -/
theorem map_push_keys (groups : List (Nat × List Server.NotificationItem)) (userId : Nat)
    (item : Server.NotificationItem) :
    ((groups.map fun g => if g.1 == userId then (g.1, g.2 ++ [item]) else g).map fun g => g.1) =
      groups.map fun g => g.1 := by
  rw [List.map_map]
  apply List.map_congr_left
  intro g _
  simp only [Function.comp_apply]
  split <;> rfl

/-- Appending an item to the list of the one entry with the key adds the item
to the items of all entries. -/
theorem flatMap_push_perm (groups : List (Nat × List Server.NotificationItem)) (userId : Nat)
    (item : Server.NotificationItem) (hnd : (groups.map fun g => g.1).Nodup)
    (hu : userId ∈ groups.map fun g => g.1) :
    ((groups.map fun g => if g.1 == userId then (g.1, g.2 ++ [item]) else g).flatMap
        fun g => g.2).Perm ((groups.flatMap fun g => g.2) ++ [item]) := by
  induction groups with
  | nil => simp at hu
  | cons g rest ih =>
    simp only [List.map_cons, List.nodup_cons] at hnd
    by_cases hg : g.1 = userId
    · have hrest : userId ∉ rest.map fun g => g.1 := hg ▸ hnd.1
      simp only [List.map_cons, hg, beq_self_eq_true, if_true, List.flatMap_cons,
        map_push_absent rest userId item hrest, List.append_assoc]
      exact List.Perm.append_left _ List.perm_append_comm
    · have hmem : userId ∈ rest.map fun g => g.1 := by
        simp only [List.map_cons, List.mem_cons] at hu
        rcases hu with h | h
        · exact absurd h.symm hg
        · exact h
      have hne : (g.1 == userId) = false := by simp [hg]
      simp only [List.map_cons, hne, Bool.false_eq_true, if_false, List.flatMap_cons,
        List.append_assoc]
      exact List.Perm.append_left _ (ih hnd.2 hmem)

/-- The entries of `notificationsByUser`: one per user with a row, holding the
items of that user's rows in their order; together they hold every item. -/
theorem notificationsByUser_inv (rows : List NotificationController.JoinedNotification) :
    ((Server.notificationsByUser rows).map fun g => g.1).Nodup ∧
      (∀ g ∈ Server.notificationsByUser rows,
        g.2 = (rows.filter fun n => n.row.user_id == g.1).map Server.toItem ∧ g.2 ≠ []) ∧
      (∀ n ∈ rows, n.row.user_id ∈ (Server.notificationsByUser rows).map fun g => g.1) ∧
      ((Server.notificationsByUser rows).flatMap fun g => g.2).Perm (rows.map Server.toItem) := by
  induction rows using List.reverseRecOn with
  | nil => simp [Server.notificationsByUser]
  | append_singleton rows n ih =>
    obtain ⟨hnd, hitems, hkeys, hperm⟩ := ih
    rw [notificationsByUser_snoc]
    unfold Server.pushItem
    by_cases hany : n.row.user_id ∈ (Server.notificationsByUser rows).map fun g => g.1
    · have hcond : ((Server.notificationsByUser rows).any fun g => g.1 == n.row.user_id) =
          true := by
        rw [List.any_eq_true]
        obtain ⟨g, hg, hgu⟩ := List.mem_map.mp hany
        exact ⟨g, hg, by simp [hgu]⟩
      simp only [hcond, if_true]
      refine ⟨?_, ?_, ?_, ?_⟩
      · rw [map_push_keys]; exact hnd
      · intro g' hg'
        obtain ⟨g, hg, rfl⟩ := List.mem_map.mp hg'
        obtain ⟨h1, h2⟩ := hitems g hg
        by_cases hgu : g.1 = n.row.user_id
        · simp only [hgu, beq_self_eq_true, if_true, List.filter_append, List.map_append,
            List.filter_cons, List.filter_nil, List.map_cons, List.map_nil]
          rw [← hgu, ← h1]
          simp
        · have hne : (g.1 == n.row.user_id) = false := by simp [hgu]
          have hne2 : (n.row.user_id == g.1) = false := by
            simp only [beq_eq_false_iff_ne, ne_eq]
            exact fun e => hgu e.symm
          simp only [hne, Bool.false_eq_true, if_false, List.filter_append, List.map_append,
            List.filter_cons, hne2, List.filter_nil, List.map_nil, List.append_nil]
          exact ⟨h1, h2⟩
      · intro m hm
        rw [map_push_keys]
        rcases List.mem_append.mp hm with h | h
        · exact hkeys m h
        · simp only [List.mem_singleton] at h
          rw [h]; exact hany
      · rw [List.map_append, List.map_cons, List.map_nil]
        exact (flatMap_push_perm _ _ _ hnd hany).trans (List.Perm.append_right _ hperm)
    · have hcond : ((Server.notificationsByUser rows).any fun g => g.1 == n.row.user_id) =
          false := by
        rw [List.any_eq_false]
        intro g hg hgu
        exact hany (List.mem_map.mpr ⟨g, hg, by simpa using hgu⟩)
      have hfresh : (rows.filter fun m => m.row.user_id == n.row.user_id) = [] := by
        rw [List.filter_eq_nil_iff]
        intro m hm hmu
        exact hany ((beq_iff_eq.mp hmu) ▸ hkeys m hm)
      simp only [hcond, Bool.false_eq_true, if_false]
      refine ⟨?_, ?_, ?_, ?_⟩
      · rw [List.map_append, List.nodup_append]
        refine ⟨hnd, by simp, ?_⟩
        intro u hu hu2
        simp only [List.map_cons, List.map_nil, List.mem_singleton] at hu2
        exact hany (hu2 ▸ hu)
      · intro g hg
        rcases List.mem_append.mp hg with h | h
        · obtain ⟨h1, h2⟩ := hitems g h
          have hgu : g.1 ≠ n.row.user_id :=
            fun e => hany (e ▸ List.mem_map_of_mem (fun g => g.1) h)
          have hne2 : (n.row.user_id == g.1) = false := by
            simp only [beq_eq_false_iff_ne, ne_eq]
            exact fun e => hgu e.symm
          simp only [List.filter_append, List.map_append, List.filter_cons, hne2,
            Bool.false_eq_true, if_false, List.filter_nil, List.map_nil, List.append_nil]
          exact ⟨h1, h2⟩
        · simp only [List.mem_singleton] at h
          subst h
          simp [List.filter_append, hfresh]
      · intro m hm
        rw [List.map_append]
        rcases List.mem_append.mp hm with h | h
        · exact List.mem_append_left _ (hkeys m h)
        · simp only [List.mem_singleton] at h
          rw [h]
          exact List.mem_append_right _ (by simp)
      · rw [List.flatMap_append, List.map_append]
        simp only [List.flatMap_cons, List.flatMap_nil, List.append_nil, List.map_cons,
          List.map_nil]
        exact List.Perm.append_right _ hperm

/-- The `for ... in` order visits every entry once. -/
theorem forInOrder_perm {α : Type} (entries : List (Nat × α)) :
    (Server.forInOrder entries).Perm entries := by
  unfold Server.forInOrder orderBy
  exact ((List.perm_insertionSort _ _).append_right _).trans
    (List.filter_append_perm (fun e => decide (e.1 < 4294967295)) entries)

/-- C14: for every list of fetched rows the grouping is a partition: each user
with a row gets exactly one `new_notification` event, to the room of that
user; no event goes to a user without a row; the payload of the event for user
`u` is the rows whose `user_id` is `u`, in their original order, each as the
object of its notification id, title, message, type, priority, bus id, route
id, bus number, source name, destination name and creation time (also as
`timestamp`); and the payloads together hold every row exactly once. -/
theorem sendNotifications_partition
    (notifications : List NotificationController.JoinedNotification) :
    (∀ n ∈ notifications,
        (Server.sendNotifications notifications).new_notification.countP
          (fun e => e.room == .user n.row.user_id) = 1) ∧
      (∀ e ∈ (Server.sendNotifications notifications).new_notification,
        ∃ n ∈ notifications, e.room = .user n.row.user_id) ∧
      (∀ e ∈ (Server.sendNotifications notifications).new_notification, ∀ u,
        e.room = .user u →
        e.payload = (notifications.filter fun n => n.row.user_id == u).map fun n =>
          { notification_id := n.row.notification_id
            title := n.row.title
            message := n.row.message
            type := n.row.type
            priority := n.row.priority
            bus_id := n.row.bus_id
            route_id := n.row.route_id
            bus_number := n.bus_number
            source_name := n.source_name
            destination_name := n.destination_name
            created_at := n.row.created_at
            timestamp := n.row.created_at }) ∧
      ((Server.sendNotifications notifications).new_notification.flatMap
        fun e => e.payload).Perm (notifications.map fun n =>
          { notification_id := n.row.notification_id
            title := n.row.title
            message := n.row.message
            type := n.row.type
            priority := n.row.priority
            bus_id := n.row.bus_id
            route_id := n.row.route_id
            bus_number := n.bus_number
            source_name := n.source_name
            destination_name := n.destination_name
            created_at := n.row.created_at
            timestamp := n.row.created_at }) := by
  obtain ⟨hnd, hitems, hkeys, hperm⟩ := notificationsByUser_inv notifications
  have hfor := forInOrder_perm (Server.notificationsByUser notifications)
  have hemits : (Server.sendNotifications notifications).new_notification =
      (Server.forInOrder (Server.notificationsByUser notifications)).map
        fun g => ⟨.user g.1, g.2⟩ := rfl
  have hrooms : ((Server.sendNotifications notifications).new_notification.map
      fun e => e.room).Perm
        ((Server.notificationsByUser notifications).map fun g => Server.Room.user g.1) := by
    rw [hemits, List.map_map]
    exact hfor.map _
  have hroomsnd : ((Server.sendNotifications notifications).new_notification.map
      fun e => e.room).Nodup := by
    rw [hrooms.nodup_iff]
    have : ((Server.notificationsByUser notifications).map fun g => Server.Room.user g.1) =
        ((Server.notificationsByUser notifications).map fun g => g.1).map Server.Room.user := by
      rw [List.map_map]; rfl
    rw [this]
    exact hnd.map fun a b h => by cases h; rfl
  have hmem : ∀ e, e ∈ (Server.sendNotifications notifications).new_notification ↔
      ∃ g ∈ Server.notificationsByUser notifications, e = ⟨.user g.1, g.2⟩ := by
    intro e
    rw [hemits, List.mem_map]
    constructor
    · rintro ⟨g, hg, rfl⟩
      exact ⟨g, hfor.mem_iff.mp hg, rfl⟩
    · rintro ⟨g, hg, rfl⟩
      exact ⟨g, hfor.mem_iff.mpr hg, rfl⟩
  refine ⟨?_, ?_, ?_, ?_⟩
  · intro n hn
    have hroom : Server.Room.user n.row.user_id ∈
        (Server.sendNotifications notifications).new_notification.map fun e => e.room := by
      rw [hrooms.mem_iff]
      obtain ⟨g, hg, hgu⟩ := List.mem_map.mp (hkeys n hn)
      exact List.mem_map.mpr ⟨g, hg, by rw [hgu]⟩
    have hcount := List.count_eq_one_of_mem hroomsnd hroom
    rw [List.count, List.countP_map] at hcount
    exact hcount
  · intro e he
    obtain ⟨g, hg, rfl⟩ := (hmem e).mp he
    obtain ⟨h1, h2⟩ := hitems g hg
    have : (notifications.filter fun n => n.row.user_id == g.1) ≠ [] := by
      intro h
      rw [h] at h1
      exact h2 h1
    obtain ⟨n, hn⟩ := List.exists_mem_of_ne_nil _ this
    rw [List.mem_filter] at hn
    exact ⟨n, hn.1, by rw [beq_iff_eq.mp hn.2]⟩
  · intro e he u hu
    obtain ⟨g, hg, rfl⟩ := (hmem e).mp he
    cases hu
    exact (hitems g hg).1
  · rw [hemits, List.flatMap_map]
    exact (hfor.flatMap_right _).trans hperm

/-! ### The location broadcast and the map -/

/-- An object of the broadcast has no property `current_location`. -/
theorem received_current_location (row : Server.BusLocation) :
    MapViewComponent.JsObject.get (MapViewComponent.received row) "current_location" =
      .undefined := by
  simp [MapViewComponent.received, MapViewComponent.JsObject.get, List.find?]

/-- The reduction over objects of the broadcast leaves the accumulator as it
is. -/
theorem foldl_reducePosition_received {ν : Type} (number : String → Option ν)
    (rows : List Server.BusLocation) (acc : MapViewComponent.Positions ν) :
    (rows.map MapViewComponent.received).foldl (MapViewComponent.reducePosition number) acc =
      acc := by
  induction rows generalizing acc with
  | nil => rfl
  | cons row rest ih =>
    simp only [List.map_cons, List.foldl_cons]
    have : MapViewComponent.reducePosition number acc (MapViewComponent.received row) = acc := by
      unfold MapViewComponent.reducePosition
      rw [received_current_location]
    rw [this]
    exact ih acc

/-- For every payload the server broadcasts, the handler leaves `busPositions`
as it was. -/
theorem onBusLocationUpdate_broadcast {ν : Type} (number : String → Option ν)
    (prevPositions : MapViewComponent.Positions ν) (rows : List Server.BusLocation) :
    MapViewComponent.onBusLocationUpdate number prevPositions
      (rows.map MapViewComponent.received) = prevPositions := by
  unfold MapViewComponent.onBusLocationUpdate
  simp only [foldl_reducePosition_received]

/-- C15 at its failing input: the broadcast for the running bus 1 carries its
latitude and longitude, and after the handler `busPositions` still has no entry
under the key `1`. -/
theorem onBusLocationUpdate_ignores_coordinates :
    Server.trackBuses Examples.trackedBuses Examples.trackedLocations =
        [⟨1, "PB-01", "running", .str "30.7333", .str "76.7794", some 1000⟩] ∧
      ((MapViewComponent.onBusLocationUpdate Examples.coordinate (fun _ => none)
        ((Server.trackBuses Examples.trackedBuses Examples.trackedLocations).map
          MapViewComponent.received)) "1").isSome = false := by
  refine ⟨by decide, ?_⟩
  rw [onBusLocationUpdate_broadcast]
  rfl

/-! ### The timeline card -/

/-- The generated stops are never an empty list. -/
theorem fallbackStops_ne_nil (startLocation endLocation : JsVal) (names : List String) :
    RouteTimelineCard.fallbackStops startLocation endLocation names ≠ [] := by
  simp [RouteTimelineCard.fallbackStops]

/-- When the lookup of the two locations finds no inherited property,
`generateFallbackStops` sets the generated stops. -/
theorem generateFallbackStops_some (inherited : String → String → Bool)
    (props : RouteTimelineCard.Props) (s : RouteTimelineCard.State)
    (routeInfo : Option RouteTimelineCard.RouteInfo)
    (hsafe : inherited (RouteTimelineCard.fallbackLocations props routeInfo).1.toStr
      (RouteTimelineCard.fallbackLocations props routeInfo).2.toStr = false) :
    ∃ s', RouteTimelineCard.generateFallbackStops inherited props s routeInfo = some s' ∧
      s'.routeStops ≠ [] ∧ s'.loading = s.loading := by
  unfold RouteTimelineCard.generateFallbackStops RouteTimelineCard.getIntermediateStops
  simp only [hsafe, Bool.false_eq_true, if_false]
  cases RouteTimelineCard.routeStopsMap
      (RouteTimelineCard.fallbackLocations props routeInfo).1.toStr
      (RouteTimelineCard.fallbackLocations props routeInfo).2.toStr with
  | none => exact ⟨_, rfl, fallbackStops_ne_nil _ _ _, rfl⟩
  | some names => exact ⟨_, rfl, fallbackStops_ne_nil _ _ _, rfl⟩

/-- For a selected bus with a `bus_id` and locations that hit no inherited
property of the stop table, whatever the outcome of the timeline request,
`fetchRouteData` ends with `loading = false` and a non-empty `routeStops`: the
stops of the answer mapped field by field (`id`, `name`, `status`, `eta`,
`time` from `arrivalTime`, `distance`, `stop_order`) when the answer has
`success`, `data.timeline` and a non-empty `timeline.stops`, and in every other
case the list `generateFallbackStops` produces. -/
theorem fetchRouteData_never_empty (inherited : String → String → Bool)
    (props : RouteTimelineCard.Props) (s : RouteTimelineCard.State)
    (outcome : RouteTimelineCard.Outcome) (bus : RouteTimelineCard.SelectedBus)
    (hbus : props.selectedBus = some bus) (hid : bus.bus_id.truthy = true)
    (hsafe : inherited (RouteTimelineCard.fallbackLocations props none).1.toStr
      (RouteTimelineCard.fallbackLocations props none).2.toStr = false)
    (hroute : ∀ success timeline route,
      outcome = .responds (some ⟨success, some ⟨some timeline, route⟩⟩) →
      inherited (RouteTimelineCard.fallbackLocations props route).1.toStr
        (RouteTimelineCard.fallbackLocations props route).2.toStr = false) :
    (RouteTimelineCard.fetchRouteData inherited props s outcome).loading = false ∧
      (RouteTimelineCard.fetchRouteData inherited props s outcome).routeStops ≠ [] ∧
      (∀ success timeline route first rest,
        outcome = .responds (some ⟨success, some ⟨some timeline, route⟩⟩) →
        success.truthy = true → timeline.stops = some (first :: rest) →
        (RouteTimelineCard.fetchRouteData inherited props s outcome).routeStops =
          (first :: rest).map fun stop =>
            { id := stop.id
              name := stop.name
              status := stop.status
              eta := stop.eta
              time := stop.arrivalTime
              distance := .copied stop.distance
              stop_order := stop.stop_order }) ∧
      ((¬ ∃ success timeline route first rest,
          outcome = .responds (some ⟨success, some ⟨some timeline, route⟩⟩) ∧
          success.truthy = true ∧ timeline.stops = some (first :: rest)) →
        ∃ routeInfo s',
          RouteTimelineCard.generateFallbackStops inherited props { s with loading := true }
            routeInfo = some s' ∧
          (RouteTimelineCard.fetchRouteData inherited props s outcome).routeStops =
            s'.routeStops) := by
  obtain ⟨s0, hs0, hne0, hl0⟩ :=
    generateFallbackStops_some inherited props { s with loading := true } none hsafe
  have hrecover : RouteTimelineCard.recover inherited props { s with loading := true } =
      { s0 with loading := false } := by
    simp only [RouteTimelineCard.recover, hs0]
  have hfallback : ∀ final : RouteTimelineCard.State, final = { s0 with loading := false } →
      final.loading = false ∧ final.routeStops ≠ [] ∧
        ∃ routeInfo s',
          RouteTimelineCard.generateFallbackStops inherited props { s with loading := true }
            routeInfo = some s' ∧ final.routeStops = s'.routeStops := by
    intro final hfinal
    subst hfinal
    exact ⟨rfl, hne0, none, s0, hs0, rfl⟩
  have hnocase : ∀ o : RouteTimelineCard.Outcome,
      (∀ success timeline route, o ≠ .responds (some ⟨success, some ⟨some timeline, route⟩⟩)) →
      ∀ (success : JsVal) (timeline : RouteTimelineCard.TimelineBody)
        (route : Option RouteTimelineCard.RouteInfo) (first : RouteTimelineCard.ApiStop)
        (rest : List RouteTimelineCard.ApiStop),
        o = .responds (some ⟨success, some ⟨some timeline, route⟩⟩) →
        success.truthy = true → timeline.stops = some (first :: rest) →
        (RouteTimelineCard.fetchRouteData inherited props s o).routeStops =
          (first :: rest).map RouteTimelineCard.toRouteStop :=
    fun o ho success timeline route _ _ h => absurd h (ho success timeline route)
  cases outcome with
  | throws =>
    have hfinal : RouteTimelineCard.fetchRouteData inherited props s .throws =
        { s0 with loading := false } := by
      simp only [RouteTimelineCard.fetchRouteData, hbus, hid, Bool.not_true, Bool.false_eq_true,
        if_false, hrecover]
    obtain ⟨h1, h2, h3⟩ := hfallback _ hfinal
    exact ⟨h1, h2, hnocase _ (fun _ _ _ h => by cases h), fun _ => h3⟩
  | responds data =>
    cases data with
    | none =>
      have hfinal : RouteTimelineCard.fetchRouteData inherited props s (.responds none) =
          { s0 with loading := false } := by
        simp only [RouteTimelineCard.fetchRouteData, hbus, hid, Bool.not_true,
          Bool.false_eq_true, if_false, hs0]
      obtain ⟨h1, h2, h3⟩ := hfallback _ hfinal
      exact ⟨h1, h2, hnocase _ (fun _ _ _ h => by cases h), fun _ => h3⟩
    | some body =>
      obtain ⟨success, payload⟩ := body
      cases payload with
      | none =>
        have hfinal : RouteTimelineCard.fetchRouteData inherited props s
            (.responds (some ⟨success, none⟩)) = { s0 with loading := false } := by
          simp only [RouteTimelineCard.fetchRouteData, hbus, hid, Bool.not_true,
            Bool.false_eq_true, if_false, hs0]
        obtain ⟨h1, h2, h3⟩ := hfallback _ hfinal
        exact ⟨h1, h2, hnocase _ (fun _ _ _ h => by cases h), fun _ => h3⟩
      | some payload =>
        obtain ⟨timeline, route⟩ := payload
        cases timeline with
        | none =>
          have hfinal : RouteTimelineCard.fetchRouteData inherited props s
              (.responds (some ⟨success, some ⟨none, route⟩⟩)) =
                { s0 with loading := false } := by
            simp only [RouteTimelineCard.fetchRouteData, hbus, hid, Bool.not_true,
              Bool.false_eq_true, if_false, hs0]
          obtain ⟨h1, h2, h3⟩ := hfallback _ hfinal
          exact ⟨h1, h2, hnocase _ (fun _ _ _ h => by cases h), fun _ => h3⟩
        | some timeline =>
          cases hsucc : success.truthy with
          | false =>
            have hfinal : RouteTimelineCard.fetchRouteData inherited props s
                (.responds (some ⟨success, some ⟨some timeline, route⟩⟩)) =
                  { s0 with loading := false } := by
              simp only [RouteTimelineCard.fetchRouteData, hbus, hid, Bool.not_true,
                Bool.false_eq_true, if_false, hs0, hsucc]
            obtain ⟨h1, h2, h3⟩ := hfallback _ hfinal
            refine ⟨h1, h2, ?_, fun _ => h3⟩
            intro success' timeline' route' first rest h hs
            cases h
            rw [hsucc] at hs
            cases hs
          | true =>
            obtain ⟨s1, hs1, hne1, hl1⟩ := generateFallbackStops_some inherited props
              { s with loading := true } route (hroute success timeline route rfl)
            have hempty : ∀ final : RouteTimelineCard.State,
                final = { s1 with loading := false } →
                final.loading = false ∧ final.routeStops ≠ [] ∧
                  ∃ routeInfo s',
                    RouteTimelineCard.generateFallbackStops inherited props
                      { s with loading := true } routeInfo = some s' ∧
                    final.routeStops = s'.routeStops := by
              intro final hfinal
              subst hfinal
              exact ⟨rfl, hne1, route, s1, hs1, rfl⟩
            obtain ⟨stops⟩ := timeline
            cases stops with
            | none =>
              have hfinal : RouteTimelineCard.fetchRouteData inherited props s
                  (.responds (some ⟨success, some ⟨some ⟨none⟩, route⟩⟩)) =
                    { s1 with loading := false } := by
                simp only [RouteTimelineCard.fetchRouteData, hbus, hid, Bool.not_true,
                  Bool.false_eq_true, if_false, hs1, hsucc, if_true]
              obtain ⟨h1, h2, h3⟩ := hempty _ hfinal
              refine ⟨h1, h2, ?_, fun _ => h3⟩
              intro success' timeline' route' first rest h _ hst
              cases h
              cases hst
            | some list =>
              cases list with
              | nil =>
                have hfinal : RouteTimelineCard.fetchRouteData inherited props s
                    (.responds (some ⟨success, some ⟨some ⟨some []⟩, route⟩⟩)) =
                      { s1 with loading := false } := by
                  simp only [RouteTimelineCard.fetchRouteData, hbus, hid, Bool.not_true,
                    Bool.false_eq_true, if_false, hs1, hsucc, if_true]
                obtain ⟨h1, h2, h3⟩ := hempty _ hfinal
                refine ⟨h1, h2, ?_, fun _ => h3⟩
                intro success' timeline' route' first rest h _ hst
                cases h
                cases hst
              | cons first rest =>
                have hfinal : (RouteTimelineCard.fetchRouteData inherited props s
                    (.responds (some ⟨success, some ⟨some ⟨some (first :: rest)⟩, route⟩⟩))).loading =
                      false ∧
                    (RouteTimelineCard.fetchRouteData inherited props s
                      (.responds (some ⟨success,
                        some ⟨some ⟨some (first :: rest)⟩, route⟩⟩))).routeStops =
                      (first :: rest).map RouteTimelineCard.toRouteStop := by
                  simp only [RouteTimelineCard.fetchRouteData, hbus, hid, Bool.not_true,
                    Bool.false_eq_true, if_false, hsucc, if_true, and_self]
                refine ⟨hfinal.1, ?_, ?_, ?_⟩
                · rw [hfinal.2]; simp
                · intro success' timeline' route' first' rest' h _ hst
                  cases h
                  cases hst
                  exact hfinal.2
                · intro hno
                  exact absurd ⟨success, ⟨some (first :: rest)⟩, route, first, rest, rfl, hsucc,
                    rfl⟩ hno

/-- C11 at its failing input: bus 1 is selected on a route from `constructor`
to `name` and the timeline request fails; the lookup of the two names in the
stop table finds an inherited property in place of a list of stops, the
fallback throws, and `fetchRouteData` ends with `loading = false` and the
empty `routeStops` it started with. -/
theorem fetchRouteData_inherited_names_stay_empty :
    RouteTimelineCard.getIntermediateStops Examples.inheritedName (.str "constructor")
        (.str "name") = none ∧
      RouteTimelineCard.generateFallbackStops Examples.inheritedName Examples.constructorCard
        { Examples.emptyCard with loading := true } none = none ∧
      RouteTimelineCard.fetchRouteData Examples.inheritedName Examples.constructorCard
        Examples.emptyCard .throws = ⟨[], false, none⟩ := by
  refine ⟨by decide, by decide, by decide⟩

/-- Witness of `fetchRouteData_never_empty`: the request for bus 1 fails and
the card shows the generated stops from Chandigarh to Ludhiana. -/
theorem fetchRouteData_never_empty_witness :
    (RouteTimelineCard.fetchRouteData Examples.inheritedName Examples.cardProps
        Examples.emptyCard .throws).loading = false ∧
      (RouteTimelineCard.fetchRouteData Examples.inheritedName Examples.cardProps
        Examples.emptyCard .throws).routeStops ≠ [] :=
  have h := fetchRouteData_never_empty Examples.inheritedName Examples.cardProps
    Examples.emptyCard .throws ⟨.num 1, .str "Chandigarh", .undefined, .str "Ludhiana", .undefined⟩
    rfl (by decide) (by decide) (fun _ _ _ h => by cases h)
  ⟨h.1, h.2.1⟩

/-- Witness of `createNotification_validation`: a type outside the valid ones
is answered with 400, and a body without type and priority is stored. -/
theorem createNotification_validation_witness :
    (NotificationController.createNotification Examples.storeAsThird Examples.oneRouteDb
        Examples.twoNotifications Examples.badTypeBody).1.status = 400 ∧
      (NotificationController.createNotification Examples.storeAsThird Examples.oneRouteDb
        Examples.twoNotifications Examples.plainBody).1.status ≠ 400 :=
  ⟨((createNotification_validation Examples.storeAsThird Examples.oneRouteDb
      Examples.twoNotifications Examples.badTypeBody).1).mpr
      (Or.inr (Or.inr (Or.inr (Or.inl (by decide))))),
    ((createNotification_validation Examples.storeAsThird Examples.oneRouteDb
      Examples.twoNotifications Examples.plainBody).2.2 rfl rfl (by decide) (by decide)
      (by decide)).1⟩

/-- Witness of `sendNotifications_partition`: the two rows of user 7 reach the
room of user 7 in one event. -/
theorem sendNotifications_partition_witness :
    (Server.sendNotifications Examples.fetchedRows).new_notification.countP
        (fun e => e.room == .user 7) = 1 :=
  (sendNotifications_partition Examples.fetchedRows).1
    ⟨⟨1, 7, "Delay", "Bus 12 is late", "bus_delay", "high", false, some 12, none, 100⟩,
      some "PB-12", none, none⟩ (List.mem_cons_self _ _)

/-- Witness of `currentStopIndex_realTime`: the bus is at the second of three
stops. -/
theorem currentStopIndex_realTime_witness :
    RouteController.currentStopIndex true Examples.progressStops < 3 ∧
      RouteController.currentStopIndex true Examples.progressStops = 1 :=
  have h := currentStopIndex_realTime Examples.progressStops (by decide)
  ⟨h.1, h.2.1 1 _ rfl (by decide) (by
    intro j t hj ht
    obtain rfl : j = 0 := by omega
    simp only [Examples.progressStops, List.getElem?_cons_zero, Option.some.injEq] at ht
    subst ht
    decide)⟩

/-- Witness of `getBusRouteTimeline_counts`: one completed, one current and two
upcoming stops of four. -/
theorem getBusRouteTimeline_counts_witness :
    Examples.route1Timeline.metadata.completed_stops =
        Examples.route1Timeline.timeline.current_stop_index ∧
      Examples.route1Timeline.metadata.completed_stops + 1 +
        Examples.route1Timeline.metadata.remaining_stops =
        Examples.route1Timeline.metadata.total_stops :=
  have h := getBusRouteTimeline_counts Examples.decimalEnv Examples.timelineDb 600
    ⟨"1", none⟩ Examples.route1Timeline (by decide)
  ⟨h.2.1, h.2.2.1⟩

/-- Witness of `getBusRouteTimeline_last_seen`: the bus without a session is
shown at the second stop of route 1. -/
theorem getBusRouteTimeline_last_seen_witness :
    ∃ stop, Examples.route1Timeline.timeline.stops[
        Examples.route1Timeline.timeline.current_stop_index]? = some stop ∧
      stop.status = "current" ∧
      Examples.route1Timeline.bus.last_seen =
        some ⟨stop.name, "current", stop.arrivalTime, stop.eta, "Currently at " ++ stop.name⟩ ∧
      Examples.route1Timeline.timeline.last_seen_stop = Examples.route1Timeline.bus.last_seen :=
  getBusRouteTimeline_last_seen Examples.decimalEnv Examples.timelineDb 600 ⟨"1", none⟩
    Examples.route1Timeline (by decide)

/-! ### The ETA of the current stop of a tracked bus -/

/-- In real-time mode the stop at the current index, when it has neither a
predicted arrival nor an arrival time, gets the ETA `2-5 min` exactly for the
bus status `Running` and `At stop` for every other status. -/
theorem transformStop_current_eta (busStatus : String) (now current : Nat)
    (stop : RouteController.StopRow) (hpredicted : stop.predicted_arrival.truthy = false)
    (harrival : stop.arrival_time.truthy = false) :
    (RouteController.transformStop true busStatus now current current stop).status =
        "current" ∧
      (RouteController.transformStop true busStatus now current current stop).eta =
        if busStatus = "Running" then "2-5 min" else "At stop" := by
  simp [RouteController.transformStop, RouteController.calculateETA, hpredicted, harrival]

/-- C21 at its failing input: bus 2 has the status `running` and an open
session on route 2, and has left the first stop; the second stop is the current
one and has neither a predicted arrival nor an arrival time, and
getBusRouteTimeline gives it the ETA `At stop`. -/
theorem getBusRouteTimeline_running_bus_at_stop :
    (RouteController.realTimeStopsQuery Examples.tripDb 1 2 2).map
        (fun row => (row.stop.stop_id, row.predicted_arrival, row.arrival_time)) =
        [(21, .null, .str "2026-11-04 09:00:00"), (22, .null, .null), (23, .null, .null)] ∧
      (match RouteController.getBusRouteTimeline Examples.decimalEnv Examples.tripDb 600
          ⟨"2", none⟩ with
        | .ok data => some (data.bus.status, data.bus.is_real_time)
        | .error _ _ => none) = some ("running", true) ∧
      (match RouteController.getBusRouteTimeline Examples.decimalEnv Examples.tripDb 600
          ⟨"2", none⟩ with
        | .ok data =>
          some (data.timeline.current_stop_index,
            data.timeline.stops.map fun s => (s.id, s.status, s.eta))
        | .error _ _ => none) =
        some (1,
          [(21, "completed", "Arrived"), (22, "current", "At stop"),
            (23, "upcoming", "12 min")]) := by
  refine ⟨by decide, by decide, by decide⟩

/-! ### The route names of `getBusRouteStops` -/

/-- Every row of the `stopsQuery` pairs a stop with a row of the routes table
that has the stop's route id. -/
theorem mem_stopsQuery (env : SqlEnv) (db : Database) (routeId : JsVal) (row : Stop × Route)
    (h : row ∈ BusController.stopsQuery env db routeId) :
    row.1 ∈ db.stops ∧ env.intEq row.1.route_id routeId = true ∧ row.2 ∈ db.routes ∧
      row.1.route_id = row.2.route_id := by
  unfold BusController.stopsQuery orderBy at h
  rw [(List.perm_insertionSort _ _).mem_iff] at h
  simp only [List.mem_flatMap, List.mem_filter, List.mem_map] at h
  obtain ⟨s, ⟨hs, hroute⟩, r, ⟨hr, hjoin⟩, hrow⟩ := h
  subst hrow
  exact ⟨hs, hroute, hr, by simpa using hjoin⟩

/-- In every answer of getBusRouteStops with a non-empty timeline,
`route.destination_stop` is the `source_name` of the routes row joined to the
last stop of the resolved route, and `route.source_stop` and `route.route_name`
are taken from the routes row joined to the first. -/
theorem getBusRouteStops_route_names (env : SqlEnv) (db : Database) (busId : String)
    (requested : Option String) (data : BusController.RouteStopsData)
    (h : BusController.getBusRouteStops env db busId requested = .ok data)
    (hne : data.timeline.stops ≠ []) :
    ∃ first last, (BusController.stopsQuery env db data.route.route_id).head? = some first ∧
      (BusController.stopsQuery env db data.route.route_id).getLast? = some last ∧
      data.route.route_name =
        some (first.2.source_name ++ " to " ++ first.2.destination_name) ∧
      data.route.source_stop = some first.2.source_name ∧
      data.route.destination_stop = some last.2.source_name := by
  unfold BusController.getBusRouteStops at h
  by_cases hid : busId = ""
  · simp [hid] at h
  · simp only [hid, if_false] at h
    cases hrow : BusController.busRouteQuery env db busId with
    | none => simp [hrow] at h
    | some found =>
      obtain ⟨bus, route⟩ := found
      simp only [hrow] at h
      cases htruthy : (BusController.resolveRouteId db route requested).truthy with
      | false => simp [htruthy] at h
      | true =>
        simp only [htruthy, Bool.not_true, Bool.false_eq_true, if_false] at h
        cases hstops : BusController.stopsQuery env db
            (BusController.resolveRouteId db route requested) with
        | nil =>
          simp only [hstops, BusController.RouteStopsResponse.ok.injEq] at h
          subst h
          exact absurd rfl hne
        | cons first rest =>
          simp only [hstops, BusController.RouteStopsResponse.ok.injEq] at h
          subst h
          refine ⟨first, (first :: rest).getLast (List.cons_ne_nil first rest), ?_, ?_, rfl, rfl,
            rfl⟩
          · simp only [hstops, List.head?_cons]
          · simp only [hstops]
            exact List.getLast?_eq_getLast _ _

/-- C22 at its failing input: route 1 of the tables runs from Chandigarh to
Ludhiana; the answer of getBusRouteStops for bus 1 with `route_id=1` has four
stops, the route name `Chandigarh to Ludhiana` and the source stop
`Chandigarh`, and its `destination_stop` is `Chandigarh` too. -/
theorem getBusRouteStops_destination_is_source :
    (Examples.timelineDb.routes.filter fun r => r.route_id == 1) =
        [⟨1, "Chandigarh", "Ludhiana", .num 95⟩] ∧
      (match BusController.getBusRouteStops Examples.decimalEnv Examples.timelineDb "1"
          (some "1") with
        | .ok data =>
          some (data.route.route_name, data.route.source_stop, data.route.destination_stop)
        | .error _ _ => none) =
        some (some "Chandigarh to Ludhiana", some "Chandigarh", some "Chandigarh") ∧
      (match BusController.getBusRouteStops Examples.decimalEnv Examples.timelineDb "1"
          (some "1") with
        | .ok data => some (data.route.total_stops, data.timeline.stops.map fun s => s.id)
        | .error _ _ => none) = some (4, [11, 12, 13, 14]) := by
  refine ⟨by decide, by decide, by decide⟩

/-! ### The estimated time of the timeline card -/

/-- The text of a positive total: the minutes below an hour, the hours and
the minutes left over from an hour on. -/
theorem etaText_render (total : Int) (hpos : 0 < total) :
    (total < 60 → RouteTimelineCard.etaText total = toString total ++ " min") ∧
      (60 ≤ total →
        RouteTimelineCard.etaText total =
            toString (total / 60) ++ "h " ++ toString (total % 60) ++ "m" ∧
          60 * (total / 60) + total % 60 = total ∧ 0 ≤ total % 60 ∧ total % 60 < 60) := by
  unfold RouteTimelineCard.etaText
  constructor
  · intro hlt
    have hdiv : total / 60 = 0 := Int.ediv_eq_zero_of_lt (le_of_lt hpos) hlt
    have hmod : total % 60 = total := Int.emod_eq_of_lt (le_of_lt hpos) hlt
    simp [hdiv, hmod]
  · intro hge
    have hdiv : total / 60 > 0 := by omega
    simp only [hdiv, if_true, true_and]
    refine ⟨by omega, by omega, by omega⟩

/-- The estimate `generateFallbackStops` sets is the ETA of the last stop it
generates. -/
theorem generateFallbackStops_estimate (inherited : String → String → Bool)
    (props : RouteTimelineCard.Props) (s s' : RouteTimelineCard.State)
    (routeInfo : Option RouteTimelineCard.RouteInfo)
    (h : RouteTimelineCard.generateFallbackStops inherited props s routeInfo = some s') :
    ∃ last text, s'.routeStops.getLast? = some last ∧ last.eta = .str text ∧
      s'.realEstimatedTime = some text := by
  unfold RouteTimelineCard.generateFallbackStops at h
  cases hstops : RouteTimelineCard.getIntermediateStops inherited
      (RouteTimelineCard.fallbackLocations props routeInfo).1
      (RouteTimelineCard.fallbackLocations props routeInfo).2 with
  | none => simp [hstops] at h
  | some names =>
    simp only [hstops, Option.some.injEq] at h
    subst h
    exact ⟨_, toString (30 + names.length * 12) ++ " min", List.getLast?_concat _, rfl, rfl⟩

/-- C23 at its failing input: bus 1 has no open session, so getBusRouteTimeline
answers in static mode with the ETAs `Passed`, `5 min`, `15 min` and `30 min`,
each counted from now; the card adds up the three from the current stop on and
shows `50 min`, whatever distances the answer carries, while the last stop is
30 minutes away. -/
theorem fetchRouteData_adds_up_etas (distance : Nat → JsVal) :
    RouteController.getBusRouteTimeline Examples.decimalEnv Examples.timelineDb 600
        ⟨"1", none⟩ = .ok Examples.route1Timeline ∧
      Examples.route1Timeline.timeline.mode = "static" ∧
      Examples.route1Timeline.timeline.stops.map (fun s => (s.status, s.eta)) =
        [("completed", "Passed"), ("current", "5 min"), ("upcoming", "15 min"),
          ("upcoming", "30 min")] ∧
      (RouteTimelineCard.fetchRouteData Examples.inheritedName Examples.cardProps
        Examples.emptyCard
        (.responds (some (RouteTimelineCard.received distance
          Examples.route1Timeline)))).realEstimatedTime = some "50 min" := by
  refine ⟨by decide, by decide, by decide, ?_⟩
  rfl

end SmartBus
